import Mathlib

/-!
# STRIDE backend: task workflow, identity resolver, announcements, activities

A shallow embedding of `src/routes/universityRoutes.js`.

* The relational datastore is a record of tables (lists of rows in insertion
  order) with one AUTO_INCREMENT counter per table.
* A request handler is a function from the world before the request (datastore
  and the `uploads/tareas` directory) to the world after it and the response.
* `connection.execute` calls of one handler are numbered `0, 1, 2, ...` in the
  order in which they are issued (`beginTransaction` and `commit` included); an
  oracle `Nat → Option String` says which of them the datastore rejects, and
  with which message.  A rejected call throws, exactly like a failing `await`.
* `ROLLBACK` restores the snapshot taken by `beginTransaction`.
* Ids travel as numbers, and dates as epoch milliseconds; text fields of a
  multipart body are `Option String` (`none` is JavaScript `undefined`).
* `JSON.parse`, `bcrypt.compare` and `bcrypt.hash` are parameters of the
  handlers that call them, and so are the time zone of the host and the
  answers of `fs.existsSync`.
-/

namespace Stride

/-! ## JavaScript helpers -/

/-- ECMAScript `WhiteSpace` and `LineTerminator` code points: the characters
that `String.prototype.trim` strips. -/
def jsWhite (c : Char) : Bool :=
  let n := c.toNat
  n == 0x09 || n == 0x0A || n == 0x0B || n == 0x0C || n == 0x0D || n == 0x20 ||
  n == 0xA0 || n == 0x1680 || (0x2000 ≤ n && n ≤ 0x200A) || n == 0x2028 ||
  n == 0x2029 || n == 0x202F || n == 0x205F || n == 0x3000 || n == 0xFEFF

/-- The test `!x?.trim()` on a text field: true for `undefined`, for the empty
string and for a string made of white space only. -/
def noTrim : Option String → Bool
  | none => true
  | some s => s.data.all jsWhite

/-- JavaScript truthiness of a text field (`undefined` and `''` are falsy). -/
def truthy : Option String → Bool
  | none => false
  | some s => s != ""

/-- The expression `x || null` on a text field; SQL `NULL` is `none`. -/
def orNull (x : Option String) : Option String :=
  if truthy x then x else none

/-- The expression `x || d` on a text field. -/
def orDefault (x : Option String) (d : String) : String :=
  match x with
  | some s => if s != "" then s else d
  | none => d

/-- What the driver does with a bound parameter: `undefined` makes
`connection.execute` throw before anything is sent. -/
def bindParam {α : Type} : Option α → Except String α
  | some a => Except.ok a
  | none => Except.error "Bind parameters must not contain undefined. To pass SQL NULL specify JS null"

/-! ## Data model -/

/-- Row of `tareas`. -/
structure Tarea where
  id : Nat
  titulo : String
  descripcion : Option String
  fecha_entrega : Nat
  creado_por_id : Nat
  creado_por_tipo : String
  fecha_creacion : Nat
  deriving DecidableEq, Repr

/-- Row of `tareas_asignaciones`. -/
structure Asignacion where
  id : Nat
  tarea_id : Nat
  usuario_id : Nat
  usuario_tipo : String
  estado : String
  comentarios : Option String
  fecha_completado : Option Nat
  deriving DecidableEq, Repr

/-- Row of `tareas_archivos`. -/
structure Archivo where
  id : Nat
  tarea_id : Nat
  nombre_original : String
  nombre_archivo : String
  ruta_archivo : String
  tipo_mime : String
  tamano : Nat
  deriving DecidableEq, Repr

/-- Row of `tareas_historial`. -/
structure Historial where
  id : Nat
  tarea_id : Nat
  usuario_id : Nat
  usuario_tipo : String
  accion : String
  descripcion : String
  fecha : Nat
  deriving DecidableEq, Repr

/-- The four tables of the task workflow and their AUTO_INCREMENT counters. -/
structure Db where
  tareas : List Tarea
  tareas_asignaciones : List Asignacion
  tareas_archivos : List Archivo
  tareas_historial : List Historial
  nextTarea : Nat
  nextAsignacion : Nat
  nextArchivo : Nat
  nextHistorial : Nat
  deriving DecidableEq, Repr

/-- A file as the upload middleware hands it over in `req.files`; it has
already been written to `uploads/tareas/<filename>`. -/
structure File where
  originalname : String
  filename : String
  mimetype : String
  size : Nat
  deriving DecidableEq, Repr

/-- Datastore plus the names present in `uploads/tareas`. -/
structure World where
  db : Db
  fs : List String
  deriving DecidableEq, Repr

/-- A value in a JSON response body. -/
inductive Dato where
  | num (n : Nat)
  | str (s : String)
  | nul
  deriving DecidableEq, Repr

/-- The JSON envelope sent by `res.status(..).json(..)`. -/
structure Response where
  status : Nat
  success : Bool
  error : Option String
  message : Option String
  data : List (String × Dato)
  deriving DecidableEq, Repr

/-- An error response `{ success: false, error }`. -/
def Response.fallo (status : Nat) (error : String) : Response :=
  { status := status, success := false, error := some error, message := none, data := [] }

/-- Which datastore calls fail: `o k = some m` makes call number `k` of the
handler throw an error with message `m`. -/
abbrev Oracle := Nat → Option String

/-- The oracle of a healthy datastore. -/
def sinFallos : Oracle := fun _ => none

/-! ## Blob store -/

/-- The call `fs.unlinkSync(path)`: removes the file, throws when there is none. -/
def unlinkSync (fs : List String) (name : String) : Except String (List String) :=
  if name ∈ fs then Except.ok (fs.filter (fun n => n != name))
  else Except.error ("ENOENT: no such file or directory, unlink " ++ name)

/-- The loop `req.files.forEach(file => fs.unlinkSync(file.path))`: stops at the
first throw.  Returns the directory reached and the error thrown, if any. -/
def unlinkEach : List String → List File → List String × Option String
  | fs, [] => (fs, none)
  | fs, f :: rest =>
    match unlinkSync fs f.filename with
    | Except.ok fs1 => unlinkEach fs1 rest
    | Except.error m => (fs, some m)

/-- The loop `req.files.forEach(file => { try { fs.unlinkSync(file.path); } catch (err) {} })`. -/
def unlinkEachQuiet : List String → List File → List String
  | fs, [] => fs
  | fs, f :: rest =>
    match unlinkSync fs f.filename with
    | Except.ok fs1 => unlinkEachQuiet fs1 rest
    | Except.error _ => unlinkEachQuiet fs rest

/-! ## Transactions -/

/-- An open transaction: the working copy of the datastore and the number of
datastore calls the handler has issued so far. -/
structure Tx where
  db : Db
  paso : Nat
  deriving DecidableEq, Repr

/-- One `await connection.execute(..)`: the oracle may reject the call, the
statement itself may be rejected by a constraint; otherwise the working copy
is updated and the result handed back. -/
def Tx.execute {α : Type} (o : Oracle) (tx : Tx) (stmt : Db → Except String (Db × α)) :
    Except String (Tx × α) :=
  match o tx.paso with
  | some m => Except.error m
  | none =>
    match stmt tx.db with
    | Except.error m => Except.error m
    | Except.ok (db, a) => Except.ok ({ db := db, paso := tx.paso + 1 }, a)

/-- The calls `beginTransaction()` and `commit()`: a datastore call without
effect on the working copy. -/
def Tx.ping (o : Oracle) (tx : Tx) : Except String Tx :=
  match o tx.paso with
  | some m => Except.error m
  | none => Except.ok { db := tx.db, paso := tx.paso + 1 }

/-- Message of a rejected insert whose `tarea_id` names no task (the child
tables reference `tareas` with ON DELETE CASCADE). -/
def fkError : String := "Cannot add or update a child row: a foreign key constraint fails"

/-- True when `tareas` has a row with this id. -/
def Db.hasTarea (db : Db) (id : Nat) : Bool :=
  db.tareas.any (fun t => t.id == id)

/-- The statement `INSERT INTO tareas (titulo, descripcion, fecha_entrega,
creado_por_id, creado_por_tipo)`; yields `insertId`. -/
def Db.insertTarea (titulo : String) (descripcion : Option String) (fecha_entrega : Nat)
    (creado_por_id : Nat) (creado_por_tipo : String) (now : Nat) (db : Db) :
    Except String (Db × Nat) :=
  Except.ok ({ db with
      tareas := db.tareas ++ [{ id := db.nextTarea, titulo := titulo, descripcion := descripcion,
                                fecha_entrega := fecha_entrega, creado_por_id := creado_por_id,
                                creado_por_tipo := creado_por_tipo, fecha_creacion := now }],
      nextTarea := db.nextTarea + 1 }, db.nextTarea)

/-- The statement `INSERT INTO tareas_asignaciones (tarea_id, usuario_id,
usuario_tipo, estado) VALUES (?, ?, ?, 'pendiente')`. -/
def Db.insertAsignacion (tarea_id usuario_id : Nat) (usuario_tipo : String) (db : Db) :
    Except String (Db × Nat) :=
  if db.hasTarea tarea_id then
    Except.ok ({ db with
      tareas_asignaciones := db.tareas_asignaciones ++
        [{ id := db.nextAsignacion, tarea_id := tarea_id, usuario_id := usuario_id,
           usuario_tipo := usuario_tipo, estado := "pendiente", comentarios := none,
           fecha_completado := none }],
      nextAsignacion := db.nextAsignacion + 1 }, db.nextAsignacion)
  else Except.error fkError

/-- The statement `INSERT INTO tareas_archivos (tarea_id, nombre_original,
nombre_archivo, ruta_archivo, tipo_mime, tamano)` for one uploaded file. -/
def Db.insertArchivo (tarea_id : Nat) (f : File) (db : Db) : Except String (Db × Nat) :=
  if db.hasTarea tarea_id then
    Except.ok ({ db with
      tareas_archivos := db.tareas_archivos ++
        [{ id := db.nextArchivo, tarea_id := tarea_id, nombre_original := f.originalname,
           nombre_archivo := f.filename, ruta_archivo := f.filename, tipo_mime := f.mimetype,
           tamano := f.size }],
      nextArchivo := db.nextArchivo + 1 }, db.nextArchivo)
  else Except.error fkError

/-- The statement `INSERT INTO tareas_historial (tarea_id, usuario_id,
usuario_tipo, accion, descripcion)`. -/
def Db.insertHistorial (tarea_id usuario_id : Nat) (usuario_tipo accion descripcion : String)
    (now : Nat) (db : Db) : Except String (Db × Nat) :=
  if db.hasTarea tarea_id then
    Except.ok ({ db with
      tareas_historial := db.tareas_historial ++
        [{ id := db.nextHistorial, tarea_id := tarea_id, usuario_id := usuario_id,
           usuario_tipo := usuario_tipo, accion := accion, descripcion := descripcion,
           fecha := now }],
      nextHistorial := db.nextHistorial + 1 }, db.nextHistorial)
  else Except.error fkError

/-! ## The `asignaciones` payload -/

/-- One element of the parsed `asignaciones` array, as the handlers read it:
the properties `usuario_id` and `usuario_tipo` (`none` is `undefined`). -/
structure AsigEntry where
  usuario_id : Option Nat
  usuario_tipo : Option String
  deriving DecidableEq, Repr

/-- The value of `JSON.parse(asignaciones)` as far as the handlers observe it. -/
inductive Parsed where
  /-- The values `null`, a boolean, a number or an object: neither an array nor iterable. -/
  | escalar
  /-- A string of `n` characters: not an array, iterable character by character. -/
  | texto (n : Nat)
  /-- An array; a `null` element is `none` (reading a property of it throws). -/
  | arreglo (items : List (Option AsigEntry))
  deriving DecidableEq, Repr

/-- The elements that `for (const asig of value)` visits; `none` when the value
is not iterable (the loop throws a TypeError). -/
def Parsed.iter : Parsed → Option (List (Option AsigEntry))
  | Parsed.escalar => none
  | Parsed.texto n => some (List.replicate n (some { usuario_id := none, usuario_tipo := none }))
  | Parsed.arreglo items => some items

/-- The loop `for (const asig of list) await connection.execute(INSERT INTO
tareas_asignaciones ..., [tareaId, asig.usuario_id, asig.usuario_tipo])`. -/
def insertAsignaciones (o : Oracle) (tareaId : Nat) : Tx → List (Option AsigEntry) → Except String Tx
  | tx, [] => Except.ok tx
  | tx, asig :: rest =>
    match asig with
    | none => Except.error "Cannot read properties of null (reading usuario_id)"
    | some e =>
      match bindParam e.usuario_id, bindParam e.usuario_tipo with
      | Except.ok uid, Except.ok ut =>
        match tx.execute o (Db.insertAsignacion tareaId uid ut) with
        | Except.ok (tx1, _) => insertAsignaciones o tareaId tx1 rest
        | Except.error m => Except.error m
      | Except.error m, _ => Except.error m
      | _, Except.error m => Except.error m

/-- The loop `for (const file of req.files) await connection.execute(INSERT INTO
tareas_archivos ...)`. -/
def insertArchivos (o : Oracle) (tareaId : Nat) : Tx → List File → Except String Tx
  | tx, [] => Except.ok tx
  | tx, f :: rest =>
    match tx.execute o (Db.insertArchivo tareaId f) with
    | Except.ok (tx1, _) => insertArchivos o tareaId tx1 rest
    | Except.error m => Except.error m

/-! ## Statements on existing rows -/

/-- The statement `UPDATE tareas_asignaciones SET estado = ?, comentarios = ?,
fecha_completado = ? WHERE id = ?`. -/
def Db.updateAsignacion (id : Nat) (estado : String) (comentarios : Option String)
    (fecha_completado : Option Nat) (db : Db) : Except String (Db × Unit) :=
  Except.ok ({ db with
    tareas_asignaciones := db.tareas_asignaciones.map (fun a =>
      if a.id = id then
        { a with estado := estado, comentarios := comentarios, fecha_completado := fecha_completado }
      else a) }, ())

/-- The statement `UPDATE tareas SET titulo = ?, descripcion = ?, fecha_entrega = ?
WHERE id = ?`. -/
def Db.updateTarea (id : Nat) (titulo : String) (descripcion : Option String)
    (fecha_entrega : Nat) (db : Db) : Except String (Db × Unit) :=
  Except.ok ({ db with
    tareas := db.tareas.map (fun t =>
      if t.id = id then
        { t with titulo := titulo, descripcion := descripcion, fecha_entrega := fecha_entrega }
      else t) }, ())

/-- The statement `DELETE FROM tareas_asignaciones WHERE tarea_id = ?`. -/
def Db.deleteAsignacionesDe (tarea_id : Nat) (db : Db) : Except String (Db × Unit) :=
  Except.ok ({ db with
    tareas_asignaciones := db.tareas_asignaciones.filter (fun a => a.tarea_id != tarea_id) }, ())

/-- The statement `DELETE FROM tareas WHERE id = ?`, with the cascade to the
three child tables; yields `affectedRows`. -/
def Db.deleteTarea (id : Nat) (db : Db) : Except String (Db × Nat) :=
  Except.ok ({ db with
    tareas := db.tareas.filter (fun t => t.id != id),
    tareas_asignaciones := db.tareas_asignaciones.filter (fun a => a.tarea_id != id),
    tareas_archivos := db.tareas_archivos.filter (fun a => a.tarea_id != id),
    tareas_historial := db.tareas_historial.filter (fun h => h.tarea_id != id) },
    (db.tareas.filter (fun t => t.id == id)).length)

/-- The query `SELECT * FROM tareas_asignaciones WHERE id = ?`. -/
def Db.selectAsignacion (id : Nat) (db : Db) : Except String (Db × List Asignacion) :=
  Except.ok (db, db.tareas_asignaciones.filter (fun a => a.id == id))

/-- The query `SELECT ta.*, t.titulo FROM tareas_asignaciones ta INNER JOIN
tareas t ON ta.tarea_id = t.id WHERE ta.id = ?`. -/
def Db.selectAsignacionConTitulo (id : Nat) (db : Db) :
    Except String (Db × List (Asignacion × String)) :=
  Except.ok (db, ((db.tareas_asignaciones.filter (fun a => a.id == id)).map (fun a =>
    (db.tareas.filter (fun t => t.id == a.tarea_id)).map (fun t => (a, t.titulo)))).flatten)

/-- The query `SELECT * FROM tareas_archivos WHERE tarea_id = ?`. -/
def Db.selectArchivos (tarea_id : Nat) (db : Db) : Except String (Db × List Archivo) :=
  Except.ok (db, db.tareas_archivos.filter (fun a => a.tarea_id == tarea_id))

/-! ## Handlers of the task workflow -/

/-- What a `try` block ends with: a response sent together with the world
reached, or an exception, thrown with the upload directory as it is then. -/
abbrev Intento := Except (List String × String) (World × Response)

/-- A rejection written as `req.files.forEach(file => fs.unlinkSync(file.path))`
around `rollback()` and `res.status(status).json(..)`: the transaction is
rolled back, the received files are removed; a throwing `unlinkSync` leaves
the handler through its `catch`. -/
def rechazar (w : World) (files : List File) (status : Nat) (error : String) : Intento :=
  match unlinkEach w.fs files with
  | (fs1, none) => Except.ok ({ db := w.db, fs := fs1 }, Response.fallo status error)
  | (fs1, some m) => Except.error (fs1, m)

/-- Body and files of `POST /tareas`, and the clock. -/
structure CrearReq where
  titulo : Option String
  descripcion : Option String
  fecha_entrega : Option Nat
  creado_por_id : Option Nat
  creado_por_tipo : Option String
  asignaciones : Option String
  files : List File
  now : Nat
  deriving DecidableEq, Repr

/-- The array accepted by `POST /tareas`: `JSON.parse` did not throw, the value
is an array and it is not empty. -/
def arregloNoVacio : Option Parsed → Option (List (Option AsigEntry))
  | some (Parsed.arreglo (a :: rest)) => some (a :: rest)
  | _ => none

/-- The statements of `POST /tareas` from the task insert to `commit`. -/
def crearTx (o : Oracle) (tx0 : Tx) (titulo : String) (descripcion : Option String)
    (fecha_entrega creado_por_id : Nat) (creado_por_tipo : String) (now : Nat)
    (items : List (Option AsigEntry)) (files : List File) : Except String (Db × Nat) := do
  let (tx1, tareaId) ← tx0.execute o
    (Db.insertTarea titulo descripcion fecha_entrega creado_por_id creado_por_tipo now)
  let tx2 ← insertAsignaciones o tareaId tx1 items
  let tx3 ← insertArchivos o tareaId tx2 files
  let (tx4, _) ← tx3.execute o
    (Db.insertHistorial tareaId creado_por_id creado_por_tipo "creada"
      ("Tarea creada con " ++ toString items.length ++ " asignaciones") now)
  let tx5 ← tx4.ping o
  pure (tx5.db, tareaId)

/-- The `try` block of `POST /tareas`. -/
def postTareasTry (parse : String → Option Parsed) (o : Oracle) (w : World) (req : CrearReq) :
    Intento :=
  match Tx.ping o { db := w.db, paso := 0 } with
  | Except.error m => Except.error (w.fs, m)
  | Except.ok tx0 =>
    match req.titulo, req.fecha_entrega, req.creado_por_id, req.asignaciones with
    | some titulo, some fecha, some cid, some asig =>
      if titulo = "" ∨ asig = "" then
        rechazar w req.files 400 "Todos los campos son requeridos"
      else
        match arregloNoVacio (parse asig) with
        | none => rechazar w req.files 400 "Formato de asignaciones inválido"
        | some items =>
          match crearTx o tx0 titulo (orNull req.descripcion) fecha cid
              (orDefault req.creado_por_tipo "superadmin") req.now items req.files with
          | Except.error m => Except.error (w.fs, m)
          | Except.ok (db, tareaId) =>
            Except.ok ({ db := db, fs := w.fs },
              { status := 201, success := true, error := none,
                message := some "Tarea creada exitosamente",
                data := [("tareaId", Dato.num tareaId),
                         ("asignaciones", Dato.num items.length),
                         ("archivos", Dato.num req.files.length)] })
    | _, _, _, _ => rechazar w req.files 400 "Todos los campos son requeridos"

/-- The handler `router.post('/tareas')`: the `try` block, and the `catch` that
rolls back, removes the received files and answers 500 with `error.message`. -/
def postTareas (parse : String → Option Parsed) (o : Oracle) (w : World) (req : CrearReq) :
    World × Response :=
  match postTareasTry parse o w req with
  | Except.ok r => r
  | Except.error (fs1, m) =>
    ({ db := w.db, fs := unlinkEachQuiet fs1 req.files },
      Response.fallo 500 (if m = "" then "Error al crear la tarea" else m))

/-- Parameters, body and files of `POST /tareas/completar/:asignacionId`. -/
structure CompletarReq where
  asignacionId : Nat
  comentarios : Option String
  files : List File
  now : Nat
  deriving DecidableEq, Repr

/-- The description written to the history by a completion. -/
def descripcionCompletada (comentarios : Option String) (files : List File) : String :=
  "Tarea completada" ++ (if truthy comentarios then " con comentarios" else "") ++
    (if files.length > 0 then " y " ++ toString files.length ++ " archivo(s)" else "")

/-- The statements of a completion from the update to `commit`. -/
def completarTx (o : Oracle) (tx1 : Tx) (req : CompletarReq) (asignacion : Asignacion) :
    Except String Db := do
  let (tx2, _) ← tx1.execute o
    (Db.updateAsignacion req.asignacionId "completada" (orNull req.comentarios) (some req.now))
  let tx3 ← insertArchivos o asignacion.tarea_id tx2 req.files
  let (tx4, _) ← tx3.execute o
    (Db.insertHistorial asignacion.tarea_id asignacion.usuario_id "personal" "completada"
      (descripcionCompletada req.comentarios req.files) req.now)
  let tx5 ← tx4.ping o
  pure tx5.db

/-- The `try` block of `POST /tareas/completar/:asignacionId`. -/
def postTareasCompletarTry (o : Oracle) (w : World) (req : CompletarReq) : Intento :=
  match Tx.ping o { db := w.db, paso := 0 } with
  | Except.error m => Except.error (w.fs, m)
  | Except.ok tx0 =>
    if noTrim req.comentarios && req.files.isEmpty then
      rechazar w req.files 400 "Debes agregar una descripción o un archivo para completar la tarea"
    else
      match tx0.execute o (Db.selectAsignacionConTitulo req.asignacionId) with
      | Except.error m => Except.error (w.fs, m)
      | Except.ok (_, []) => rechazar w req.files 404 "Asignación no encontrada"
      | Except.ok (tx1, (asignacion, titulo) :: _) =>
        match completarTx o tx1 req asignacion with
        | Except.error m => Except.error (w.fs, m)
        | Except.ok db =>
          Except.ok ({ db := db, fs := w.fs },
            { status := 200, success := true, error := none,
              message := some "¡Felicidades! Tarea completada exitosamente",
              data := [("tarea", Dato.str titulo),
                       ("comentarios", match orNull req.comentarios with
                                       | some c => Dato.str c
                                       | none => Dato.nul),
                       ("archivos", Dato.num req.files.length)] })

/-- The handler `router.post('/tareas/completar/:asignacionId')`. -/
def postTareasCompletar (o : Oracle) (w : World) (req : CompletarReq) : World × Response :=
  match postTareasCompletarTry o w req with
  | Except.ok r => r
  | Except.error (fs1, _) =>
    ({ db := w.db, fs := unlinkEachQuiet fs1 req.files },
      Response.fallo 500 "Error al completar la tarea")

/-- Parameters and JSON body of `PUT /tareas/asignacion/:id`, and the clock. -/
structure EstadoReq where
  id : Nat
  estado : Option String
  comentarios : Option String
  usuario_id : Option Nat
  usuario_tipo : Option String
  now : Nat
  deriving DecidableEq, Repr

/-- The expression `usuario_id || 1` (the number `0` is falsy). -/
def usuarioOUno : Option Nat → Nat
  | some 0 => 1
  | some n => n
  | none => 1

/-- The statements of a state update from the update to `commit`. -/
def estadoTx (o : Oracle) (tx1 : Tx) (req : EstadoReq) (asignacion : Asignacion) :
    Except String Db := do
  let estado ← bindParam req.estado
  let fechaCompletado := if estado = "completada" then some req.now else none
  let (tx2, _) ← tx1.execute o
    (Db.updateAsignacion req.id estado (orNull req.comentarios) fechaCompletado)
  let (tx3, _) ← tx2.execute o
    (Db.insertHistorial asignacion.tarea_id (usuarioOUno req.usuario_id)
      (orDefault req.usuario_tipo "superadmin") "actualizacion"
      ("Estado de asignación actualizado a: " ++ estado) req.now)
  let tx4 ← tx3.ping o
  pure tx4.db

/-- The handler `router.put('/tareas/asignacion/:id')`; it receives no files. -/
def putTareasAsignacion (o : Oracle) (w : World) (req : EstadoReq) : World × Response :=
  let error500 : World × Response := (w, Response.fallo 500 "Error al actualizar estado")
  match Tx.ping o { db := w.db, paso := 0 } with
  | Except.error _ => error500
  | Except.ok tx0 =>
    match tx0.execute o (Db.selectAsignacion req.id) with
    | Except.error _ => error500
    | Except.ok (_, []) => (w, Response.fallo 404 "Asignación no encontrada")
    | Except.ok (tx1, asignacion :: _) =>
      match estadoTx o tx1 req asignacion with
      | Except.error _ => error500
      | Except.ok db =>
        ({ db := db, fs := w.fs },
          { status := 200, success := true, error := none,
            message := some "Estado actualizado correctamente", data := [] })

/-- Parameters, body and files of `PUT /tareas/:id`. -/
structure EditarReq where
  id : Nat
  titulo : Option String
  descripcion : Option String
  fecha_entrega : Option Nat
  asignaciones : Option String
  files : List File
  deriving DecidableEq, Repr

/-- Step 2 of `PUT /tareas/:id`: when `asignaciones` is truthy, parse it, delete
the assignments of the task and insert the parsed ones. -/
def reemplazarAsignaciones (parse : String → Option Parsed) (o : Oracle) (tx : Tx) (req : EditarReq) :
    Except String Tx :=
  match req.asignaciones with
  | none => Except.ok tx
  | some asig =>
    if asig = "" then Except.ok tx
    else
      match parse asig with
      | none => Except.error "Unexpected token in JSON"
      | some nuevas =>
        match tx.execute o (Db.deleteAsignacionesDe req.id) with
        | Except.error m => Except.error m
        | Except.ok (tx1, _) =>
          match nuevas.iter with
          | none => Except.error "nuevasAsignaciones is not iterable"
          | some items => insertAsignaciones o req.id tx1 items

/-- The statements of `PUT /tareas/:id` from the task update to `commit`. -/
def editarTx (parse : String → Option Parsed) (o : Oracle) (tx0 : Tx) (req : EditarReq) :
    Except String Db := do
  let titulo ← bindParam req.titulo
  let fecha ← bindParam req.fecha_entrega
  let (tx1, _) ← tx0.execute o (Db.updateTarea req.id titulo (orNull req.descripcion) fecha)
  let tx2 ← reemplazarAsignaciones parse o tx1 req
  let tx3 ← insertArchivos o req.id tx2 req.files
  let tx4 ← tx3.ping o
  pure tx4.db

/-- The handler `router.put('/tareas/:id')`; its `catch` rolls back and answers
500, and does not touch the received files. -/
def putTareas (parse : String → Option Parsed) (o : Oracle) (w : World) (req : EditarReq) :
    World × Response :=
  let error500 : World × Response := (w, Response.fallo 500 "Error al editar la tarea")
  match Tx.ping o { db := w.db, paso := 0 } with
  | Except.error _ => error500
  | Except.ok tx0 =>
    match editarTx parse o tx0 req with
    | Except.error _ => error500
    | Except.ok db =>
      ({ db := db, fs := w.fs },
        { status := 200, success := true, error := none,
          message := some "Tarea actualizada exitosamente", data := [] })

/-- The loop of `DELETE /tareas/:id` over the attachment rows:
`try { if (fs.existsSync(filePath)) fs.unlinkSync(filePath); } catch (err) { .. }`. -/
def borrarArchivos : List String → List Archivo → List String
  | fs, [] => fs
  | fs, a :: rest =>
    if a.ruta_archivo ∈ fs then
      match unlinkSync fs a.ruta_archivo with
      | Except.ok fs1 => borrarArchivos fs1 rest
      | Except.error _ => borrarArchivos fs rest
    else borrarArchivos fs rest

/-- The handler `router.delete('/tareas/:id')`.  The files are removed before
the row is deleted, and a rollback does not bring them back. -/
def deleteTareas (o : Oracle) (w : World) (id : Nat) : World × Response :=
  match Tx.ping o { db := w.db, paso := 0 } with
  | Except.error _ => (w, Response.fallo 500 "Error al eliminar tarea")
  | Except.ok tx0 =>
    match tx0.execute o (Db.selectArchivos id) with
    | Except.error _ => (w, Response.fallo 500 "Error al eliminar tarea")
    | Except.ok (tx1, archivos) =>
      let fs1 := borrarArchivos w.fs archivos
      match tx1.execute o (Db.deleteTarea id) with
      | Except.error _ => ({ db := w.db, fs := fs1 }, Response.fallo 500 "Error al eliminar tarea")
      | Except.ok (tx2, affectedRows) =>
        if affectedRows = 0 then
          ({ db := w.db, fs := fs1 }, Response.fallo 404 "Tarea no encontrada")
        else
          match tx2.ping o with
          | Except.error _ =>
            ({ db := w.db, fs := fs1 }, Response.fallo 500 "Error al eliminar tarea")
          | Except.ok tx3 =>
            ({ db := tx3.db, fs := fs1 },
              { status := 200, success := true, error := none,
                message := some "Tarea eliminada exitosamente",
                data := [("archivosEliminados", Dato.num archivos.length)] })

/-! ## Accounts -/

/-- Row of `super_users`. -/
structure SuperUser where
  id : Nat
  username : String
  email : String
  password : String
  created_at : Nat
  deriving DecidableEq, Repr

/-- Row of `directivos`. -/
structure Directivo where
  id : Nat
  nombre_completo : String
  email : String
  password : String
  cargo : String
  direccion_id : Option Nat
  deriving DecidableEq, Repr

/-- Row of `personal`. -/
structure Personal where
  id : Nat
  nombre_completo : String
  email : String
  password : String
  puesto : String
  direccion_id : Option Nat
  deriving DecidableEq, Repr

/-- Row of `direcciones`. -/
structure Direccion where
  id : Nat
  nombre : String
  deriving DecidableEq, Repr

/-- The three account tables and the table of organisational units. -/
structure Cuentas where
  super_users : List SuperUser
  directivos : List Directivo
  personal : List Personal
  direcciones : List Direccion
  deriving DecidableEq, Repr

/-- The column `dir.nombre` of `LEFT JOIN direcciones dir ON x.direccion_id = dir.id`
(`id` is the primary key of `direcciones`: at most one row joins). -/
def Cuentas.direccionNombre (c : Cuentas) (direccion_id : Option Nat) : Option String :=
  match direccion_id with
  | none => none
  | some d => (c.direcciones.find? (fun r => r.id == d)).map (fun r => r.nombre)

/-- The column `creado_por_nombre`: `CASE WHEN t.creado_por_tipo = .. THEN ..
END` over the three LEFT JOINs on the creator (ids are primary keys). -/
def Cuentas.creadoPorNombre (c : Cuentas) (t : Tarea) : Option String :=
  if t.creado_por_tipo = "superadmin" then
    (c.super_users.find? (fun u => u.id == t.creado_por_id)).map (fun u => u.username)
  else if t.creado_por_tipo = "directivo" then
    (c.directivos.find? (fun u => u.id == t.creado_por_id)).map (fun u => u.nombre_completo)
  else if t.creado_por_tipo = "personal" then
    (c.personal.find? (fun u => u.id == t.creado_por_id)).map (fun u => u.nombre_completo)
  else none

/-! ## Listings -/

/-- An attachment row with the `url` the listings add to it. -/
structure ArchivoUrl where
  archivo : Archivo
  url : String
  deriving DecidableEq, Repr

/-- The mapping `archivos.map(archivo => ({ ...archivo, url }))`. -/
def conUrl (archivos : List Archivo) : List ArchivoUrl :=
  archivos.map (fun a =>
    { archivo := a, url := "http://strideutmat.com:5000/uploads/tareas/" ++ a.ruta_archivo })

/-- Milliseconds in a day: `1000 * 60 * 60 * 24`. -/
def msDia : Int := 1000 * 60 * 60 * 24

/-- The time zone of the host, as the `Date` object reads it.  `desfase t`
is the offset from UTC, in milliseconds, in force at the instant `t`: the
offset of `LocalTime(t)`.  `desfaseLocal t` is the offset with which the local
time `t` is read back as an instant: the offset of `UTC(t)`, which reads a
local time that a clock change repeats or skips with the offset in force
before the change. -/
structure Zona where
  desfase : Int → Int
  desfaseLocal : Int → Int

/-- A host at a fixed offset of `tz` milliseconds from UTC. -/
def zonaFija (tz : Int) : Zona :=
  { desfase := fun _ => tz, desfaseLocal := fun _ => tz }

/-- The call `date.setHours(0, 0, 0, 0)`: the local time of the instant,
`LocalTime(tv)`, is cut to the start of its day, `MakeDate(Day(t), 0)`, and read
back as an instant, `UTC(date)`. -/
def medianoche (z : Zona) (instante : Int) : Int :=
  let t := instante + z.desfase instante
  let date := (t / msDia) * msDia
  date - z.desfaseLocal date

/-- The function `Math.ceil(x / d)` for integers `x` and `d > 0`. -/
def ceilDiv (x d : Int) : Int := -((-x) / d)

/-- The computation of `dias_restantes` from the due date and the clock. -/
def diasRestantes (z : Zona) (fecha_entrega now : Nat) : Int :=
  let hoy := medianoche z now
  let entrega := medianoche z fecha_entrega
  let diffTime := entrega - hoy
  ceilDiv diffTime msDia

/-- The first sort key of the listing of an assignee: `CASE WHEN ta.estado IN
('pendiente', 'en_progreso') THEN 1 ELSE 2 END`. -/
def grupoEstado (estado : String) : Nat :=
  if estado = "pendiente" ∨ estado = "en_progreso" then 1 else 2

/-- The order of `ORDER BY CASE .. END, t.fecha_entrega ASC` on joined rows. -/
def ordenPersonal (x y : Tarea × Asignacion) : Prop :=
  grupoEstado x.2.estado < grupoEstado y.2.estado ∨
    (grupoEstado x.2.estado = grupoEstado y.2.estado ∧ x.1.fecha_entrega ≤ y.1.fecha_entrega)

instance : DecidableRel ordenPersonal := fun x y => by
  unfold ordenPersonal
  exact inferInstance

instance : IsTotal (Tarea × Asignacion) ordenPersonal where
  total := fun x y => by
    unfold ordenPersonal
    omega

instance : IsTrans (Tarea × Asignacion) ordenPersonal where
  trans := fun x y z => by
    unfold ordenPersonal
    omega

/-- The rows of `FROM tareas t INNER JOIN tareas_asignaciones ta ON t.id =
ta.tarea_id WHERE ta.usuario_id = ? AND ta.usuario_tipo = 'personal'`, before
they are ordered. -/
def Db.joinPersonal (db : Db) (personalId : Nat) : List (Tarea × Asignacion) :=
  (db.tareas.map (fun t =>
    (db.tareas_asignaciones.filter (fun a =>
      a.tarea_id == t.id && a.usuario_id == personalId && a.usuario_tipo == "personal")).map
      (fun a => (t, a)))).flatten

/-- The query of `GET /tareas/personal/:personalId`; ORDER BY is rendered by a
sort on the two keys. -/
def Db.selectTareasPersonal (db : Db) (personalId : Nat) : List (Tarea × Asignacion) :=
  (db.joinPersonal personalId).insertionSort ordenPersonal

/-- One element of `data` in the answer of `GET /tareas/personal/:personalId`. -/
structure TareaPersonal where
  tarea : Tarea
  asignacion_id : Nat
  asignacion_estado : String
  asignacion_comentarios : Option String
  fecha_completado : Option Nat
  creado_por_nombre : Option String
  archivos : List ArchivoUrl
  dias_restantes : Int
  deriving DecidableEq, Repr

/-- The loop of `GET /tareas/personal/:personalId` over the rows: one query for
the attachments of each row (datastore call number `paso`), then
`dias_restantes`. -/
def completarFilas (z : Zona) (o : Oracle) (c : Cuentas) (db : Db) (now : Nat) :
    Nat → List (Tarea × Asignacion) → Except String (List TareaPersonal)
  | _, [] => Except.ok []
  | paso, (t, a) :: rest =>
    match o paso with
    | some m => Except.error m
    | none =>
      match completarFilas z o c db now (paso + 1) rest with
      | Except.error m => Except.error m
      | Except.ok filas =>
        Except.ok ({ tarea := t, asignacion_id := a.id, asignacion_estado := a.estado,
                     asignacion_comentarios := a.comentarios,
                     fecha_completado := a.fecha_completado,
                     creado_por_nombre := c.creadoPorNombre t,
                     archivos := conUrl (db.tareas_archivos.filter (fun f => f.tarea_id == t.id)),
                     dias_restantes := diasRestantes z t.fecha_entrega now } :: filas)

/-- The answer of a listing: the status and, on success, the `data` array. -/
structure Listado (α : Type) where
  status : Nat
  success : Bool
  error : Option String
  data : List α
  deriving DecidableEq, Repr

/-- The handler `router.get('/tareas/personal/:personalId')`. -/
def getTareasPersonal (z : Zona) (o : Oracle) (c : Cuentas) (db : Db) (personalId now : Nat) :
    Listado TareaPersonal :=
  match o 0 with
  | some _ => { status := 500, success := false, error := some "Error al obtener tareas", data := [] }
  | none =>
    match completarFilas z o c db now 1 (db.selectTareasPersonal personalId) with
    | Except.error _ =>
      { status := 500, success := false, error := some "Error al obtener tareas", data := [] }
    | Except.ok filas => { status := 200, success := true, error := none, data := filas }

/-! ## Progress of a task: double-precision arithmetic

JavaScript numbers are IEEE 754 doubles.  The three operations of
`Math.round((completadas / total) * 100)` are rendered exactly, on
non-negative finite doubles written `m / 2 ^ k`; each arithmetic operation
rounds the exact result to 53 significant bits, ties to even. -/

/-- A non-negative finite double: the number `m / 2 ^ k`. -/
structure Doble where
  m : Nat
  k : Nat
  deriving DecidableEq, Repr

/-- The scale of the double nearest to `n / d`: the least `k` from `k` on with
`2 ^ 52 ≤ n * 2 ^ k / d`, searched in at most `fuel` steps. -/
def escala (n d : Nat) : Nat → Nat → Nat
  | 0, k => k
  | fuel + 1, k => if 2 ^ 52 * d ≤ n * 2 ^ k then k else escala n d fuel (k + 1)

/-- The integer nearest to `n * 2 ^ k / d`, ties to the even one. -/
def mantisa (n d k : Nat) : Nat :=
  let q := n * 2 ^ k / d
  let r := n * 2 ^ k % d
  if 2 * r < d then q
  else if d < 2 * r then q + 1
  else if q % 2 = 0 then q else q + 1

/-- The double nearest to the rational `n / d`, for `0 < d` and `n / d < 2 ^ 53`. -/
def redondear (n d : Nat) : Doble :=
  if n = 0 then { m := 0, k := 0 }
  else
    let k := escala n d (d + 53) 0
    { m := mantisa n d k, k := k }

/-- The double division `a / b` of two integers held as doubles. -/
def dividir (a b : Nat) : Doble := redondear a b

/-- The double product `x * 100`. -/
def porCien (x : Doble) : Doble := redondear (x.m * 100) (2 ^ x.k)

/-- The function `Math.round` on a non-negative double: `floor(x + 1/2)`, exactly. -/
def mathRound (x : Doble) : Nat := (2 * x.m + 2 ^ x.k) / 2 ^ (x.k + 1)

/-- The expression `tarea.total_asignaciones > 0 ? Math.round((tarea.completadas /
tarea.total_asignaciones) * 100) : 0`. -/
def progreso (completadas total_asignaciones : Nat) : Nat :=
  if total_asignaciones > 0 then mathRound (porCien (dividir completadas total_asignaciones))
  else 0

/-- The integer nearest to `100 * c / t`, ties rounded up (`t > 0`). -/
def masCercanoArriba (c t : Nat) : Nat := (200 * c + t) / (2 * t)

/-- One element of `data` in the answer of `GET /tareas`: the task, its
aggregates, attachments and progress (the nested per-assignment detail is not
rendered). -/
structure TareaResumen where
  tarea : Tarea
  creado_por_nombre : Option String
  total_asignaciones : Nat
  completadas : Nat
  pendientes : Nat
  en_progreso : Nat
  archivos : List ArchivoUrl
  progreso : Nat
  deriving DecidableEq, Repr

/-- The order of `ORDER BY t.fecha_entrega ASC, t.fecha_creacion DESC`. -/
def ordenTareas (x y : Tarea) : Prop :=
  x.fecha_entrega < y.fecha_entrega ∨
    (x.fecha_entrega = y.fecha_entrega ∧ y.fecha_creacion ≤ x.fecha_creacion)

instance : DecidableRel ordenTareas := fun x y => by
  unfold ordenTareas
  exact inferInstance

/-- The aggregates of `GET /tareas` for one task, over `LEFT JOIN
tareas_asignaciones ta ON t.id = ta.tarea_id GROUP BY t.id`:
`COUNT(DISTINCT ta.id)` and the three `SUM(CASE WHEN ta.estado = .. THEN 1 ELSE 0 END)`. -/
def Db.agregados (db : Db) (t : Tarea) : Nat × Nat × Nat × Nat :=
  let filas := db.tareas_asignaciones.filter (fun a => a.tarea_id == t.id)
  ((filas.map (fun a => a.id)).dedup.length,
   filas.countP (fun a => a.estado == "completada"),
   filas.countP (fun a => a.estado == "pendiente"),
   filas.countP (fun a => a.estado == "en_progreso"))

/-- The handler `router.get('/tareas')`, with a healthy datastore: the tasks in
due-date order, each with its aggregates, attachments and `progreso`. -/
def getTareas (c : Cuentas) (db : Db) : Listado TareaResumen :=
  { status := 200, success := true, error := none,
    data := (db.tareas.insertionSort ordenTareas).map (fun t =>
      let ag := db.agregados t
      { tarea := t, creado_por_nombre := c.creadoPorNombre t,
        total_asignaciones := ag.1, completadas := ag.2.1, pendientes := ag.2.2.1,
        en_progreso := ag.2.2.2,
        archivos := conUrl (db.tareas_archivos.filter (fun f => f.tarea_id == t.id)),
        progreso := progreso ag.2.1 ag.1 }) }

/-! ## Identity resolver -/

/-- The `user` object of a login answer (`none` is an absent property). -/
structure Usuario where
  id : Nat
  nombre : Option String
  username : String
  email : String
  cargo : Option String
  puesto : Option String
  direccion_id : Option (Option Nat)
  direccion_nombre : Option (Option String)
  tipo : String
  userType : Option String
  created_at : Option Nat
  deriving DecidableEq, Repr

/-- The answer of the two login routes. -/
structure LoginResp where
  status : Nat
  success : Bool
  error : Option String
  message : Option String
  user : Option Usuario
  userType : Option String
  deriving DecidableEq, Repr

/-- A login answer `{ success: false, error }`. -/
def LoginResp.fallo (status : Nat) (error : String) : LoginResp :=
  { status := status, success := false, error := some error, message := none, user := none,
    userType := none }

/-- The probe of `super_users` in `POST /login-general`: the first row with the
email, kept when `bcrypt.compare` accepts the password. -/
def probarSuperUser (compare : String → String → Bool) (c : Cuentas) (email password : String) :
    Option Usuario :=
  match c.super_users.filter (fun u => u.email == email) with
  | [] => none
  | superUser :: _ =>
    if compare password superUser.password then
      some { id := superUser.id, nombre := some superUser.username, username := superUser.username,
             email := superUser.email, cargo := none, puesto := none, direccion_id := none,
             direccion_nombre := none, tipo := "superadmin", userType := some "superadmin",
             created_at := none }
    else none

/-- The probe of `directivos` in `POST /login-general`. -/
def probarDirectivo (compare : String → String → Bool) (c : Cuentas) (email password : String) :
    Option Usuario :=
  match c.directivos.filter (fun u => u.email == email) with
  | [] => none
  | directivo :: _ =>
    if compare password directivo.password then
      some { id := directivo.id, nombre := some directivo.nombre_completo,
             username := directivo.nombre_completo, email := directivo.email,
             cargo := some directivo.cargo, puesto := none,
             direccion_id := some directivo.direccion_id,
             direccion_nombre := some (c.direccionNombre directivo.direccion_id),
             tipo := "directivo", userType := some "directivo", created_at := none }
    else none

/-- The probe of `personal` in `POST /login-general`. -/
def probarPersonal (compare : String → String → Bool) (c : Cuentas) (email password : String) :
    Option Usuario :=
  match c.personal.filter (fun u => u.email == email) with
  | [] => none
  | personalUser :: _ =>
    if compare password personalUser.password then
      some { id := personalUser.id, nombre := some personalUser.nombre_completo,
             username := personalUser.nombre_completo, email := personalUser.email,
             cargo := none, puesto := some personalUser.puesto,
             direccion_id := some personalUser.direccion_id,
             direccion_nombre := some (c.direccionNombre personalUser.direccion_id),
             tipo := "personal", userType := some "personal", created_at := none }
    else none

/-- The resolution of `POST /login-general` after the field check: the three
probes in order, each one run only while `user` is still `null`. -/
def resolver (compare : String → String → Bool) (c : Cuentas) (email password : String) :
    Option Usuario :=
  match probarSuperUser compare c email password with
  | some u => some u
  | none =>
    match probarDirectivo compare c email password with
    | some u => some u
    | none => probarPersonal compare c email password

/-- The handler `router.post('/login-general')` with a healthy datastore;
`compare` is `bcrypt.compare`. -/
def loginGeneral (compare : String → String → Bool) (c : Cuentas) (email password : Option String) :
    LoginResp :=
  if !truthy email || !truthy password then
    LoginResp.fallo 400 "Email y contraseña son requeridos"
  else
    match resolver compare c (email.getD "") (password.getD "") with
    | none => LoginResp.fallo 401 "Credenciales inválidas"
    | some u =>
      { status := 200, success := true, error := none, message := some "Login exitoso",
        user := some u, userType := u.userType }

/-- The handler `router.post('/login')` (super users only) with a healthy datastore. -/
def login (compare : String → String → Bool) (c : Cuentas) (email password : Option String) :
    LoginResp :=
  if !truthy email || !truthy password then
    LoginResp.fallo 400 "Email y contraseña son requeridos"
  else
    match c.super_users.filter (fun u => u.email == email.getD "") with
    | [] => LoginResp.fallo 401 "Credenciales inválidas"
    | user :: _ =>
      if compare (password.getD "") user.password then
        { status := 200, success := true, error := none, message := some "Login exitoso",
          user := some { id := user.id, nombre := none, username := user.username,
                         email := user.email, cargo := none, puesto := none,
                         direccion_id := none, direccion_nombre := none, tipo := "superadmin",
                         userType := none, created_at := some user.created_at },
          userType := none }
      else LoginResp.fallo 401 "Credenciales inválidas"

/-! ## Vocabulary of the properties -/

/-- An array element the insert loop accepts: an object with both properties. -/
def entradaValida : Option AsigEntry → Bool
  | some { usuario_id := some _, usuario_tipo := some _ } => true
  | _ => false

/-- The assignment rows that a list of entries denotes for task `tid`, with
consecutive ids from `n` on. -/
def filasDe (tid : Nat) : Nat → List (Option AsigEntry) → List Asignacion
  | _, [] => []
  | n, some { usuario_id := some uid, usuario_tipo := some ut } :: rest =>
    { id := n, tarea_id := tid, usuario_id := uid, usuario_tipo := ut, estado := "pendiente",
      comentarios := none, fecha_completado := none } :: filasDe tid (n + 1) rest
  | n, _ :: rest => filasDe tid n rest

/-- The attachment rows that a list of received files denotes for task `tid`,
with consecutive ids from `n` on. -/
def archivosDe (tid : Nat) : Nat → List File → List Archivo
  | _, [] => []
  | n, f :: rest =>
    { id := n, tarea_id := tid, nombre_original := f.originalname, nombre_archivo := f.filename,
      ruta_archivo := f.filename, tipo_mime := f.mimetype, tamano := f.size } ::
      archivosDe tid (n + 1) rest

/-- The datastore with assignment rows appended and the counter moved past them. -/
def Db.conAsignaciones (db : Db) (filas : List Asignacion) : Db :=
  { db with tareas_asignaciones := db.tareas_asignaciones ++ filas,
            nextAsignacion := db.nextAsignacion + filas.length }

/-- The datastore with attachment rows appended and the counter moved past them. -/
def Db.conArchivos (db : Db) (filas : List Archivo) : Db :=
  { db with tareas_archivos := db.tareas_archivos ++ filas,
            nextArchivo := db.nextArchivo + filas.length }

/-- The datastore with one task row appended under the next id. -/
def Db.conTarea (db : Db) (titulo : String) (descripcion : Option String)
    (fecha_entrega creado_por_id : Nat) (creado_por_tipo : String) (now : Nat) : Db :=
  { db with
    tareas := db.tareas ++ [{ id := db.nextTarea, titulo := titulo, descripcion := descripcion,
                              fecha_entrega := fecha_entrega, creado_por_id := creado_por_id,
                              creado_por_tipo := creado_por_tipo, fecha_creacion := now }],
    nextTarea := db.nextTarea + 1 }

/-- The datastore with one history row appended under the next id. -/
def Db.conHistorial (db : Db) (tarea_id usuario_id : Nat) (usuario_tipo accion descripcion : String)
    (now : Nat) : Db :=
  { db with
    tareas_historial := db.tareas_historial ++
      [{ id := db.nextHistorial, tarea_id := tarea_id, usuario_id := usuario_id,
         usuario_tipo := usuario_tipo, accion := accion, descripcion := descripcion,
         fecha := now }],
    nextHistorial := db.nextHistorial + 1 }

/-- The datastore after a successful `POST /tareas`: the task row, one
assignment row per entry, one attachment row per file and the history row. -/
def dbCreada (db : Db) (titulo : String) (descripcion : Option String)
    (fecha_entrega creado_por_id : Nat) (creado_por_tipo : String) (now : Nat)
    (items : List (Option AsigEntry)) (files : List File) : Db :=
  ((((db.conTarea titulo descripcion fecha_entrega creado_por_id creado_por_tipo now).conAsignaciones
      (filasDe db.nextTarea db.nextAsignacion items)).conArchivos
      (archivosDe db.nextTarea db.nextArchivo files)).conHistorial
      db.nextTarea creado_por_id creado_por_tipo "creada"
      ("Tarea creada con " ++ toString items.length ++ " asignaciones") now)

/-- The `asignaciones` payloads that `POST /tareas` rejects: absent, empty, not
parseable as JSON, not an array, or an empty array. -/
def cargaRechazada (parse : String → Option Parsed) : Option String → Prop
  | none => True
  | some s =>
    s = "" ∨ parse s = none ∨ parse s = some Parsed.escalar ∨ (∃ n, parse s = some (Parsed.texto n)) ∨
      parse s = some (Parsed.arreglo [])

/-! ## Sample data -/

/-- The payload of two assignees used in the examples. -/
def cargaDos : String :=
  "[\x7b\"usuario_id\":7,\"usuario_tipo\":\"personal\"\x7d,\x7b\"usuario_id\":9,\"usuario_tipo\":\"directivo\"\x7d]"

/-- The value of `JSON.parse` on the payloads used in the examples. -/
def parseEjemplo (s : String) : Option Parsed :=
  if s = cargaDos then
    some (Parsed.arreglo [some { usuario_id := some 7, usuario_tipo := some "personal" },
                          some { usuario_id := some 9, usuario_tipo := some "directivo" }])
  else if s = "[]" then some (Parsed.arreglo [])
  else if s = "7" then some Parsed.escalar
  else none

/-- An empty datastore whose counters start at 1. -/
def dbVacia : Db :=
  { tareas := [], tareas_asignaciones := [], tareas_archivos := [], tareas_historial := [],
    nextTarea := 1, nextAsignacion := 1, nextArchivo := 1, nextHistorial := 1 }

/-- The request of the example of the specification: task "Q1 Report" for two assignees. -/
def crearQ1 : CrearReq :=
  { titulo := some "Q1 Report", descripcion := none, fecha_entrega := some 1740787200000,
    creado_por_id := some 1, creado_por_tipo := none, asignaciones := some cargaDos,
    files := [], now := 1735689600000 }

/-- An uploaded file of the examples. -/
def archivoPdf : File :=
  { originalname := "informe.pdf", filename := "tarea-1735689600000-1.pdf",
    mimetype := "application/pdf", size := 1024 }

/-- The state in which the upload middleware leaves the directory for a
request: every received file is there, each under a name of its own. -/
def subidos (fs : List String) (files : List File) : Prop :=
  (files.map (fun f => f.filename)).Nodup ∧ ∀ f ∈ files, f.filename ∈ fs

/-- The directory without the received files. -/
def sinArchivos (fs : List String) (files : List File) : List String :=
  fs.filter (fun n => !(files.map (fun f => f.filename)).contains n)

/-- A datastore that rejects its call number `n` with a message, and accepts
every other call. -/
def fallaEn (n : Nat) (m : String) : Oracle := fun k => if k = n then some m else none

/-- The datastore with the three columns of every assignment row of this id
overwritten. -/
def Db.conEstado (db : Db) (id : Nat) (estado : String) (comentarios : Option String)
    (fecha_completado : Option Nat) : Db :=
  { db with
    tareas_asignaciones := db.tareas_asignaciones.map (fun a =>
      if a.id = id then
        { a with estado := estado, comentarios := comentarios, fecha_completado := fecha_completado }
      else a) }

/-- The datastore after a successful completion of the assignment row
`asignacion`: the row updated, one attachment row per file for its task, and
the history row. -/
def dbCompletada (db : Db) (req : CompletarReq) (asignacion : Asignacion) : Db :=
  (((db.conEstado req.asignacionId "completada" (orNull req.comentarios) (some req.now)).conArchivos
      (archivosDe asignacion.tarea_id db.nextArchivo req.files)).conHistorial
      asignacion.tarea_id asignacion.usuario_id "personal" "completada"
      (descripcionCompletada req.comentarios req.files) req.now)

/-- A completion request carries evidence: a comment that is not blank, or a file. -/
def conEvidencia (req : CompletarReq) : Prop :=
  noTrim req.comentarios = false ∨ req.files ≠ []

/-- An assignment row after a completion with this comment at this instant. -/
def Asignacion.completada (a : Asignacion) (comentarios : Option String) (now : Nat) : Asignacion :=
  { a with estado := "completada", comentarios := orNull comentarios, fecha_completado := some now }

/-- A datastore with one task and two assignments of it: the first pending,
the second completed. -/
def dbUnaTarea : Db :=
  { tareas := [{ id := 1, titulo := "Q1 Report", descripcion := none,
                 fecha_entrega := 1740787200000, creado_por_id := 1,
                 creado_por_tipo := "superadmin", fecha_creacion := 1735689600000 }],
    tareas_asignaciones :=
      [{ id := 1, tarea_id := 1, usuario_id := 7, usuario_tipo := "personal",
         estado := "pendiente", comentarios := none, fecha_completado := none },
       { id := 2, tarea_id := 1, usuario_id := 9, usuario_tipo := "personal",
         estado := "completada", comentarios := some "listo",
         fecha_completado := some 1735776000000 }],
    tareas_archivos := [],
    tareas_historial :=
      [{ id := 1, tarea_id := 1, usuario_id := 1, usuario_tipo := "superadmin", accion := "creada",
         descripcion := "Tarea creada con 2 asignaciones", fecha := 1735689600000 }],
    nextTarea := 2, nextAsignacion := 3, nextArchivo := 1, nextHistorial := 2 }

/-- The first assignment row of `dbUnaTarea`. -/
def asignacionUno : Asignacion :=
  { id := 1, tarea_id := 1, usuario_id := 7, usuario_tipo := "personal",
    estado := "pendiente", comentarios := none, fecha_completado := none }

/-- The datastore after a successful `PUT /tareas/asignacion/:id` that sets
state `s` on the assignment row `asignacion`. -/
def dbEstado (db : Db) (req : EstadoReq) (s : String) (asignacion : Asignacion) : Db :=
  ((db.conEstado req.id s (orNull req.comentarios)
      (if s = "completada" then some req.now else none)).conHistorial
      asignacion.tarea_id (usuarioOUno req.usuario_id) (orDefault req.usuario_tipo "superadmin")
      "actualizacion" ("Estado de asignación actualizado a: " ++ s) req.now)

/-- The datastore with the three scalar columns of every task row of this id
overwritten. -/
def Db.conTareaEditada (db : Db) (id : Nat) (titulo : String) (descripcion : Option String)
    (fecha_entrega : Nat) : Db :=
  { db with
    tareas := db.tareas.map (fun t =>
      if t.id = id then
        { t with titulo := titulo, descripcion := descripcion, fecha_entrega := fecha_entrega }
      else t) }

/-- The datastore without the assignment rows of a task. -/
def Db.sinAsignacionesDe (db : Db) (tarea_id : Nat) : Db :=
  { db with
    tareas_asignaciones := db.tareas_asignaciones.filter (fun a => a.tarea_id != tarea_id) }

/-- The assignment list that an edit request supplies: `none` when
`asignaciones` is falsy (step 2 is skipped), `some items` when it is the JSON
text of an iterable value. -/
def listaEditada (parse : String → Option Parsed) (req : EditarReq) :
    Option (List (Option AsigEntry)) :=
  match req.asignaciones with
  | none => none
  | some asig => if asig = "" then none else (parse asig).bind Parsed.iter

/-- The datastore after a successful `PUT /tareas/:id`: the task row edited,
the assignment rows of the task replaced when a list is supplied, one
attachment row per file. -/
def dbEditada (db : Db) (req : EditarReq) (titulo : String) (fecha : Nat)
    (lista : Option (List (Option AsigEntry))) : Db :=
  let db1 := db.conTareaEditada req.id titulo (orNull req.descripcion) fecha
  let db2 := match lista with
    | none => db1
    | some items =>
      (db1.sinAsignacionesDe req.id).conAsignaciones (filasDe req.id db1.nextAsignacion items)
  db2.conArchivos (archivosDe req.id db2.nextArchivo req.files)

/-- Integrity of the datastore, as the schema keeps it: assignment ids are
distinct and below the AUTO_INCREMENT counter, and every row of the three
child tables names an existing task. -/
structure Db.Integra (db : Db) : Prop where
  asig_nodup : (db.tareas_asignaciones.map (fun a => a.id)).Nodup
  asig_lt : ∀ a ∈ db.tareas_asignaciones, a.id < db.nextAsignacion
  fk_asig : ∀ a ∈ db.tareas_asignaciones, db.hasTarea a.tarea_id = true
  fk_arch : ∀ a ∈ db.tareas_archivos, db.hasTarea a.tarea_id = true
  fk_hist : ∀ h ∈ db.tareas_historial, db.hasTarea h.tarea_id = true

/-- An edit of the task of `dbUnaTarea` that supplies the payload of two assignees. -/
def editarQ1 : EditarReq :=
  { id := 1, titulo := some "Q1 Report v2", descripcion := some "revisado",
    fecha_entrega := some 1741392000000, asignaciones := some cargaDos, files := [] }

/-- The second assignment row of `dbUnaTarea`, which is completed. -/
def asignacionDos : Asignacion :=
  { id := 2, tarea_id := 1, usuario_id := 9, usuario_tipo := "personal", estado := "completada",
    comentarios := some "listo", fecha_completado := some 1735776000000 }

/-- The datastore without a task and, by the cascade, without its rows in the
three child tables. -/
def Db.sinTarea (db : Db) (id : Nat) : Db :=
  { db with
    tareas := db.tareas.filter (fun t => t.id != id),
    tareas_asignaciones := db.tareas_asignaciones.filter (fun a => a.tarea_id != id),
    tareas_archivos := db.tareas_archivos.filter (fun a => a.tarea_id != id),
    tareas_historial := db.tareas_historial.filter (fun h => h.tarea_id != id) }

/-- The stored names of the attachment rows of a task. -/
def Db.rutasDe (db : Db) (id : Nat) : List String :=
  (db.tareas_archivos.filter (fun a => a.tarea_id == id)).map (fun a => a.ruta_archivo)

/-- The directory without the files of these names. -/
def sinNombres (fs : List String) (nombres : List String) : List String :=
  fs.filter (fun n => !nombres.contains n)

/-- A datastore with two tasks; the first has two attachments, the second one. -/
def dbDosTareas : Db :=
  { tareas := [{ id := 1, titulo := "Q1 Report", descripcion := none,
                 fecha_entrega := 1740787200000, creado_por_id := 1,
                 creado_por_tipo := "superadmin", fecha_creacion := 1735689600000 },
               { id := 2, titulo := "Inventario", descripcion := some "anual",
                 fecha_entrega := 1738368000000, creado_por_id := 1,
                 creado_por_tipo := "superadmin", fecha_creacion := 1735776000000 }],
    tareas_asignaciones :=
      [{ id := 1, tarea_id := 1, usuario_id := 7, usuario_tipo := "personal",
         estado := "completada", comentarios := some "listo",
         fecha_completado := some 1735862400000 },
       { id := 2, tarea_id := 2, usuario_id := 7, usuario_tipo := "personal",
         estado := "pendiente", comentarios := none, fecha_completado := none }],
    tareas_archivos :=
      [{ id := 1, tarea_id := 1, nombre_original := "a.pdf", nombre_archivo := "tarea-1-1.pdf",
         ruta_archivo := "tarea-1-1.pdf", tipo_mime := "application/pdf", tamano := 10 },
       { id := 2, tarea_id := 2, nombre_original := "b.pdf", nombre_archivo := "tarea-2-2.pdf",
         ruta_archivo := "tarea-2-2.pdf", tipo_mime := "application/pdf", tamano := 20 },
       { id := 3, tarea_id := 1, nombre_original := "c.pdf", nombre_archivo := "tarea-3-3.pdf",
         ruta_archivo := "tarea-3-3.pdf", tipo_mime := "application/pdf", tamano := 30 }],
    tareas_historial :=
      [{ id := 1, tarea_id := 1, usuario_id := 1, usuario_tipo := "superadmin", accion := "creada",
         descripcion := "Tarea creada con 1 asignaciones", fecha := 1735689600000 },
       { id := 2, tarea_id := 2, usuario_id := 1, usuario_tipo := "superadmin", accion := "creada",
         descripcion := "Tarea creada con 1 asignaciones", fecha := 1735776000000 },
       { id := 3, tarea_id := 1, usuario_id := 7, usuario_tipo := "personal",
         accion := "completada", descripcion := "Tarea completada con comentarios y 1 archivo(s)",
         fecha := 1735862400000 }],
    nextTarea := 3, nextAsignacion := 3, nextArchivo := 4, nextHistorial := 4 }

/-- The world of `dbDosTareas` with its three stored files. -/
def mundoDosTareas : World :=
  { db := dbDosTareas, fs := ["tarea-1-1.pdf", "tarea-2-2.pdf", "tarea-3-3.pdf"] }

/-- The local calendar day of an instant, counted from the epoch, on a host
in zone `z`: `Day(LocalTime(t))`. -/
def diaLocal (z : Zona) (instante : Int) : Int := (instante + z.desfase instante) / msDia

/-- The offset with which the start of the local day of an instant is read
back as an instant: the offset from UTC of the local midnight of that day. -/
def desfaseMedianoche (z : Zona) (instante : Int) : Int :=
  z.desfaseLocal (diaLocal z instante * msDia)

/-- The zone of a host on the Eastern time of the United States in 2025: five
hours behind UTC, and four from 9 March 07:00 UTC to 2 November 06:00 UTC.
The clock jumps from 02:00 to 03:00 on 9 March and goes back from 02:00 to
01:00 on 2 November; a local time from 03:00 on 9 March to before 02:00 on
2 November is read back with four hours, any other with five. -/
def zonaEste : Zona :=
  { desfase := fun t =>
      if 1741503600000 ≤ t ∧ t < 1762063200000 then -14400000 else -18000000,
    desfaseLocal := fun t =>
      if 1741489200000 ≤ t ∧ t < 1762048800000 then -14400000 else -18000000 }

/-- A datastore with two pending tasks of person 7: task 1 is due on
3 November 2025 at 17:00 UTC (noon on a host in `zonaEste`), task 2 on
9 March 2025 at 16:00 UTC (noon on that host). -/
def dbOtono : Db :=
  { tareas := [{ id := 1, titulo := "Cierre", descripcion := none,
                 fecha_entrega := 1762189200000, creado_por_id := 1,
                 creado_por_tipo := "superadmin", fecha_creacion := 1735689600000 },
               { id := 2, titulo := "Apertura", descripcion := none,
                 fecha_entrega := 1741536000000, creado_por_id := 1,
                 creado_por_tipo := "superadmin", fecha_creacion := 1735689600000 }],
    tareas_asignaciones :=
      [{ id := 1, tarea_id := 1, usuario_id := 7, usuario_tipo := "personal",
         estado := "pendiente", comentarios := none, fecha_completado := none },
       { id := 2, tarea_id := 2, usuario_id := 7, usuario_tipo := "personal",
         estado := "pendiente", comentarios := none, fecha_completado := none }],
    tareas_archivos := [], tareas_historial := [],
    nextTarea := 3, nextAsignacion := 3, nextArchivo := 1, nextHistorial := 1 }

/-- An assignment state that the listing of an assignee puts first. -/
def enCurso (estado : String) : Prop := estado = "pendiente" ∨ estado = "en_progreso"

/-- The element of `data` that the listing of an assignee builds from one
joined row. -/
def filaPersonal (z : Zona) (c : Cuentas) (db : Db) (now : Nat) (p : Tarea × Asignacion) :
    TareaPersonal :=
  { tarea := p.1, asignacion_id := p.2.id, asignacion_estado := p.2.estado,
    asignacion_comentarios := p.2.comentarios, fecha_completado := p.2.fecha_completado,
    creado_por_nombre := c.creadoPorNombre p.1,
    archivos := conUrl (db.tareas_archivos.filter (fun f => f.tarea_id == p.1.id)),
    dias_restantes := diasRestantes z p.1.fecha_entrega now }

/-- A datastore with three tasks assigned to person 7: one completed and due
first, two pending. -/
def dbListado : Db :=
  { tareas := [{ id := 1, titulo := "Acta", descripcion := none, fecha_entrega := 1738368000000,
                 creado_por_id := 1, creado_por_tipo := "superadmin",
                 fecha_creacion := 1735689600000 },
               { id := 2, titulo := "Inventario", descripcion := none,
                 fecha_entrega := 1740787200000, creado_por_id := 1,
                 creado_por_tipo := "superadmin", fecha_creacion := 1735689600000 },
               { id := 3, titulo := "Censo", descripcion := none, fecha_entrega := 1739577600000,
                 creado_por_id := 1, creado_por_tipo := "superadmin",
                 fecha_creacion := 1735689600000 }],
    tareas_asignaciones :=
      [{ id := 1, tarea_id := 1, usuario_id := 7, usuario_tipo := "personal",
         estado := "completada", comentarios := some "listo",
         fecha_completado := some 1735862400000 },
       { id := 2, tarea_id := 2, usuario_id := 7, usuario_tipo := "personal",
         estado := "pendiente", comentarios := none, fecha_completado := none },
       { id := 3, tarea_id := 3, usuario_id := 7, usuario_tipo := "personal",
         estado := "en_progreso", comentarios := none, fecha_completado := none },
       { id := 4, tarea_id := 3, usuario_id := 7, usuario_tipo := "directivo",
         estado := "pendiente", comentarios := none, fecha_completado := none }],
    tareas_archivos := [], tareas_historial := [],
    nextTarea := 4, nextAsignacion := 5, nextArchivo := 1, nextHistorial := 1 }

/-- Account tables with one super user. -/
def cuentasUno : Cuentas :=
  { super_users := [{ id := 1, username := "admin", email := "admin@ut.mx",
                      password := "hash:secreto", created_at := 1735689600000 }],
    directivos := [], personal := [], direcciones := [] }

/-- A stand-in for `bcrypt.compare` in the examples: the digest of a password
is the password behind the prefix `hash:`. -/
def compareEjemplo (password digest : String) : Bool := digest == "hash:" ++ password

/-- Account tables in which a super user and a directivo share an email. -/
def cuentasCompartidas : Cuentas :=
  { super_users := [{ id := 1, username := "ana", email := "ana@ut.mx",
                      password := "hash:admin", created_at := 1735689600000 }],
    directivos := [{ id := 5, nombre_completo := "Ana Ruiz", email := "ana@ut.mx",
                     password := "hash:clave", cargo := "Rectora", direccion_id := none }],
    personal := [], direcciones := [] }

/-! ## Announcements: the `limit` query parameter -/

/-- The value of a character as a digit of radix 10. -/
def digitoDec (c : Char) : Option Nat :=
  if '0' ≤ c ∧ c ≤ '9' then some (c.toNat - '0'.toNat) else none

/-- The value of a character as a digit of radix 16. -/
def digitoHex (c : Char) : Option Nat :=
  if '0' ≤ c ∧ c ≤ '9' then some (c.toNat - '0'.toNat)
  else if 'a' ≤ c ∧ c ≤ 'f' then some (c.toNat - 'a'.toNat + 10)
  else if 'A' ≤ c ∧ c ≤ 'F' then some (c.toNat - 'A'.toNat + 10)
  else none

/-- The number written by the longest prefix of digits, continuing from the
value `acc` of the digits already read (`visto` says whether there was one);
`none` when there is no digit at all. -/
def leerDigitos (digito : Char → Option Nat) (radix : Nat) : List Char → Nat → Bool → Option Nat
  | [], acc, visto => if visto then some acc else none
  | c :: rest, acc, visto =>
    match digito c with
    | some d => leerDigitos digito radix rest (acc * radix + d) true
    | none => if visto then some acc else none

/-- The function `parseInt(string, radix)` of ECMAScript on a string, for radix
10 (`conRadix = true`) and for an absent radix: leading white space is
skipped, a sign is read, an absent radix lets a prefix `0x` select radix 16,
and the longest prefix of digits is the value; `none` is `NaN`.  The value is
the integer that the digits write, which is the number JavaScript returns
while it is below 2^53. -/
def parseInt (s : String) (conRadix : Bool) : Option Int :=
  let sinBlancos := s.data.dropWhile jsWhite
  let (negativo, cuerpo) :=
    match sinBlancos with
    | '-' :: rest => (true, rest)
    | '+' :: rest => (false, rest)
    | otros => (false, otros)
  let valor :=
    if conRadix then leerDigitos digitoDec 10 cuerpo 0 false
    else
      match cuerpo with
      | '0' :: 'x' :: rest => leerDigitos digitoHex 16 rest 0 false
      | '0' :: 'X' :: rest => leerDigitos digitoHex 16 rest 0 false
      | otros => leerDigitos digitoDec 10 otros 0 false
  match valor with
  | none => none
  | some n => some (if negativo then -(n : Int) else (n : Int))

/-- The limit computed by `GET /comunicados-recientes`: 5 unless the parameter
is there, is not empty and `parseInt(limitParam, 10)` is a number above 0, in
which case it is `Math.min(parsed, 100)`. -/
def limiteRecientes (limitParam : Option String) : Int :=
  match limitParam with
  | none => 5
  | some s =>
    if s = "" then 5
    else
      match parseInt s true with
      | none => 5
      | some parsed => if parsed > 0 then min parsed 100 else 5

/-- The limit computed by `GET /comunicados-recientes-alt`:
`Math.min(parseInt(req.query.limit || 5) || 5, 100)`. -/
def limiteAlt (limitParam : Option String) : Int :=
  let limitParam1 : String := orDefault limitParam "5"
  let parsed : Int :=
    match parseInt limitParam1 false with
    | none => 5
    | some n => if n = 0 then 5 else n
  min parsed 100

/-- Row of `comunicados`. -/
structure Comunicado where
  id : Nat
  titulo : String
  contenido : String
  link_externo : Option String
  publicado_por_id : Nat
  estado : String
  fecha_publicacion : Nat
  deriving DecidableEq, Repr

/-- A row of the announcement listings: `c.*` and `publicado_por_nombre`. -/
structure ComunicadoFila where
  comunicado : Comunicado
  publicado_por_nombre : Option String
  deriving DecidableEq, Repr

/-- The answer of the limited announcement listings. -/
structure RespComunicados where
  status : Nat
  success : Bool
  error : Option String
  details : Option String
  data : List ComunicadoFila
  limit : Option Int
  deriving DecidableEq, Repr

/-- The order of `ORDER BY c.fecha_publicacion DESC`. -/
def ordenComunicados (x y : Comunicado) : Prop := y.fecha_publicacion ≤ x.fecha_publicacion

instance : DecidableRel ordenComunicados := fun x y => by
  unfold ordenComunicados
  exact inferInstance

/-- The query of the limited listings: published announcements, newest first,
with the name of the publisher, cut by `LIMIT n`; a negative `n` is a syntax
error of the statement. -/
def selectRecientes (c : Cuentas) (comunicados : List Comunicado) (limit : Int) :
    Except String (List ComunicadoFila) :=
  if limit < 0 then Except.error "You have an error in your SQL syntax"
  else
    Except.ok ((((comunicados.filter (fun x => x.estado == "publicado")).insertionSort
      ordenComunicados).take limit.toNat).map (fun x =>
        { comunicado := x,
          publicado_por_nombre :=
            (c.super_users.find? (fun u => u.id == x.publicado_por_id)).map (fun u => u.username) }))

/-- The handler `router.get('/comunicados-recientes')`; `desarrollo` says
whether `process.env.NODE_ENV === 'development'`. -/
def getComunicadosRecientes (desarrollo : Bool) (o : Oracle) (c : Cuentas)
    (comunicados : List Comunicado) (limitParam : Option String) : RespComunicados :=
  let limit := limiteRecientes limitParam
  let resultado : Except String (List ComunicadoFila) :=
    match o 0 with
    | some m => Except.error m
    | none => selectRecientes c comunicados limit
  match resultado with
  | Except.ok filas =>
    { status := 200, success := true, error := none, details := none, data := filas,
      limit := some limit }
  | Except.error m =>
    { status := 500, success := false, error := some "Error al obtener comunicados",
      details := if desarrollo then some m else none, data := [], limit := none }

/-- The handler `router.get('/comunicados-recientes-alt')`. -/
def getComunicadosRecientesAlt (o : Oracle) (c : Cuentas) (comunicados : List Comunicado)
    (limitParam : Option String) : RespComunicados :=
  let limit := limiteAlt limitParam
  let resultado : Except String (List ComunicadoFila) :=
    match o 0 with
    | some m => Except.error m
    | none => selectRecientes c comunicados limit
  match resultado with
  | Except.ok filas =>
    { status := 200, success := true, error := none, details := none, data := filas,
      limit := some limit }
  | Except.error _ =>
    { status := 500, success := false, error := some "Error al obtener comunicados",
      details := none, data := [], limit := none }

/-! ## Vocabulary of the login properties -/

/-- Account tables without rows. -/
def sinCuentas : Cuentas :=
  { super_users := [], directivos := [], personal := [], direcciones := [] }

/-- The emails of a table are pairwise different (the unique key that the
handlers of `ER_DUP_ENTRY` report on). -/
def emailUnico {α : Type} (email : α → String) (tabla : List α) : Prop :=
  (tabla.map email).Nodup

/-- The account tables with the column `password` of every row overwritten:
by `gS` in `super_users`, `gD` in `directivos` and `gP` in `personal`. -/
def Cuentas.conDigestos (c : Cuentas) (gS : SuperUser → String) (gD : Directivo → String)
    (gP : Personal → String) : Cuentas :=
  { c with
    super_users := c.super_users.map (fun r => { r with password := gS r }),
    directivos := c.directivos.map (fun r => { r with password := gD r }),
    personal := c.personal.map (fun r => { r with password := gP r }) }

/-- A second stand-in for `bcrypt.compare`: a digest is the password behind
the prefix `hash:` or behind the prefix `sal:`. -/
def compareDos (password digest : String) : Bool :=
  digest == "hash:" ++ password || digest == "sal:" ++ password

/-! ## Serving task files -/

/-- The segments of a path between its separators `/`; `actual` holds the
characters of the segment being read, last first. -/
def partir : List Char → List Char → List (List Char)
  | [], actual => [actual.reverse]
  | c :: rest, actual =>
    if c = '/' then actual.reverse :: partir rest [] else partir rest (c :: actual)

/-- The segments that POSIX `path.normalize` keeps, last first in `res`: an
empty segment and `.` are dropped; `..` removes the segment before it, and
where there is none to remove (or it is `..` itself) it stays when the path is
relative (`allowAboveRoot`). -/
def normalizeString (allowAboveRoot : Bool) : List (List Char) → List (List Char) →
    List (List Char)
  | [], res => res.reverse
  | seg :: rest, res =>
    if seg = [] ∨ seg = ['.'] then normalizeString allowAboveRoot rest res
    else if seg = ['.', '.'] then
      match res with
      | [] => normalizeString allowAboveRoot rest (if allowAboveRoot then [seg] else [])
      | ultimo :: antes =>
        if ultimo = ['.', '.'] then
          normalizeString allowAboveRoot rest (if allowAboveRoot then seg :: res else res)
        else normalizeString allowAboveRoot rest antes
    else normalizeString allowAboveRoot rest (seg :: res)

/-- POSIX `path.join(a, b)`: the arguments that are not empty are joined by
`/` and the result is normalised. -/
def pathJoin (a b : String) : String :=
  let joined : List Char :=
    if a = "" then b.data else if b = "" then a.data else a.data ++ '/' :: b.data
  if joined = [] then "."
  else
    let isAbsolute : Bool := joined.head? == some '/'
    let trailingSeparator : Bool := joined.getLast? == some '/'
    let path : List Char :=
      List.intercalate ['/'] (normalizeString (!isAbsolute) (partir joined []) [])
    if path = [] then (if isAbsolute then "/" else if trailingSeparator then "./" else ".")
    else
      String.mk ((if isAbsolute then ['/'] else []) ++ path ++
        (if trailingSeparator then ['/'] else []))

/-- What a file route does: it hands a path to `res.sendFile`, which answers
in its own way (with the file when it can send it), or it sends a JSON body
with a status; `success` is `none` when the body has no such property. -/
inductive RespArchivo where
  | sendFile (path : String)
  | json (status : Nat) (success : Option Bool) (error : Option String)
  deriving DecidableEq, Repr

/-- The handler `router.get('/tareas/archivo/:filename')`; `filename` is the
decoded route parameter, and `existsSync` says of which paths, relative to
the working directory of the server, `fs.existsSync` is true.  Nothing in the
`try` block throws: the answer 500 of the `catch`, the body
`{ error: 'Error al cargar el archivo' }`, is never sent. -/
def getTareasArchivo (existsSync : String → Bool) (filename : String) : RespArchivo :=
  let filePath := pathJoin "uploads/tareas" filename
  if existsSync filePath then RespArchivo.sendFile filePath
  else RespArchivo.json 404 none (some "Archivo no encontrado")

/-- The paths of a host that has only these files, all in `uploads/tareas`. -/
def enTareas (fs : List String) (path : String) : Bool :=
  fs.any (fun n => "uploads/tareas/" ++ n == path)

/-! ## Activities -/

/-- Row of `actividades`. -/
structure Actividad where
  id : Nat
  titulo : String
  descripcion : Option String
  tipo_actividad : String
  fecha_inicio : Nat
  fecha_fin : Option Nat
  direccion_id : Nat
  creado_por_id : Nat
  creado_por_tipo : String
  estado : String
  deriving DecidableEq, Repr

/-- Row of `actividad_imagenes`. -/
structure ActividadImagen where
  id : Nat
  actividad_id : Nat
  nombre_archivo : String
  ruta_archivo : String
  tipo_mime : String
  tamano : Nat
  deriving DecidableEq, Repr

/-- The two tables of the activities, their AUTO_INCREMENT counters, and the
names present in the upload directory of `upload.array('imagenes', 5)`. -/
structure MundoActividades where
  actividades : List Actividad
  actividad_imagenes : List ActividadImagen
  nextActividad : Nat
  nextImagen : Nat
  fs : List String
  deriving DecidableEq, Repr

/-- Body and files of `POST /actividades`; `none` is a field that is absent
or empty, and the two dates are the instants that `new Date(..)` reads. -/
structure ActividadReq where
  titulo : Option String
  descripcion : Option String
  tipo_actividad : Option String
  fecha_inicio : Option Nat
  fecha_fin : Option Nat
  direccion_id : Option Nat
  creado_por_id : Option Nat
  creado_por_tipo : Option String
  files : List File
  deriving DecidableEq, Repr

/-- The loop `for (const file of req.files) await db.execute('INSERT INTO
actividad_imagenes ..')`, whose calls are numbered from `k` on: the world
reached, and the error of the call that threw, if any.  There is no
transaction: the rows inserted before a throw stay. -/
def insertImagenes (o : Oracle) (actividadId : Nat) :
    Nat → MundoActividades → List File → MundoActividades × Option String
  | _, w, [] => (w, none)
  | k, w, f :: rest =>
    match o k with
    | some m => (w, some m)
    | none =>
      insertImagenes o actividadId (k + 1)
        { w with
          actividad_imagenes := w.actividad_imagenes ++
            [{ id := w.nextImagen, actividad_id := actividadId, nombre_archivo := f.originalname,
               ruta_archivo := f.filename, tipo_mime := f.mimetype, tamano := f.size }],
          nextImagen := w.nextImagen + 1 } rest

/-- The handler `router.post('/actividades')`. -/
def postActividades (o : Oracle) (w : MundoActividades) (req : ActividadReq) :
    MundoActividades × Response :=
  let requeridos : MundoActividades × Response :=
    ({ w with fs := unlinkEachQuiet w.fs req.files },
      Response.fallo 400
        "Título, tipo de actividad, fecha de inicio, dirección, creador y tipo son requeridos")
  match req.titulo, req.tipo_actividad, req.fecha_inicio, req.direccion_id, req.creado_por_id,
      req.creado_por_tipo with
  | some titulo, some tipo, some inicio, some direccion, some cid, some ctipo =>
    if titulo = "" ∨ tipo = "" ∨ ctipo = "" then requeridos
    else if (match req.fecha_fin with
        | some fin => decide (fin < inicio)
        | none => false) then
      ({ w with fs := unlinkEachQuiet w.fs req.files },
        Response.fallo 400 "La fecha de fin no puede ser anterior a la fecha de inicio")
    else
      match o 0 with
      | some m =>
        ({ w with fs := unlinkEachQuiet w.fs req.files },
          Response.fallo 500 (if m = "" then "Error al crear la actividad" else m))
      | none =>
        let w1 : MundoActividades :=
          { w with
            actividades := w.actividades ++
              [{ id := w.nextActividad, titulo := titulo, descripcion := orNull req.descripcion,
                 tipo_actividad := tipo, fecha_inicio := inicio, fecha_fin := req.fecha_fin,
                 direccion_id := direccion, creado_por_id := cid, creado_por_tipo := ctipo,
                 estado := "pendiente" }],
            nextActividad := w.nextActividad + 1 }
        match insertImagenes o w.nextActividad 1 w1 req.files with
        | (w2, some m) =>
          ({ w2 with fs := unlinkEachQuiet w2.fs req.files },
            Response.fallo 500 (if m = "" then "Error al crear la actividad" else m))
        | (w2, none) =>
          (w2, { status := 201, success := true, error := none,
                 message := some "Actividad creada exitosamente",
                 data := [("actividadId", Dato.num w.nextActividad),
                          ("imagenesCount", Dato.num req.files.length)] })
  | _, _, _, _, _, _ => requeridos

/-- A world without activities. -/
def sinActividades : MundoActividades :=
  { actividades := [], actividad_imagenes := [], nextActividad := 1, nextImagen := 1,
    fs := ["act-1.png"] }

/-- An uploaded image of the examples. -/
def imagenPng : File :=
  { originalname := "foto.png", filename := "act-1.png", mimetype := "image/png", size := 2048 }

/-- A request for an activity that ends before it starts. -/
def actividadInvertida : ActividadReq :=
  { titulo := some "Feria", descripcion := none, tipo_actividad := some "evento",
    fecha_inicio := some 1740787200000, fecha_fin := some 1738368000000,
    direccion_id := some 2, creado_por_id := some 1, creado_por_tipo := some "superadmin",
    files := [imagenPng] }

/-- The required fields of `POST /actividades` are all there: the three text
fields are not empty, the date of start and the two ids are supplied. -/
def camposPresentes (req : ActividadReq) : Prop :=
  truthy req.titulo = true ∧ truthy req.tipo_actividad = true ∧ req.fecha_inicio ≠ none ∧
    req.direccion_id ≠ none ∧ req.creado_por_id ≠ none ∧ truthy req.creado_por_tipo = true

/-! ## Editing accounts -/

/-- The error of a rejected statement, as the `catch` tells it apart: the
code `ER_DUP_ENTRY`, or any other error with its message. -/
inductive ErrorSql where
  | dupEntry
  | otro (m : String)
  deriving DecidableEq, Repr

/-- The test `password && password.trim() !== ''`. -/
def claveNueva (password : Option String) : Bool :=
  truthy password && !noTrim password

/-- The JSON body and the parameter of `PUT /directivos/:id`; `direccion_id`
is a number, of which `0` is falsy. -/
structure DirectivoReq where
  id : Nat
  nombre_completo : Option String
  cargo : Option String
  direccion_id : Option Nat
  email : Option String
  password : Option String
  deriving DecidableEq, Repr

/-- The statement `UPDATE directivos SET nombre_completo = ?, cargo = ?,
direccion_id = ?, email = ? [, password = ?] WHERE id = ?`; the column email
has a unique key; yields `affectedRows`. -/
def updateDirectivo (id : Nat) (nombre cargo : String) (direccion_id : Nat) (email : String)
    (hashedPassword : Option String) (tabla : List Directivo) :
    Except ErrorSql (List Directivo × Nat) :=
  if tabla.any (fun r => r.id == id) && tabla.any (fun r => r.id != id && r.email == email) then
    Except.error ErrorSql.dupEntry
  else
    Except.ok (tabla.map (fun r =>
      if r.id = id then
        { r with nombre_completo := nombre, cargo := cargo, direccion_id := some direccion_id,
                 email := email,
                 password := match hashedPassword with
                   | some h => h
                   | none => r.password }
      else r), (tabla.filter (fun r => r.id == id)).length)

/-- The handler `router.put('/directivos/:id')`; `hash p` is the value of
`bcrypt.hash(p, 10)` in this call. -/
def putDirectivos (hash : String → String) (o : Oracle) (c : Cuentas) (req : DirectivoReq) :
    Cuentas × Response :=
  let requeridos : Cuentas × Response :=
    (c, Response.fallo 400 "Nombre, cargo, dirección y email son requeridos")
  match req.nombre_completo, req.cargo, req.direccion_id, req.email with
  | some nombre, some cargo, some direccion, some email =>
    if nombre = "" ∨ cargo = "" ∨ direccion = 0 ∨ email = "" then requeridos
    else
      let hashedPassword : Option String :=
        if claveNueva req.password then some (hash (req.password.getD "")) else none
      let resultado : Except ErrorSql (List Directivo × Nat) :=
        match o 0 with
        | some m => Except.error (ErrorSql.otro m)
        | none => updateDirectivo req.id nombre cargo direccion email hashedPassword c.directivos
      match resultado with
      | Except.error ErrorSql.dupEntry => (c, Response.fallo 400 "El email ya está registrado")
      | Except.error (ErrorSql.otro _) => (c, Response.fallo 500 "Error al editar el directivo")
      | Except.ok (tabla, affectedRows) =>
        if affectedRows = 0 then
          ({ c with directivos := tabla }, Response.fallo 404 "Directivo no encontrado")
        else
          ({ c with directivos := tabla },
            { status := 200, success := true, error := none,
              message := some "Directivo actualizado exitosamente", data := [] })
  | _, _, _, _ => requeridos

/-- What the photo block of `PUT /personal/:id` comes to: no photo was sent
(`req.file` is undefined, the block is skipped), the block ran to its end, or
it threw.  The block acts on `uploads/personal` and on the column
`foto_perfil`, which are outside this model. -/
inductive PasoFoto where
  | sinArchivo
  | hecho
  | falla (m : String)
  deriving DecidableEq, Repr

/-- The multipart body and the parameter of `PUT /personal/:id`, and the
outcome of its photo block. -/
structure PersonalReq where
  id : Nat
  nombre_completo : Option String
  puesto : Option String
  direccion_id : Option Nat
  email : Option String
  password : Option String
  foto : PasoFoto
  deriving DecidableEq, Repr

/-- The statement `UPDATE personal SET nombre_completo = ?, puesto = ?,
direccion_id = ?, email = ? [, password = ?], foto_perfil = ? WHERE id = ?`;
the column email has a unique key. -/
def updatePersonal (id : Nat) (nombre puesto : String) (direccion_id : Nat) (email : String)
    (hashedPassword : Option String) (tabla : List Personal) : Except ErrorSql (List Personal) :=
  if tabla.any (fun r => r.id == id) && tabla.any (fun r => r.id != id && r.email == email) then
    Except.error ErrorSql.dupEntry
  else
    Except.ok (tabla.map (fun r =>
      if r.id = id then
        { r with nombre_completo := nombre, puesto := puesto, direccion_id := some direccion_id,
                 email := email,
                 password := match hashedPassword with
                   | some h => h
                   | none => r.password }
      else r))

/-- The handler `router.put('/personal/:id')`: the check of the fields, the
query of the row (call 0), the photo block, the update (call 1).  The
removal of the received photo on the paths that fail acts on
`uploads/personal`, outside this model. -/
def putPersonal (hash : String → String) (o : Oracle) (c : Cuentas) (req : PersonalReq) :
    Cuentas × Response :=
  let requeridos : Cuentas × Response :=
    (c, Response.fallo 400 "Nombre, puesto, dirección y email son requeridos")
  let error500 : Cuentas × Response := (c, Response.fallo 500 "Error al editar el personal")
  match req.nombre_completo, req.puesto, req.direccion_id, req.email with
  | some nombre, some puesto, some direccion, some email =>
    if nombre = "" ∨ puesto = "" ∨ email = "" then requeridos
    else
      match o 0 with
      | some _ => error500
      | none =>
        match c.personal.filter (fun r => r.id == req.id) with
        | [] => (c, Response.fallo 404 "Personal no encontrado")
        | _ :: _ =>
          match req.foto with
          | PasoFoto.falla _ => error500
          | _ =>
            let hashedPassword : Option String :=
              if claveNueva req.password then some (hash (req.password.getD "")) else none
            let resultado : Except ErrorSql (List Personal) :=
              match o 1 with
              | some m => Except.error (ErrorSql.otro m)
              | none => updatePersonal req.id nombre puesto direccion email hashedPassword c.personal
            match resultado with
            | Except.error ErrorSql.dupEntry =>
              (c, Response.fallo 400 "El email ya está registrado")
            | Except.error (ErrorSql.otro _) => error500
            | Except.ok tabla =>
              ({ c with personal := tabla },
                { status := 200, success := true, error := none,
                  message := some "Personal actualizado exitosamente", data := [] })
  | _, _, _, _ => requeridos

/-- A stand-in for `bcrypt.hash` in the examples. -/
def hashEjemplo (p : String) : String := "hash:" ++ p

/-- Account tables with one row in each of the three tables. -/
def cuentasTres : Cuentas :=
  { super_users := [{ id := 1, username := "admin", email := "admin@ut.mx",
                      password := "hash:secreto", created_at := 1735689600000 }],
    directivos := [{ id := 5, nombre_completo := "Ana Ruiz", email := "ana@ut.mx",
                     password := "hash:clave", cargo := "Rectora", direccion_id := some 2 }],
    personal := [{ id := 7, nombre_completo := "Luis Paz", email := "luis@ut.mx",
                   password := "hash:llave", puesto := "Analista", direccion_id := some 2 }],
    direcciones := [{ id := 2, nombre := "Finanzas" }] }

/-- An edit of the directivo of `cuentasTres` with this password field. -/
def editarAna (password : Option String) : DirectivoReq :=
  { id := 5, nombre_completo := some "Ana Ruiz", cargo := some "Rectora", direccion_id := some 2,
    email := some "ana@ut.mx", password := password }

/-- An edit of the person of `cuentasTres` with this password field. -/
def editarLuis (password : Option String) : PersonalReq :=
  { id := 7, nombre_completo := some "Luis Paz", puesto := some "Analista",
    direccion_id := some 2, email := some "luis@ut.mx", password := password,
    foto := PasoFoto.sinArchivo }

/-! ## Tagged references -/

/-- A tagged reference is valid: the role is one of the three, and the table
of the role has a row of this id. -/
def Cuentas.existe (c : Cuentas) (id : Nat) (tipo : String) : Bool :=
  (tipo == "superadmin" && c.super_users.any (fun u => u.id == id)) ||
  (tipo == "directivo" && c.directivos.any (fun u => u.id == id)) ||
  (tipo == "personal" && c.personal.any (fun u => u.id == id))

/-- Every pair stored in `tareas`, `tareas_asignaciones` and `tareas_historial`
is a valid tagged reference. -/
def refsValidas (c : Cuentas) (db : Db) : Bool :=
  db.tareas.all (fun t => c.existe t.creado_por_id t.creado_por_tipo) &&
  db.tareas_asignaciones.all (fun a => c.existe a.usuario_id a.usuario_tipo) &&
  db.tareas_historial.all (fun h => c.existe h.usuario_id h.usuario_tipo)

/-- The assignees named by the entries of a list are valid tagged references. -/
def entradasValidas (c : Cuentas) (items : List (Option AsigEntry)) : Prop :=
  ∀ uid ut, some { usuario_id := some uid, usuario_tipo := some ut } ∈ items →
    c.existe uid ut = true

/-- A datastore with one task, created by super user 1 and assigned to
directivo 5. -/
def dbDirectivo : Db :=
  { tareas := [{ id := 1, titulo := "Q1 Report", descripcion := none,
                 fecha_entrega := 1740787200000, creado_por_id := 1,
                 creado_por_tipo := "superadmin", fecha_creacion := 1735689600000 }],
    tareas_asignaciones :=
      [{ id := 1, tarea_id := 1, usuario_id := 5, usuario_tipo := "directivo",
         estado := "pendiente", comentarios := none, fecha_completado := none }],
    tareas_archivos := [], tareas_historial := [],
    nextTarea := 2, nextAsignacion := 2, nextArchivo := 1, nextHistorial := 1 }

/-- A creation request whose creator and assignees are rows of `cuentasTres`. -/
def crearValida : CrearReq :=
  { titulo := some "Acta", descripcion := none, fecha_entrega := some 1740787200000,
    creado_por_id := some 1, creado_por_tipo := none, asignaciones := some "[7,5]",
    files := [], now := 1735689600000 }

/-- The value of `JSON.parse` on the payload of `crearValida`. -/
def parseValida (s : String) : Option Parsed :=
  if s = "[7,5]" then
    some (Parsed.arreglo [some { usuario_id := some 7, usuario_tipo := some "personal" },
                          some { usuario_id := some 5, usuario_tipo := some "directivo" }])
  else none

/-- Account tables for the examples of the task workflow: super user 1,
directivo 9 and the persons 7 and 9. -/
def cuentasFlujo : Cuentas :=
  { super_users := [{ id := 1, username := "admin", email := "admin@ut.mx",
                      password := "hash:secreto", created_at := 1735689600000 }],
    directivos := [{ id := 9, nombre_completo := "Ana Ruiz", email := "ana@ut.mx",
                     password := "hash:clave", cargo := "Rectora", direccion_id := none }],
    personal := [{ id := 7, nombre_completo := "Luis Paz", email := "luis@ut.mx",
                   password := "hash:llave", puesto := "Analista", direccion_id := none },
                 { id := 9, nombre_completo := "Eva Sol", email := "eva@ut.mx",
                   password := "hash:puerta", puesto := "Auxiliar", direccion_id := none }],
    direcciones := [] }

/-! # Properties -/

/-! ## Datastore calls -/

theorem execute_ok_iff {α : Type} (o : Oracle) (tx tx1 : Tx) (stmt : Db → Except String (Db × α))
    (a : α) :
    tx.execute o stmt = Except.ok (tx1, a) ↔
      o tx.paso = none ∧ ∃ db, stmt tx.db = Except.ok (db, a) ∧ tx1 = { db := db, paso := tx.paso + 1 } := by
  unfold Tx.execute
  cases ho : o tx.paso with
  | some m => simp
  | none =>
    cases hs : stmt tx.db with
    | error m => simp
    | ok r =>
      obtain ⟨db, b⟩ := r
      simp only [Except.ok.injEq, Prod.mk.injEq, true_and]
      constructor
      · rintro ⟨h1, h2⟩
        exact ⟨db, ⟨rfl, h2⟩, h1.symm⟩
      · rintro ⟨db1, ⟨h1, h2⟩, h3⟩
        exact ⟨by rw [h3, h1], h2⟩

theorem ping_ok_iff (o : Oracle) (tx tx1 : Tx) :
    tx.ping o = Except.ok tx1 ↔ o tx.paso = none ∧ tx1 = { db := tx.db, paso := tx.paso + 1 } := by
  unfold Tx.ping
  cases ho : o tx.paso with
  | some m => simp
  | none =>
    simp only [Except.ok.injEq, true_and]
    exact eq_comm

theorem filasDe_length (tid : Nat) (items : List (Option AsigEntry))
    (h : ∀ e ∈ items, entradaValida e = true) (n : Nat) :
    (filasDe tid n items).length = items.length := by
  induction items generalizing n with
  | nil => rfl
  | cons e rest ih =>
    have he := h e (List.mem_cons_self _ _)
    have hr : ∀ x ∈ rest, entradaValida x = true := fun x hx => h x (List.mem_cons_of_mem _ hx)
    match e, he with
    | some { usuario_id := some uid, usuario_tipo := some ut }, _ =>
      simp [filasDe, ih hr]

theorem filasDe_mem (tid : Nat) (items : List (Option AsigEntry)) (n : Nat) (a : Asignacion)
    (h : a ∈ filasDe tid n items) :
    a.tarea_id = tid ∧ a.estado = "pendiente" ∧ a.comentarios = none ∧ a.fecha_completado = none ∧
      n ≤ a.id := by
  induction items generalizing n with
  | nil => simp [filasDe] at h
  | cons e rest ih =>
    match e with
    | some { usuario_id := some uid, usuario_tipo := some ut } =>
      simp only [filasDe, List.mem_cons] at h
      rcases h with h | h
      · subst h; simp
      · obtain ⟨h1, h2, h3, h4, h5⟩ := ih (n + 1) h
        exact ⟨h1, h2, h3, h4, by omega⟩
    | some { usuario_id := none, usuario_tipo := _ } =>
      simp only [filasDe] at h
      exact ih n h
    | some { usuario_id := some _, usuario_tipo := none } =>
      simp only [filasDe] at h
      exact ih n h
    | none =>
      simp only [filasDe] at h
      exact ih n h

theorem archivosDe_length (tid : Nat) (files : List File) (n : Nat) :
    (archivosDe tid n files).length = files.length := by
  induction files generalizing n with
  | nil => rfl
  | cons f rest ih => simp [archivosDe, ih]

theorem archivosDe_mem (tid : Nat) (files : List File) (n : Nat) (a : Archivo)
    (h : a ∈ archivosDe tid n files) : a.tarea_id = tid ∧ n ≤ a.id := by
  induction files generalizing n with
  | nil => simp [archivosDe] at h
  | cons f rest ih =>
    simp only [archivosDe, List.mem_cons] at h
    rcases h with h | h
    · subst h; simp
    · obtain ⟨h1, h2⟩ := ih (n + 1) h
      exact ⟨h1, by omega⟩

theorem hasTarea_conAsignaciones (db : Db) (filas : List Asignacion) (tid : Nat) :
    (db.conAsignaciones filas).hasTarea tid = db.hasTarea tid := rfl

theorem hasTarea_conArchivos (db : Db) (filas : List Archivo) (tid : Nat) :
    (db.conArchivos filas).hasTarea tid = db.hasTarea tid := rfl

theorem conAsignaciones_nil (db : Db) : db.conAsignaciones [] = db := by
  cases db; simp [Db.conAsignaciones]

theorem conArchivos_nil (db : Db) : db.conArchivos [] = db := by
  cases db; simp [Db.conArchivos]

theorem conAsignaciones_cons (db : Db) (a : Asignacion) (filas : List Asignacion) :
    (db.conAsignaciones [a]).conAsignaciones filas = db.conAsignaciones (a :: filas) := by
  cases db; simp [Db.conAsignaciones]; omega

theorem conArchivos_cons (db : Db) (a : Archivo) (filas : List Archivo) :
    (db.conArchivos [a]).conArchivos filas = db.conArchivos (a :: filas) := by
  cases db; simp [Db.conArchivos]; omega

theorem insertAsignacion_eq (tid uid : Nat) (ut : String) (db : Db) :
    Db.insertAsignacion tid uid ut db =
      if db.hasTarea tid then
        Except.ok (db.conAsignaciones (filasDe tid db.nextAsignacion
          [some { usuario_id := some uid, usuario_tipo := some ut }]), db.nextAsignacion)
      else Except.error fkError := by
  simp [Db.insertAsignacion, Db.conAsignaciones, filasDe]

theorem insertArchivo_eq (tid : Nat) (f : File) (db : Db) :
    Db.insertArchivo tid f db =
      if db.hasTarea tid then
        Except.ok (db.conArchivos (archivosDe tid db.nextArchivo [f]), db.nextArchivo)
      else Except.error fkError := by
  simp [Db.insertArchivo, Db.conArchivos, archivosDe]

/-- The insert loop over the entries succeeds exactly when every entry carries
both properties, the task exists (if there is anything to insert) and the
datastore accepts each of its calls; it then appends one row per entry. -/
theorem insertAsignaciones_ok_iff (o : Oracle) (tid : Nat) (items : List (Option AsigEntry))
    (tx tx1 : Tx) :
    insertAsignaciones o tid tx items = Except.ok tx1 ↔
      (∀ e ∈ items, entradaValida e = true) ∧ (items ≠ [] → tx.db.hasTarea tid = true) ∧
      (∀ k, tx.paso ≤ k → k < tx.paso + items.length → o k = none) ∧
      tx1 = { db := tx.db.conAsignaciones (filasDe tid tx.db.nextAsignacion items),
              paso := tx.paso + items.length } := by
  induction items generalizing tx with
  | nil =>
    simp only [insertAsignaciones, filasDe, conAsignaciones_nil, List.length_nil, Nat.add_zero]
    constructor
    · intro h
      injection h with h
      subst h
      exact ⟨by simp, by simp, fun k h1 h2 => absurd h2 (by omega), rfl⟩
    · rintro ⟨-, -, -, h⟩
      rw [h]
  | cons e rest ih =>
    match e with
    | none =>
      simp [insertAsignaciones, entradaValida]
    | some { usuario_id := none, usuario_tipo := ut } =>
      cases ut <;> simp [insertAsignaciones, entradaValida, bindParam]
    | some { usuario_id := some uid, usuario_tipo := none } =>
      simp [insertAsignaciones, entradaValida, bindParam]
    | some { usuario_id := some uid, usuario_tipo := some ut } =>
      simp only [insertAsignaciones, bindParam]
      cases ho : o tx.paso with
      | some m =>
        simp only [Tx.execute, ho]
        constructor
        · intro h; cases h
        · rintro ⟨-, -, h, -⟩
          have := h tx.paso (le_refl _) (by simp)
          rw [ho] at this; cases this
      | none =>
        by_cases hT : tx.db.hasTarea tid = true
        · simp only [Tx.execute, ho, insertAsignacion_eq, hT, if_true]
          rw [ih]
          simp only [hasTarea_conAsignaciones, hT, implies_true, true_and, conAsignaciones_cons]
          have hfil : (tx.db.conAsignaciones (filasDe tid tx.db.nextAsignacion
              [some { usuario_id := some uid, usuario_tipo := some ut }])).nextAsignacion =
                tx.db.nextAsignacion + 1 := by
            simp [Db.conAsignaciones, filasDe]
          rw [hfil]
          constructor
          · rintro ⟨h1, h2, h3⟩
            refine ⟨?_, ?_, ?_⟩
            · intro x hx
              rcases List.mem_cons.mp hx with hx | hx
              · subst hx; rfl
              · exact h1 x hx
            · intro k hk1 hk2
              by_cases hk : k = tx.paso
              · subst hk; exact ho
              · exact h2 k (by omega) (by simp at hk2; omega)
            · rw [h3]
              simp only [filasDe, conAsignaciones_cons, List.length_cons]
              congr 1
              omega
          · rintro ⟨h1, h2, h3⟩
            refine ⟨fun x hx => h1 x (List.mem_cons_of_mem _ hx), ?_, ?_⟩
            · intro k hk1 hk2
              exact h2 k (by omega) (by simp; omega)
            · rw [h3]
              simp only [filasDe, conAsignaciones_cons, List.length_cons]
              congr 1
              omega
        · simp only [Tx.execute, ho, insertAsignacion_eq, hT]
          constructor
          · intro h; simp at h
          · rintro ⟨-, h, -, -⟩
            exact absurd (h (by simp)) (by simp)

/-- The insert loop over the received files succeeds exactly when the task
exists (if there is a file) and the datastore accepts each call; it then
appends one attachment row per file. -/
theorem insertArchivos_ok_iff (o : Oracle) (tid : Nat) (files : List File) (tx tx1 : Tx) :
    insertArchivos o tid tx files = Except.ok tx1 ↔
      (files ≠ [] → tx.db.hasTarea tid = true) ∧
      (∀ k, tx.paso ≤ k → k < tx.paso + files.length → o k = none) ∧
      tx1 = { db := tx.db.conArchivos (archivosDe tid tx.db.nextArchivo files),
              paso := tx.paso + files.length } := by
  induction files generalizing tx with
  | nil =>
    simp only [insertArchivos, archivosDe, conArchivos_nil, List.length_nil, Nat.add_zero]
    constructor
    · intro h
      injection h with h
      subst h
      exact ⟨by simp, fun k h1 h2 => absurd h2 (by omega), rfl⟩
    · rintro ⟨-, -, h⟩
      rw [h]
  | cons f rest ih =>
    simp only [insertArchivos]
    cases ho : o tx.paso with
    | some m =>
      simp only [Tx.execute, ho]
      constructor
      · intro h; cases h
      · rintro ⟨-, h, -⟩
        have := h tx.paso (le_refl _) (by simp)
        rw [ho] at this; cases this
    | none =>
      by_cases hT : tx.db.hasTarea tid = true
      · simp only [Tx.execute, ho, insertArchivo_eq, hT, if_true]
        rw [ih]
        simp only [hasTarea_conArchivos, hT, implies_true, true_and, conArchivos_cons]
        have hfil : (tx.db.conArchivos (archivosDe tid tx.db.nextArchivo [f])).nextArchivo =
            tx.db.nextArchivo + 1 := by
          simp [Db.conArchivos, archivosDe]
        rw [hfil]
        constructor
        · rintro ⟨h2, h3⟩
          refine ⟨?_, ?_⟩
          · intro k hk1 hk2
            by_cases hk : k = tx.paso
            · subst hk; exact ho
            · exact h2 k (by omega) (by simp at hk2; omega)
          · rw [h3]
            simp only [archivosDe, conArchivos_cons, List.length_cons]
            congr 1
            omega
        · rintro ⟨h2, h3⟩
          refine ⟨?_, ?_⟩
          · intro k hk1 hk2
            exact h2 k (by omega) (by simp; omega)
          · rw [h3]
            simp only [archivosDe, conArchivos_cons, List.length_cons]
            congr 1
            omega
      · have hF : tx.db.hasTarea tid = false := by simpa using hT
        simp only [Tx.execute, ho, insertArchivo_eq, hF]
        constructor
        · intro h; simp at h
        · rintro ⟨h, -, -⟩
          exact absurd (h (by simp)) (by simp)

theorem bind_ok_iff {ε α β : Type} (x : Except ε α) (f : α → Except ε β) (b : β) :
    (x >>= f) = Except.ok b ↔ ∃ a, x = Except.ok a ∧ f a = Except.ok b := by
  cases x with
  | error e => simp [bind, Except.bind]
  | ok a => simp [bind, Except.bind]

theorem execute_none {α : Type} (o : Oracle) (tx : Tx) (stmt : Db → Except String (Db × α))
    (db : Db) (a : α) (ho : o tx.paso = none) (hs : stmt tx.db = Except.ok (db, a)) :
    tx.execute o stmt = Except.ok ({ db := db, paso := tx.paso + 1 }, a) :=
  (execute_ok_iff o tx _ stmt a).mpr ⟨ho, db, hs, rfl⟩

theorem insertTarea_eq (titulo : String) (descripcion : Option String) (fecha cid : Nat)
    (ctipo : String) (now : Nat) (db : Db) :
    Db.insertTarea titulo descripcion fecha cid ctipo now db =
      Except.ok (db.conTarea titulo descripcion fecha cid ctipo now, db.nextTarea) := rfl

theorem insertHistorial_eq (tid uid : Nat) (ut accion descripcion : String) (now : Nat) (db : Db) :
    Db.insertHistorial tid uid ut accion descripcion now db =
      if db.hasTarea tid then
        Except.ok (db.conHistorial tid uid ut accion descripcion now, db.nextHistorial)
      else Except.error fkError := rfl

theorem hasTarea_conTarea (db : Db) (titulo : String) (descripcion : Option String)
    (fecha cid : Nat) (ctipo : String) (now : Nat) :
    (db.conTarea titulo descripcion fecha cid ctipo now).hasTarea db.nextTarea = true := by
  simp [Db.hasTarea, Db.conTarea]

theorem hasTarea_conHistorial (db : Db) (tid uid : Nat) (ut accion descripcion : String)
    (now : Nat) (t : Nat) :
    (db.conHistorial tid uid ut accion descripcion now).hasTarea t = db.hasTarea t := rfl

theorem crearTx_ok_iff (o : Oracle) (tx0 : Tx) (titulo : String) (descripcion : Option String)
    (fecha cid : Nat) (ctipo : String) (now : Nat) (items : List (Option AsigEntry))
    (files : List File) (r : Db × Nat) :
    crearTx o tx0 titulo descripcion fecha cid ctipo now items files = Except.ok r ↔
      (∀ e ∈ items, entradaValida e = true) ∧
      (∀ k, tx0.paso ≤ k → k < tx0.paso + (items.length + files.length + 3) → o k = none) ∧
      r = (dbCreada tx0.db titulo descripcion fecha cid ctipo now items files, tx0.db.nextTarea) := by
  unfold crearTx
  simp only [bind_ok_iff]
  constructor
  · rintro ⟨⟨tx1, tid⟩, h1, tx2, h2, tx3, h3, ⟨tx4, u⟩, h4, tx5, h5, hr⟩
    rw [execute_ok_iff] at h1 h4
    rw [insertAsignaciones_ok_iff] at h2
    rw [insertArchivos_ok_iff] at h3
    rw [ping_ok_iff] at h5
    obtain ⟨ho1, db1, hs1, rfl⟩ := h1
    rw [insertTarea_eq] at hs1
    simp only [Except.ok.injEq, Prod.mk.injEq] at hs1
    obtain ⟨rfl, rfl⟩ := hs1
    obtain ⟨hv, -, ho2, rfl⟩ := h2
    obtain ⟨-, ho3, rfl⟩ := h3
    obtain ⟨ho4, db4, hs4, rfl⟩ := h4
    obtain ⟨ho5, rfl⟩ := h5
    refine ⟨hv, ?_, ?_⟩
    · intro k hk1 hk2
      simp only at ho1 ho2 ho3 ho4 ho5
      by_cases c1 : k = tx0.paso
      · rw [c1]; exact ho1
      by_cases c2 : k < tx0.paso + 1 + items.length
      · exact ho2 k (by omega) c2
      by_cases c3 : k < tx0.paso + 1 + items.length + files.length
      · exact ho3 k (by omega) c3
      by_cases c4 : k = tx0.paso + 1 + items.length + files.length
      · rw [c4]; exact ho4
      have c5 : k = tx0.paso + 1 + items.length + files.length + 1 := by omega
      rw [c5]; exact ho5
    · rw [insertHistorial_eq] at hs4
      simp only [hasTarea_conArchivos, hasTarea_conAsignaciones, hasTarea_conTarea, if_true,
        Except.ok.injEq, Prod.mk.injEq] at hs4
      obtain ⟨rfl, -⟩ := hs4
      simp only [pure, Except.pure, Except.ok.injEq] at hr
      rw [← hr]
      rfl
  · rintro ⟨hv, ho, rfl⟩
    have e1 : tx0.execute o (Db.insertTarea titulo descripcion fecha cid ctipo now) =
        Except.ok ({ db := tx0.db.conTarea titulo descripcion fecha cid ctipo now,
                     paso := tx0.paso + 1 }, tx0.db.nextTarea) :=
      execute_none o tx0 _ _ _ (ho _ (le_refl _) (by omega)) (insertTarea_eq _ _ _ _ _ _ _)
    have e2 := (insertAsignaciones_ok_iff o tx0.db.nextTarea items
      { db := tx0.db.conTarea titulo descripcion fecha cid ctipo now, paso := tx0.paso + 1 } _).mpr
      ⟨hv, fun _ => hasTarea_conTarea _ _ _ _ _ _ _,
        fun k h1 h2 => ho k (by simp at h1; omega) (by simp at h2; omega), rfl⟩
    have e3 := (insertArchivos_ok_iff o tx0.db.nextTarea files
      { db := (tx0.db.conTarea titulo descripcion fecha cid ctipo now).conAsignaciones
          (filasDe tx0.db.nextTarea
            (tx0.db.conTarea titulo descripcion fecha cid ctipo now).nextAsignacion items),
        paso := tx0.paso + 1 + items.length } _).mpr
      ⟨fun _ => hasTarea_conTarea _ _ _ _ _ _ _,
        fun k h1 h2 => ho k (by simp at h1; omega) (by simp at h2; omega), rfl⟩
    have e4 := execute_none o
      { db := ((tx0.db.conTarea titulo descripcion fecha cid ctipo now).conAsignaciones
          (filasDe tx0.db.nextTarea
            (tx0.db.conTarea titulo descripcion fecha cid ctipo now).nextAsignacion items)).conArchivos
          (archivosDe tx0.db.nextTarea
            ((tx0.db.conTarea titulo descripcion fecha cid ctipo now).conAsignaciones
              (filasDe tx0.db.nextTarea
                (tx0.db.conTarea titulo descripcion fecha cid ctipo now).nextAsignacion
                items)).nextArchivo files),
        paso := tx0.paso + 1 + items.length + files.length }
      (Db.insertHistorial tx0.db.nextTarea cid ctipo "creada"
        ("Tarea creada con " ++ toString items.length ++ " asignaciones") now) _ _
      (ho _ (by simp; omega) (by simp; omega))
      (by rw [insertHistorial_eq]
          simp only [hasTarea_conArchivos, hasTarea_conAsignaciones]
          rw [if_pos (hasTarea_conTarea _ _ _ _ _ _ _)])
    exact ⟨_, e1, _, e2, _, e3, _, e4, _,
      (ping_ok_iff _ _ _).mpr ⟨ho _ (by simp; omega) (by simp; omega), rfl⟩, rfl⟩

theorem rechazar_ok (w : World) (files : List File) (st : Nat) (msg : String) (r : World × Response)
    (h : rechazar w files st msg = Except.ok r) : r.1.db = w.db ∧ r.2 = Response.fallo st msg := by
  unfold rechazar at h
  split at h
  · injection h with h
    subst h
    exact ⟨rfl, rfl⟩
  · cases h

/-- Every outcome of `POST /tareas`: either the transaction ran to `commit`
and the answer is 201, or the answer is an error and the datastore is the one
before the call. -/
theorem postTareas_casos (parse : String → Option Parsed) (o : Oracle) (w : World) (req : CrearReq) :
    (∃ titulo fecha cid asig items db tid,
        req.titulo = some titulo ∧ titulo ≠ "" ∧ req.fecha_entrega = some fecha ∧
        req.creado_por_id = some cid ∧ req.asignaciones = some asig ∧ asig ≠ "" ∧
        arregloNoVacio (parse asig) = some items ∧ o 0 = none ∧
        crearTx o { db := w.db, paso := 1 } titulo (orNull req.descripcion) fecha cid
          (orDefault req.creado_por_tipo "superadmin") req.now items req.files = Except.ok (db, tid) ∧
        (postTareas parse o w req).1 = { db := db, fs := w.fs } ∧
        (postTareas parse o w req).2.status = 201 ∧
        (postTareas parse o w req).2.success = true) ∨
      ((postTareas parse o w req).2.success = false ∧
        ((postTareas parse o w req).2.status = 400 ∨ (postTareas parse o w req).2.status = 500) ∧
        (postTareas parse o w req).1.db = w.db) := by
  have hcatch : ∀ e, postTareasTry parse o w req = Except.error e →
      (postTareas parse o w req).2.success = false ∧
        ((postTareas parse o w req).2.status = 400 ∨ (postTareas parse o w req).2.status = 500) ∧
        (postTareas parse o w req).1.db = w.db := by
    intro e he
    unfold postTareas
    rw [he]
    exact ⟨rfl, Or.inr rfl, rfl⟩
  have hrej : ∀ st msg, st = 400 → postTareasTry parse o w req = rechazar w req.files st msg →
      (postTareas parse o w req).2.success = false ∧
        ((postTareas parse o w req).2.status = 400 ∨ (postTareas parse o w req).2.status = 500) ∧
        (postTareas parse o w req).1.db = w.db := by
    intro st msg hst he
    cases hr : rechazar w req.files st msg with
    | error e => exact hcatch e (he.trans hr)
    | ok r =>
      obtain ⟨h1, h2⟩ := rechazar_ok w req.files st msg r hr
      unfold postTareas
      rw [he, hr]
      simp only [h2, h1, Response.fallo, hst]
      exact ⟨trivial, Or.inl trivial, trivial⟩
  cases hp : Tx.ping o { db := w.db, paso := 0 } with
  | error m =>
    right
    exact hcatch (w.fs, m) (by unfold postTareasTry; rw [hp])
  | ok tx0 =>
    obtain ⟨ho0, rfl⟩ := (ping_ok_iff _ _ _).mp hp
    cases ht : req.titulo with
    | none =>
      right
      exact hrej 400 _ rfl (by unfold postTareasTry; rw [hp, ht])
    | some titulo =>
      cases hf : req.fecha_entrega with
      | none =>
        right
        exact hrej 400 _ rfl (by unfold postTareasTry; rw [hp, ht, hf])
      | some fecha =>
        cases hc : req.creado_por_id with
        | none =>
          right
          exact hrej 400 _ rfl (by unfold postTareasTry; rw [hp, ht, hf, hc])
        | some cid =>
          cases ha : req.asignaciones with
          | none =>
            right
            exact hrej 400 _ rfl (by unfold postTareasTry; rw [hp, ht, hf, hc, ha])
          | some asig =>
            by_cases hv : titulo = "" ∨ asig = ""
            · right
              exact hrej 400 _ rfl (by unfold postTareasTry; rw [hp, ht, hf, hc, ha]; simp only [if_pos hv]; rfl)
            · cases hi : arregloNoVacio (parse asig) with
              | none =>
                right
                exact hrej 400 _ rfl (by
                  unfold postTareasTry; rw [hp, ht, hf, hc, ha]; simp only [if_neg hv, hi]; rfl)
              | some items =>
                cases hx : crearTx o { db := w.db, paso := 0 + 1 } titulo (orNull req.descripcion)
                    fecha cid (orDefault req.creado_por_tipo "superadmin") req.now items req.files with
                | error m =>
                  right
                  exact hcatch (w.fs, m) (by
                    unfold postTareasTry; rw [hp, ht, hf, hc, ha]; simp only [if_neg hv, hi, hx])
                | ok r =>
                  obtain ⟨db, tid⟩ := r
                  left
                  have hT : postTareasTry parse o w req = Except.ok ({ db := db, fs := w.fs },
                      { status := 201, success := true, error := none,
                        message := some "Tarea creada exitosamente",
                        data := [("tareaId", Dato.num tid),
                                 ("asignaciones", Dato.num items.length),
                                 ("archivos", Dato.num req.files.length)] }) := by
                    unfold postTareasTry; rw [hp, ht, hf, hc, ha]; simp only [if_neg hv, hi, hx]
                  push_neg at hv
                  refine ⟨titulo, fecha, cid, asig, items, db, tid, rfl, hv.1, rfl, rfl, rfl, hv.2, hi,
                    ho0, hx, ?_, ?_, ?_⟩ <;>
                  · unfold postTareas
                    rw [hT]

/-- C1: a valid `POST /tareas` (titulo, fecha_entrega and creado_por_id present,
asignaciones the JSON text of an array of N ≥ 1 well-formed entries) on which no
datastore step fails answers 201, adds the task row, adds exactly N rows to
tareas_asignaciones, all of them for the new task and in estado pendiente, and
adds exactly one tareas_historial row, with accion creada, for the new task. -/
theorem postTareas_crea_asignaciones (parse : String → Option Parsed) (o : Oracle) (w : World)
    (req : CrearReq) (titulo asig : String) (fecha cid : Nat) (items : List (Option AsigEntry))
    (ht : req.titulo = some titulo) (ht0 : titulo ≠ "") (hf : req.fecha_entrega = some fecha)
    (hc : req.creado_por_id = some cid) (ha : req.asignaciones = some asig) (ha0 : asig ≠ "")
    (hp : parse asig = some (Parsed.arreglo items)) (hN : 1 ≤ items.length)
    (hv : ∀ e ∈ items, entradaValida e = true) (ho : ∀ k, o k = none) :
    (postTareas parse o w req).2.status = 201 ∧
    ∃ (t : Tarea) (nuevas : List Asignacion) (h : Historial),
      (postTareas parse o w req).1.db.tareas = w.db.tareas ++ [t] ∧ t.id = w.db.nextTarea ∧
      (postTareas parse o w req).1.db.tareas_asignaciones = w.db.tareas_asignaciones ++ nuevas ∧
      nuevas.length = items.length ∧
      (∀ a ∈ nuevas, a.tarea_id = t.id ∧ a.estado = "pendiente") ∧
      (postTareas parse o w req).1.db.tareas_historial = w.db.tareas_historial ++ [h] ∧
      h.accion = "creada" ∧ h.tarea_id = t.id := by
  have hi : arregloNoVacio (parse asig) = some items := by
    rw [hp]
    cases items with
    | nil => simp at hN
    | cons a rest => rfl
  rcases postTareas_casos parse o w req with
    ⟨titulo1, fecha1, cid1, asig1, items1, db, tid, h1, -, h3, h4, h5, -, h7, -, h9, h10, h11, -⟩ |
    ⟨hs, hst, -⟩
  · rw [ht] at h1; rw [hf] at h3; rw [hc] at h4; rw [ha] at h5
    injection h1 with h1; injection h3 with h3; injection h4 with h4; injection h5 with h5
    subst h1 h3 h4 h5
    rw [hi] at h7
    injection h7 with h7
    subst h7
    obtain ⟨-, -, hr⟩ := (crearTx_ok_iff _ _ _ _ _ _ _ _ _ _ _).mp h9
    injection hr with hdb htid
    refine ⟨h11, ?_⟩
    rw [h10, hdb]
    refine ⟨_, filasDe w.db.nextTarea w.db.nextAsignacion items, _, rfl, rfl, rfl,
      filasDe_length _ _ hv _, ?_, rfl, rfl, rfl⟩
    intro a hmem
    obtain ⟨e1, e2, -⟩ := filasDe_mem _ _ _ _ hmem
    exact ⟨e1, e2⟩
  · exfalso
    have hx := (crearTx_ok_iff o { db := w.db, paso := 1 } titulo (orNull req.descripcion) fecha cid
      (orDefault req.creado_por_tipo "superadmin") req.now items req.files _).mpr
      ⟨hv, fun k _ _ => ho k, rfl⟩
    have hp0 : Tx.ping o { db := w.db, paso := 0 } = Except.ok { db := w.db, paso := 1 } :=
      (ping_ok_iff _ _ _).mpr ⟨ho _, rfl⟩
    have hne : ¬(titulo = "" ∨ asig = "") := by
      push_neg
      exact ⟨ht0, ha0⟩
    have hT : (postTareas parse o w req).2.success = true := by
      unfold postTareas postTareasTry
      rw [hp0, ht, hf, hc, ha]
      simp only [if_neg hne, hi, hx]
    rw [hT] at hs
    cases hs

/-- Witness of C1: the example of the specification, on an empty datastore. -/
theorem postTareas_crea_asignaciones_witness :
    (postTareas parseEjemplo sinFallos { db := dbVacia, fs := [] } crearQ1).2.status = 201 ∧
    ∃ (t : Tarea) (nuevas : List Asignacion) (h : Historial),
      (postTareas parseEjemplo sinFallos { db := dbVacia, fs := [] } crearQ1).1.db.tareas =
        dbVacia.tareas ++ [t] ∧ t.id = dbVacia.nextTarea ∧
      (postTareas parseEjemplo sinFallos { db := dbVacia, fs := [] } crearQ1).1.db.tareas_asignaciones =
        dbVacia.tareas_asignaciones ++ nuevas ∧
      nuevas.length = 2 ∧
      (∀ a ∈ nuevas, a.tarea_id = t.id ∧ a.estado = "pendiente") ∧
      (postTareas parseEjemplo sinFallos { db := dbVacia, fs := [] } crearQ1).1.db.tareas_historial =
        dbVacia.tareas_historial ++ [h] ∧
      h.accion = "creada" ∧ h.tarea_id = t.id :=
  postTareas_crea_asignaciones parseEjemplo sinFallos { db := dbVacia, fs := [] } crearQ1
    "Q1 Report" cargaDos 1740787200000 1
    [some { usuario_id := some 7, usuario_tipo := some "personal" },
     some { usuario_id := some 9, usuario_tipo := some "directivo" }]
    rfl (by decide) rfl rfl rfl (by decide) (by decide) (by decide) (by decide) (fun _ => rfl)

theorem sinArchivos_nil (fs : List String) : sinArchivos fs [] = fs := by
  simp [sinArchivos]

theorem sinArchivos_cons (fs : List String) (f : File) (rest : List File) :
    sinArchivos (fs.filter (fun n => n != f.filename)) rest = sinArchivos fs (f :: rest) := by
  simp only [sinArchivos, List.filter_filter, List.map_cons]
  congr 1
  funext n
  by_cases h : n = f.filename
  · simp [h]
  · simp [h, List.contains_cons]

/-- The throwing removal loop removes every received file when the files are
where the upload middleware put them. -/
theorem unlinkEach_subidos (fs : List String) (files : List File) (h : subidos fs files) :
    unlinkEach fs files = (sinArchivos fs files, none) := by
  induction files generalizing fs with
  | nil => simp [unlinkEach, sinArchivos_nil]
  | cons f rest ih =>
    obtain ⟨hnd, hin⟩ := h
    have hf : f.filename ∈ fs := hin f (List.mem_cons_self _ _)
    simp only [unlinkEach, unlinkSync, if_pos hf]
    rw [← sinArchivos_cons]
    apply ih
    simp only [List.map_cons, List.nodup_cons] at hnd
    refine ⟨hnd.2, ?_⟩
    intro g hg
    have hne : g.filename ≠ f.filename := by
      intro heq
      exact hnd.1 (heq ▸ List.mem_map_of_mem _ hg)
    simp [List.mem_filter, hin g (List.mem_cons_of_mem _ hg), hne]

/-- The quiet removal loop leaves none of the received files, whatever the
directory holds. -/
theorem unlinkEachQuiet_eq (fs : List String) (files : List File) :
    unlinkEachQuiet fs files = sinArchivos fs files := by
  induction files generalizing fs with
  | nil => simp [unlinkEachQuiet, sinArchivos_nil]
  | cons f rest ih =>
    simp only [unlinkEachQuiet, unlinkSync]
    by_cases hf : f.filename ∈ fs
    · simp only [if_pos hf]
      rw [ih, sinArchivos_cons]
    · simp only [if_neg hf]
      rw [ih, ← sinArchivos_cons]
      congr 1
      rw [eq_comm, List.filter_eq_self]
      intro n hn
      have : n ≠ f.filename := fun heq => hf (heq ▸ hn)
      simp [this]

theorem arregloNoVacio_rechazada (parse : String → Option Parsed) (s : String)
    (h : parse s = none ∨ parse s = some Parsed.escalar ∨ (∃ n, parse s = some (Parsed.texto n)) ∨
      parse s = some (Parsed.arreglo [])) : arregloNoVacio (parse s) = none := by
  rcases h with h | h | ⟨n, h⟩ | h <;> rw [h] <;> rfl

/-- C2: when the asignaciones payload of `POST /tareas` is absent, empty, not
parseable as JSON, not an array, or an empty array, the call is rejected (its
answer is an error, 400 when the datastore accepts `beginTransaction` and the
received files are in place) and nothing is persisted: the datastore after
the call is the datastore before it, so tareas has no row it did not have. -/
theorem postTareas_carga_rechazada (parse : String → Option Parsed) (o : Oracle) (w : World)
    (req : CrearReq) (h : cargaRechazada parse req.asignaciones) :
    (postTareas parse o w req).2.success = false ∧
    ((postTareas parse o w req).2.status = 400 ∨ (postTareas parse o w req).2.status = 500) ∧
    (o 0 = none → subidos w.fs req.files → (postTareas parse o w req).2.status = 400) ∧
    (postTareas parse o w req).1.db = w.db ∧
    ∀ t ∈ (postTareas parse o w req).1.db.tareas, t ∈ w.db.tareas := by
  have hbad : ∀ asig, req.asignaciones = some asig → asig ≠ "" → arregloNoVacio (parse asig) = none := by
    intro asig ha ha0
    rw [ha] at h
    rcases h with h | h
    · exact absurd h ha0
    · exact arregloNoVacio_rechazada parse asig h
  have hmain : (postTareas parse o w req).2.success = false ∧
      ((postTareas parse o w req).2.status = 400 ∨ (postTareas parse o w req).2.status = 500) ∧
      (postTareas parse o w req).1.db = w.db := by
    rcases postTareas_casos parse o w req with
      ⟨titulo1, fecha1, cid1, asig1, items1, db, tid, -, -, -, -, h5, h6, h7, -⟩ | hr
    · rw [hbad asig1 h5 h6] at h7
      cases h7
    · exact hr
  refine ⟨hmain.1, hmain.2.1, ?_, hmain.2.2, ?_⟩
  · intro ho hsub
    have hp0 : Tx.ping o { db := w.db, paso := 0 } = Except.ok { db := w.db, paso := 1 } :=
      (ping_ok_iff _ _ _).mpr ⟨ho, rfl⟩
    have hrej : ∀ msg, (match rechazar w req.files 400 msg with
        | Except.ok r => r
        | Except.error (fs1, m) =>
          (({ db := w.db, fs := unlinkEachQuiet fs1 req.files } : World),
            Response.fallo 500 (if m = "" then "Error al crear la tarea" else m))).2.status = 400 := by
      intro msg
      simp only [rechazar, unlinkEach_subidos w.fs req.files hsub]
      rfl
    unfold postTareas postTareasTry
    rw [hp0]
    cases ht : req.titulo with
    | none => exact hrej _
    | some titulo =>
      cases hf : req.fecha_entrega with
      | none => exact hrej _
      | some fecha =>
        cases hc : req.creado_por_id with
        | none => exact hrej _
        | some cid =>
          cases ha : req.asignaciones with
          | none => exact hrej _
          | some asig =>
            simp only
            by_cases hv : titulo = "" ∨ asig = ""
            · rw [if_pos hv]
              exact hrej _
            · rw [if_neg hv]
              push_neg at hv
              rw [hbad asig ha hv.2]
              exact hrej _
  · intro t ht
    rw [hmain.2.2] at ht
    exact ht

/-- Witness of C2: the payload `[]` on an empty datastore. -/
theorem postTareas_carga_rechazada_witness :
    (postTareas parseEjemplo sinFallos { db := dbVacia, fs := [] }
        { crearQ1 with asignaciones := some "[]" }).2.success = false ∧
    ((postTareas parseEjemplo sinFallos { db := dbVacia, fs := [] }
        { crearQ1 with asignaciones := some "[]" }).2.status = 400 ∨
      (postTareas parseEjemplo sinFallos { db := dbVacia, fs := [] }
        { crearQ1 with asignaciones := some "[]" }).2.status = 500) ∧
    (sinFallos 0 = none → subidos [] [] →
      (postTareas parseEjemplo sinFallos { db := dbVacia, fs := [] }
        { crearQ1 with asignaciones := some "[]" }).2.status = 400) ∧
    (postTareas parseEjemplo sinFallos { db := dbVacia, fs := [] }
        { crearQ1 with asignaciones := some "[]" }).1.db = dbVacia ∧
    ∀ t ∈ (postTareas parseEjemplo sinFallos { db := dbVacia, fs := [] }
        { crearQ1 with asignaciones := some "[]" }).1.db.tareas, t ∈ dbVacia.tareas :=
  postTareas_carga_rechazada parseEjemplo sinFallos { db := dbVacia, fs := [] }
    { crearQ1 with asignaciones := some "[]" }
    (Or.inr (Or.inr (Or.inr (Or.inr (by decide)))))

theorem arregloNoVacio_arreglo (items items1 : List (Option AsigEntry))
    (h : arregloNoVacio (some (Parsed.arreglo items)) = some items1) : items1 = items := by
  cases items with
  | nil => cases h
  | cons a rest =>
    injection h with h
    exact h.symm

/-- C3: `POST /tareas` is atomic.  Whatever the input, the answer is 201 or it
is an error and the four tables are exactly as before the call; and when the
datastore rejects any one of the calls of the transaction (call 0 is
`beginTransaction`, 1 the task insert, 2 .. N+1 the assignment inserts,
N+2 .. N+M+1 the attachment inserts, N+M+2 the history insert, N+M+3 `commit`),
the answer is an error and the tables are as before. -/
theorem postTareas_atomica (parse : String → Option Parsed) (o : Oracle) (w : World)
    (req : CrearReq) :
    ((postTareas parse o w req).2.status = 201 ∨
      ((postTareas parse o w req).2.success = false ∧
        ((postTareas parse o w req).2.status = 400 ∨ (postTareas parse o w req).2.status = 500) ∧
        (postTareas parse o w req).1.db = w.db)) ∧
    (∀ (asig : String) (items : List (Option AsigEntry)) (k : Nat) (m : String),
      req.asignaciones = some asig → parse asig = some (Parsed.arreglo items) →
      k < items.length + req.files.length + 4 → o k = some m →
      (postTareas parse o w req).2.success = false ∧
        ((postTareas parse o w req).2.status = 400 ∨ (postTareas parse o w req).2.status = 500) ∧
        (postTareas parse o w req).1.db.tareas = w.db.tareas ∧
        (postTareas parse o w req).1.db.tareas_asignaciones = w.db.tareas_asignaciones ∧
        (postTareas parse o w req).1.db.tareas_archivos = w.db.tareas_archivos ∧
        (postTareas parse o w req).1.db.tareas_historial = w.db.tareas_historial) := by
  constructor
  · rcases postTareas_casos parse o w req with
      ⟨_, _, _, _, _, _, _, -, -, -, -, -, -, -, -, -, -, h11, -⟩ | hr
    · exact Or.inl h11
    · exact Or.inr hr
  · intro asig items k m ha hp hk hfail
    rcases postTareas_casos parse o w req with
      ⟨titulo1, fecha1, cid1, asig1, items1, db, tid, -, -, -, -, h5, -, h7, h8, h9, -⟩ | hr
    · exfalso
      rw [ha] at h5
      injection h5 with h5
      subst h5
      rw [hp] at h7
      have hi := arregloNoVacio_arreglo _ _ h7
      subst hi
      obtain ⟨-, hnone, -⟩ := (crearTx_ok_iff _ _ _ _ _ _ _ _ _ _ _).mp h9
      by_cases hk0 : k = 0
      · rw [hk0, h8] at hfail
        cases hfail
      · have := hnone k (by simp; omega) (by simp; omega)
        rw [this] at hfail
        cases hfail
    · obtain ⟨h1, h2, h3⟩ := hr
      refine ⟨h1, h2, ?_, ?_, ?_, ?_⟩ <;> rw [h3]

/-- Witness of C3: the datastore rejects the second assignment insert (call 3)
of the example request; nothing of the task is left. -/
theorem postTareas_atomica_witness :
    (postTareas parseEjemplo (fallaEn 3 "deadlock") { db := dbVacia, fs := [] } crearQ1).2.success =
        false ∧
      ((postTareas parseEjemplo (fallaEn 3 "deadlock") { db := dbVacia, fs := [] } crearQ1).2.status =
          400 ∨
        (postTareas parseEjemplo (fallaEn 3 "deadlock") { db := dbVacia, fs := [] } crearQ1).2.status =
          500) ∧
      (postTareas parseEjemplo (fallaEn 3 "deadlock") { db := dbVacia, fs := [] } crearQ1).1.db.tareas =
        dbVacia.tareas ∧
      (postTareas parseEjemplo (fallaEn 3 "deadlock") { db := dbVacia, fs := []
        } crearQ1).1.db.tareas_asignaciones = dbVacia.tareas_asignaciones ∧
      (postTareas parseEjemplo (fallaEn 3 "deadlock") { db := dbVacia, fs := []
        } crearQ1).1.db.tareas_archivos = dbVacia.tareas_archivos ∧
      (postTareas parseEjemplo (fallaEn 3 "deadlock") { db := dbVacia, fs := []
        } crearQ1).1.db.tareas_historial = dbVacia.tareas_historial :=
  (postTareas_atomica parseEjemplo (fallaEn 3 "deadlock") { db := dbVacia, fs := [] } crearQ1).2
    cargaDos
    [some { usuario_id := some 7, usuario_tipo := some "personal" },
     some { usuario_id := some 9, usuario_tipo := some "directivo" }]
    3 "deadlock" rfl (by decide) (by decide) rfl

theorem updateAsignacion_eq (id : Nat) (estado : String) (comentarios : Option String)
    (fecha : Option Nat) (db : Db) :
    Db.updateAsignacion id estado comentarios fecha db =
      Except.ok (db.conEstado id estado comentarios fecha, ()) := rfl

theorem hasTarea_conEstado (db : Db) (id : Nat) (estado : String) (comentarios : Option String)
    (fecha : Option Nat) (t : Nat) :
    (db.conEstado id estado comentarios fecha).hasTarea t = db.hasTarea t := rfl

/-- The transaction of a completion runs to `commit` exactly when the
datastore accepts its calls and the task of the assignment exists. -/
theorem completarTx_ok_iff (o : Oracle) (tx1 : Tx) (req : CompletarReq) (a : Asignacion) (db : Db) :
    completarTx o tx1 req a = Except.ok db ↔
      tx1.db.hasTarea a.tarea_id = true ∧
      (∀ k, tx1.paso ≤ k → k < tx1.paso + (req.files.length + 3) → o k = none) ∧
      db = dbCompletada tx1.db req a := by
  unfold completarTx
  simp only [bind_ok_iff]
  constructor
  · rintro ⟨⟨tx2, u⟩, h2, tx3, h3, ⟨tx4, u4⟩, h4, tx5, h5, hr⟩
    rw [execute_ok_iff] at h2 h4
    rw [insertArchivos_ok_iff] at h3
    rw [ping_ok_iff] at h5
    obtain ⟨ho2, db2, hs2, rfl⟩ := h2
    rw [updateAsignacion_eq] at hs2
    simp only [Except.ok.injEq, Prod.mk.injEq] at hs2
    obtain ⟨rfl, -⟩ := hs2
    obtain ⟨-, ho3, rfl⟩ := h3
    obtain ⟨ho4, db4, hs4, rfl⟩ := h4
    obtain ⟨ho5, rfl⟩ := h5
    rw [insertHistorial_eq] at hs4
    simp only [hasTarea_conArchivos, hasTarea_conEstado] at hs4
    by_cases hT : tx1.db.hasTarea a.tarea_id = true
    · refine ⟨hT, ?_, ?_⟩
      · intro k hk1 hk2
        simp only at ho2 ho3 ho4 ho5
        by_cases c1 : k = tx1.paso
        · rw [c1]; exact ho2
        by_cases c3 : k < tx1.paso + 1 + req.files.length
        · exact ho3 k (by omega) c3
        by_cases c4 : k = tx1.paso + 1 + req.files.length
        · rw [c4]; exact ho4
        have c5 : k = tx1.paso + 1 + req.files.length + 1 := by omega
        rw [c5]; exact ho5
      · rw [if_pos hT] at hs4
        simp only [Except.ok.injEq, Prod.mk.injEq] at hs4
        obtain ⟨rfl, -⟩ := hs4
        simp only [pure, Except.pure, Except.ok.injEq] at hr
        rw [← hr]
        rfl
    · rw [if_neg hT] at hs4
      cases hs4
  · rintro ⟨hT, ho, rfl⟩
    have e2 : tx1.execute o (Db.updateAsignacion req.asignacionId "completada"
        (orNull req.comentarios) (some req.now)) =
        Except.ok ({ db := tx1.db.conEstado req.asignacionId "completada" (orNull req.comentarios)
                       (some req.now), paso := tx1.paso + 1 }, ()) :=
      execute_none o tx1 _ _ _ (ho _ (le_refl _) (by omega)) (updateAsignacion_eq _ _ _ _ _)
    have e3 := (insertArchivos_ok_iff o a.tarea_id req.files
      { db := tx1.db.conEstado req.asignacionId "completada" (orNull req.comentarios) (some req.now),
        paso := tx1.paso + 1 } _).mpr
      ⟨fun _ => hT, fun k h1 h2 => ho k (by simp at h1; omega) (by simp at h2; omega), rfl⟩
    have e4 := execute_none o
      { db := (tx1.db.conEstado req.asignacionId "completada" (orNull req.comentarios)
          (some req.now)).conArchivos (archivosDe a.tarea_id
            (tx1.db.conEstado req.asignacionId "completada" (orNull req.comentarios)
              (some req.now)).nextArchivo req.files),
        paso := tx1.paso + 1 + req.files.length }
      (Db.insertHistorial a.tarea_id a.usuario_id "personal" "completada"
        (descripcionCompletada req.comentarios req.files) req.now) _ _
      (ho _ (by simp; omega) (by simp; omega))
      (by rw [insertHistorial_eq]
          simp only [hasTarea_conArchivos, hasTarea_conEstado]
          rw [if_pos hT])
    exact ⟨_, e2, _, e3, _, e4, _,
      (ping_ok_iff _ _ _).mpr ⟨ho _ (by simp; omega) (by simp; omega), rfl⟩, rfl⟩

/-- The rows of the join of a completion: each pairs an assignment row of the
requested id with the title of an existing task of that row. -/
theorem selectConTitulo_mem (db : Db) (id : Nat) (rows : List (Asignacion × String))
    (h : Db.selectAsignacionConTitulo id db = Except.ok (db, rows)) (a : Asignacion) (titulo : String)
    (hm : (a, titulo) ∈ rows) :
    a ∈ db.tareas_asignaciones ∧ a.id = id ∧ db.hasTarea a.tarea_id = true := by
  unfold Db.selectAsignacionConTitulo at h
  simp only [Except.ok.injEq, Prod.mk.injEq, true_and] at h
  subst h
  simp only [List.mem_flatten, List.mem_map, List.mem_filter, beq_iff_eq] at hm
  obtain ⟨l, ⟨x, ⟨hx1, hx2⟩, rfl⟩, hm⟩ := hm
  simp only [List.mem_map, List.mem_filter, beq_iff_eq, Prod.mk.injEq] at hm
  obtain ⟨t, ⟨ht1, ht2⟩, rfl, -⟩ := hm
  refine ⟨hx1, hx2, ?_⟩
  simp only [Db.hasTarea, List.any_eq_true, beq_iff_eq]
  exact ⟨t, ht1, ht2⟩

/-- The join of a completion is empty exactly when no assignment row of the
requested id belongs to an existing task. -/
theorem selectConTitulo_nil_iff (db : Db) (id : Nat) :
    Db.selectAsignacionConTitulo id db = Except.ok (db, []) ↔
      ∀ a ∈ db.tareas_asignaciones, a.id = id → db.hasTarea a.tarea_id = false := by
  unfold Db.selectAsignacionConTitulo
  simp only [Except.ok.injEq, Prod.mk.injEq, true_and, List.flatten_eq_nil_iff, List.mem_map,
    List.mem_filter, beq_iff_eq, forall_exists_index, and_imp]
  constructor
  · intro h a ha hid
    have := h _ a ha hid rfl
    simp only [List.map_eq_nil_iff, List.filter_eq_nil_iff, beq_iff_eq] at this
    cases hT : db.hasTarea a.tarea_id with
    | false => rfl
    | true =>
      simp only [Db.hasTarea, List.any_eq_true, beq_iff_eq] at hT
      obtain ⟨t, ht1, ht2⟩ := hT
      exact absurd ht2 (this t ht1)
  · rintro h l a ha hid rfl
    simp only [List.map_eq_nil_iff, List.filter_eq_nil_iff, beq_iff_eq]
    intro t ht heq
    have := h a ha hid
    simp only [Db.hasTarea] at this
    have h2 : db.tareas.any (fun t => t.id == a.tarea_id) = true := by
      simp only [List.any_eq_true, beq_iff_eq]
      exact ⟨t, ht, heq⟩
    rw [h2] at this
    cases this

/-- The rows that the join of a completion returns. -/
theorem selectConTitulo_rows (db : Db) (id : Nat) :
    ∃ rows, Db.selectAsignacionConTitulo id db = Except.ok (db, rows) := ⟨_, rfl⟩

/-- Every outcome of `POST /tareas/completar/:asignacionId`: either the
request carried evidence, the join found a row and the transaction ran to
`commit` (answer 200), or the answer is an error and the datastore is the one
before the call. -/
theorem postTareasCompletar_casos (o : Oracle) (w : World) (req : CompletarReq) :
    (∃ a titulo rest db,
        conEvidencia req ∧ o 0 = none ∧ o 1 = none ∧
        Db.selectAsignacionConTitulo req.asignacionId w.db = Except.ok (w.db, (a, titulo) :: rest) ∧
        completarTx o { db := w.db, paso := 2 } req a = Except.ok db ∧
        (postTareasCompletar o w req).1 = { db := db, fs := w.fs } ∧
        (postTareasCompletar o w req).2.status = 200 ∧
        (postTareasCompletar o w req).2.success = true) ∨
      ((postTareasCompletar o w req).2.success = false ∧
        ((postTareasCompletar o w req).2.status = 400 ∨ (postTareasCompletar o w req).2.status = 404 ∨
          (postTareasCompletar o w req).2.status = 500) ∧
        (postTareasCompletar o w req).1.db = w.db) := by
  have hcatch : ∀ e, postTareasCompletarTry o w req = Except.error e →
      (postTareasCompletar o w req).2.success = false ∧
        ((postTareasCompletar o w req).2.status = 400 ∨ (postTareasCompletar o w req).2.status = 404 ∨
          (postTareasCompletar o w req).2.status = 500) ∧
        (postTareasCompletar o w req).1.db = w.db := by
    intro e he
    unfold postTareasCompletar
    rw [he]
    exact ⟨rfl, Or.inr (Or.inr rfl), rfl⟩
  have hrej : ∀ st msg, (st = 400 ∨ st = 404) →
      postTareasCompletarTry o w req = rechazar w req.files st msg →
      (postTareasCompletar o w req).2.success = false ∧
        ((postTareasCompletar o w req).2.status = 400 ∨ (postTareasCompletar o w req).2.status = 404 ∨
          (postTareasCompletar o w req).2.status = 500) ∧
        (postTareasCompletar o w req).1.db = w.db := by
    intro st msg hst he
    cases hr : rechazar w req.files st msg with
    | error e => exact hcatch e (he.trans hr)
    | ok r =>
      obtain ⟨h1, h2⟩ := rechazar_ok w req.files st msg r hr
      unfold postTareasCompletar
      rw [he, hr]
      simp only [h2, h1, Response.fallo]
      refine ⟨trivial, ?_, trivial⟩
      rcases hst with hst | hst
      · exact Or.inl hst
      · exact Or.inr (Or.inl hst)
  cases hp : Tx.ping o { db := w.db, paso := 0 } with
  | error m =>
    right
    exact hcatch (w.fs, m) (by unfold postTareasCompletarTry; rw [hp])
  | ok tx0 =>
    obtain ⟨ho0, rfl⟩ := (ping_ok_iff _ _ _).mp hp
    cases hev : (noTrim req.comentarios && req.files.isEmpty) with
    | true =>
      right
      exact hrej 400 _ (Or.inl rfl) (by
        unfold postTareasCompletarTry; rw [hp]; simp only [hev, if_true]; rfl)
    | false =>
      have hcon : conEvidencia req := by
        unfold conEvidencia
        cases hn : noTrim req.comentarios with
        | false => exact Or.inl rfl
        | true =>
          right
          rw [hn] at hev
          intro hnil
          rw [hnil] at hev
          cases hev
      cases ho1 : o 1 with
      | some m =>
        right
        exact hcatch (w.fs, m) (by
          unfold postTareasCompletarTry; rw [hp]
          simp only [hev, Tx.execute, ho1]
          rfl)
      | none =>
        obtain ⟨rows, hrows⟩ := selectConTitulo_rows w.db req.asignacionId
        have hsel : Tx.execute o { db := w.db, paso := 0 + 1 }
            (Db.selectAsignacionConTitulo req.asignacionId) =
            Except.ok ({ db := w.db, paso := 0 + 1 + 1 }, rows) :=
          execute_none o _ _ _ _ ho1 hrows
        cases rows with
        | nil =>
          right
          exact hrej 404 _ (Or.inr rfl) (by
            unfold postTareasCompletarTry; rw [hp]
            simp only [hev, hsel]
            rfl)
        | cons r rest =>
          obtain ⟨a, titulo⟩ := r
          cases hx : completarTx o { db := w.db, paso := 0 + 1 + 1 } req a with
          | error m =>
            right
            exact hcatch (w.fs, m) (by
              unfold postTareasCompletarTry; rw [hp]
              simp only [hev, hsel, hx]
              rfl)
          | ok db =>
            left
            have hT : postTareasCompletarTry o w req = Except.ok ({ db := db, fs := w.fs },
                { status := 200, success := true, error := none,
                  message := some "¡Felicidades! Tarea completada exitosamente",
                  data := [("tarea", Dato.str titulo),
                           ("comentarios", match orNull req.comentarios with
                                           | some c => Dato.str c
                                           | none => Dato.nul),
                           ("archivos", Dato.num req.files.length)] }) := by
              unfold postTareasCompletarTry; rw [hp]
              simp only [hev, hsel, hx]
              rfl
            refine ⟨a, titulo, rest, db, hcon, ho0, rfl, hrows, hx, ?_, ?_, ?_⟩ <;>
            · unfold postTareasCompletar
              rw [hT]

theorem noTrim_of_blank (c : Option String)
    (hc : c = none ∨ ∃ s, c = some s ∧ ∀ x ∈ s.data, jsWhite x = true) : noTrim c = true := by
  rcases hc with rfl | ⟨s, rfl, hs⟩
  · rfl
  · simp only [noTrim, List.all_eq_true]
    exact hs

/-- C4: a completion whose comment is absent, empty or made of white space
only, and which carries no file, is rejected: the answer is an error, 400
unless the datastore already refuses `beginTransaction`, and neither the
datastore nor the upload directory changes (no history row, no attachment
row, no assignment row touched). -/
theorem postTareasCompletar_sin_evidencia (o : Oracle) (w : World) (req : CompletarReq)
    (hc : req.comentarios = none ∨ ∃ s, req.comentarios = some s ∧ ∀ x ∈ s.data, jsWhite x = true)
    (hf : req.files = []) :
    (postTareasCompletar o w req).2.success = false ∧
    ((postTareasCompletar o w req).2.status = 400 ∨ (postTareasCompletar o w req).2.status = 500) ∧
    (o 0 = none → (postTareasCompletar o w req).2.status = 400) ∧
    (postTareasCompletar o w req).1 = w := by
  have hn := noTrim_of_blank req.comentarios hc
  unfold postTareasCompletar postTareasCompletarTry Tx.ping
  simp only
  cases ho : o 0 with
  | some m =>
    simp [hf, unlinkEachQuiet, Response.fallo]
  | none =>
    simp [hn, hf, rechazar, unlinkEach, Response.fallo]

/-- Witness of C4: a comment of blanks and a tab, no file. -/
theorem postTareasCompletar_sin_evidencia_witness :
    (postTareasCompletar sinFallos { db := dbUnaTarea, fs := [] }
      { asignacionId := 1, comentarios := some "  \t", files := [], now := 5 }).2.success = false ∧
    ((postTareasCompletar sinFallos { db := dbUnaTarea, fs := [] }
      { asignacionId := 1, comentarios := some "  \t", files := [], now := 5 }).2.status = 400 ∨
     (postTareasCompletar sinFallos { db := dbUnaTarea, fs := [] }
      { asignacionId := 1, comentarios := some "  \t", files := [], now := 5 }).2.status = 500) ∧
    (sinFallos 0 = none → (postTareasCompletar sinFallos { db := dbUnaTarea, fs := [] }
      { asignacionId := 1, comentarios := some "  \t", files := [], now := 5 }).2.status = 400) ∧
    (postTareasCompletar sinFallos { db := dbUnaTarea, fs := [] }
      { asignacionId := 1, comentarios := some "  \t", files := [], now := 5 }).1 =
      { db := dbUnaTarea, fs := [] } :=
  postTareasCompletar_sin_evidencia sinFallos { db := dbUnaTarea, fs := [] }
    { asignacionId := 1, comentarios := some "  \t", files := [], now := 5 }
    (Or.inr ⟨"  \t", rfl, by decide⟩) rfl

/-- A completion with evidence of an assignment row that is the only one of
its id and whose task exists, on a datastore that accepts its calls, runs to
`commit`. -/
theorem postTareasCompletar_exito (o : Oracle) (w : World) (req : CompletarReq) (a : Asignacion)
    (hev : conEvidencia req) (ha : a ∈ w.db.tareas_asignaciones) (hid : a.id = req.asignacionId)
    (hpk : ∀ x ∈ w.db.tareas_asignaciones, x.id = req.asignacionId → x = a)
    (hT : w.db.hasTarea a.tarea_id = true)
    (ho : ∀ k, k < req.files.length + 5 → o k = none) :
    (postTareasCompletar o w req).1 = { db := dbCompletada w.db req a, fs := w.fs } ∧
    (postTareasCompletar o w req).2.status = 200 ∧
    (postTareasCompletar o w req).2.success = true := by
  have hx : completarTx o { db := w.db, paso := 2 } req a = Except.ok (dbCompletada w.db req a) :=
    (completarTx_ok_iff _ _ _ _ _).mpr ⟨hT, fun k h1 h2 => ho k (by simp at h2; omega), rfl⟩
  rcases postTareasCompletar_casos o w req with
    ⟨a1, titulo, rest, db, -, -, -, hsel, hx1, h1, h2, h3⟩ | ⟨hs, -, -⟩
  · obtain ⟨hm1, hm2, -⟩ := selectConTitulo_mem w.db req.asignacionId _ hsel a1 titulo
      (List.mem_cons_self _ _)
    have := hpk a1 hm1 hm2
    subst this
    rw [hx] at hx1
    injection hx1 with hx1
    subst hx1
    exact ⟨h1, h2, h3⟩
  · exfalso
    have hev2 : (noTrim req.comentarios && req.files.isEmpty) = false := by
      rcases hev with h | h
      · rw [h]; rfl
      · cases hfl : req.files with
        | nil => exact absurd hfl h
        | cons f r => simp
    obtain ⟨rows, hrows⟩ := selectConTitulo_rows w.db req.asignacionId
    have hp0 : Tx.ping o { db := w.db, paso := 0 } = Except.ok { db := w.db, paso := 1 } :=
      (ping_ok_iff _ _ _).mpr ⟨ho 0 (by omega), rfl⟩
    have hsel : Tx.execute o { db := w.db, paso := 1 }
        (Db.selectAsignacionConTitulo req.asignacionId) =
        Except.ok ({ db := w.db, paso := 2 }, rows) :=
      execute_none o _ _ _ _ (ho 1 (by omega)) hrows
    cases rows with
    | nil =>
      have := (selectConTitulo_nil_iff w.db req.asignacionId).mp hrows a ha hid
      rw [hT] at this
      cases this
    | cons r rest =>
      obtain ⟨a1, titulo⟩ := r
      obtain ⟨hm1, hm2, -⟩ := selectConTitulo_mem w.db req.asignacionId _ hrows a1 titulo
        (List.mem_cons_self _ _)
      have := hpk a1 hm1 hm2
      subst this
      have hT2 : (postTareasCompletar o w req).2.success = true := by
        unfold postTareasCompletar postTareasCompletarTry
        rw [hp0]
        simp only [hev2, hsel, hx]
        rfl
      rw [hT2] at hs
      cases hs

theorem dbCompletada_asignaciones (db : Db) (req : CompletarReq) (a : Asignacion) :
    (dbCompletada db req a).tareas_asignaciones =
      db.tareas_asignaciones.map (fun x =>
        if x.id = req.asignacionId then x.completada req.comentarios req.now else x) := rfl

theorem dbCompletada_hasTarea (db : Db) (req : CompletarReq) (a : Asignacion) (t : Nat) :
    (dbCompletada db req a).hasTarea t = db.hasTarea t := rfl

theorem orNull_some (c : String) (hc : c ≠ "") : orNull (some c) = some c := by
  simp [orNull, truthy, hc]

theorem orNull_none_of (c : Option String) (hc : c = none ∨ c = some "") : orNull c = none := by
  rcases hc with rfl | rfl <;> simp [orNull, truthy]

/-- C5: an accepted completion (it carries a non-blank comment or a file) of an
existing assignment `a` with M files, on which no datastore step fails,
answers 200; afterwards the row of `a` has estado completada, the supplied
comment (NULL when there is none: absent or empty) and fecha_completado set to
the instant of the call, and every other assignment row is as before; exactly
M rows are added to tareas_archivos, each for the task of `a`; exactly one
tareas_historial row is added, with accion completada, for the task of `a`. -/
theorem postTareasCompletar_efecto (o : Oracle) (w : World) (req : CompletarReq) (a : Asignacion)
    (hev : conEvidencia req) (ha : a ∈ w.db.tareas_asignaciones) (hid : a.id = req.asignacionId)
    (hpk : ∀ x ∈ w.db.tareas_asignaciones, x.id = req.asignacionId → x = a)
    (hT : w.db.hasTarea a.tarea_id = true) (ho : ∀ k, o k = none) :
    (postTareasCompletar o w req).2.status = 200 ∧
    (postTareasCompletar o w req).1.db.tareas_asignaciones =
      w.db.tareas_asignaciones.map (fun x =>
        if x = a then
          { a with estado := "completada", comentarios := orNull req.comentarios,
                   fecha_completado := some req.now }
        else x) ∧
    (∀ c, req.comentarios = some c → c ≠ "" → orNull req.comentarios = some c) ∧
    (req.comentarios = none ∨ req.comentarios = some "" → orNull req.comentarios = none) ∧
    ∃ (nuevos : List Archivo) (h : Historial),
      (postTareasCompletar o w req).1.db.tareas_archivos = w.db.tareas_archivos ++ nuevos ∧
      nuevos.length = req.files.length ∧
      (∀ f ∈ nuevos, f.tarea_id = a.tarea_id) ∧
      (postTareasCompletar o w req).1.db.tareas_historial = w.db.tareas_historial ++ [h] ∧
      h.accion = "completada" ∧ h.tarea_id = a.tarea_id := by
  obtain ⟨h1, h2, -⟩ := postTareasCompletar_exito o w req a hev ha hid hpk hT (fun k _ => ho k)
  refine ⟨h2, ?_, ?_, ?_, ?_⟩
  · rw [h1]
    simp only [dbCompletada_asignaciones]
    apply List.map_congr_left
    intro x hx
    by_cases hxa : x = a
    · subst hxa
      rw [if_pos hid, if_pos rfl]
      rfl
    · have : x.id ≠ req.asignacionId := fun h => hxa (hpk x hx h)
      simp only [this, hxa, if_false]
  · intro c hc hc0
    rw [hc]
    exact orNull_some c hc0
  · exact orNull_none_of _
  · rw [h1]
    refine ⟨archivosDe a.tarea_id w.db.nextArchivo req.files, _, rfl, archivosDe_length _ _ _, ?_,
      rfl, rfl, rfl⟩
    intro f hf
    exact (archivosDe_mem _ _ _ _ hf).1

/-- Witness of C5: the pending assignment of `dbUnaTarea` is completed with a
comment and one file. -/
theorem postTareasCompletar_efecto_witness :
    (postTareasCompletar sinFallos { db := dbUnaTarea, fs := ["tarea-1735689600000-1.pdf"] }
      { asignacionId := 1, comentarios := some "hecho", files := [archivoPdf], now := 9 }).2.status =
      200 ∧
    (postTareasCompletar sinFallos { db := dbUnaTarea, fs := ["tarea-1735689600000-1.pdf"] }
      { asignacionId := 1, comentarios := some "hecho", files := [archivoPdf], now := 9
        }).1.db.tareas_asignaciones =
      dbUnaTarea.tareas_asignaciones.map (fun x =>
        if x = asignacionUno then
          { asignacionUno with estado := "completada", comentarios := orNull (some "hecho"),
                               fecha_completado := some 9 }
        else x) ∧
    (∀ c, some "hecho" = some c → c ≠ "" → orNull (some "hecho") = some c) ∧
    (some "hecho" = none ∨ some "hecho" = some "" → orNull (some "hecho") = none) ∧
    ∃ (nuevos : List Archivo) (h : Historial),
      (postTareasCompletar sinFallos { db := dbUnaTarea, fs := ["tarea-1735689600000-1.pdf"] }
        { asignacionId := 1, comentarios := some "hecho", files := [archivoPdf], now := 9
          }).1.db.tareas_archivos = dbUnaTarea.tareas_archivos ++ nuevos ∧
      nuevos.length = 1 ∧
      (∀ f ∈ nuevos, f.tarea_id = 1) ∧
      (postTareasCompletar sinFallos { db := dbUnaTarea, fs := ["tarea-1735689600000-1.pdf"] }
        { asignacionId := 1, comentarios := some "hecho", files := [archivoPdf], now := 9
          }).1.db.tareas_historial = dbUnaTarea.tareas_historial ++ [h] ∧
      h.accion = "completada" ∧ h.tarea_id = 1 :=
  postTareasCompletar_efecto sinFallos { db := dbUnaTarea, fs := ["tarea-1735689600000-1.pdf"] }
    { asignacionId := 1, comentarios := some "hecho", files := [archivoPdf], now := 9 }
    asignacionUno (Or.inl (by decide)) (by decide) rfl (by decide) (by decide) (fun _ => rfl)

/-- C6: completing an assignment again never errors.  Two consecutive accepted
completions of an existing assignment `a`, on a datastore that accepts their
calls, both answer 200, and after the second the row of `a` has estado
completada, the comment of the second call (NULL when it has none) and the
instant of the second call; every other assignment row is as before. -/
theorem postTareasCompletar_dos_veces (o1 o2 : Oracle) (w : World) (req1 req2 : CompletarReq)
    (a : Asignacion) (hev1 : conEvidencia req1) (hev2 : conEvidencia req2)
    (ha : a ∈ w.db.tareas_asignaciones) (hid1 : a.id = req1.asignacionId)
    (hid2 : a.id = req2.asignacionId)
    (hpk : ∀ x ∈ w.db.tareas_asignaciones, x.id = a.id → x = a)
    (hT : w.db.hasTarea a.tarea_id = true) (ho1 : ∀ k, o1 k = none) (ho2 : ∀ k, o2 k = none) :
    (postTareasCompletar o1 w req1).2.status = 200 ∧
    (postTareasCompletar o2 (postTareasCompletar o1 w req1).1 req2).2.status = 200 ∧
    (postTareasCompletar o2 (postTareasCompletar o1 w req1).1 req2).2.success = true ∧
    (postTareasCompletar o2 (postTareasCompletar o1 w req1).1 req2).1.db.tareas_asignaciones =
      w.db.tareas_asignaciones.map (fun x =>
        if x = a then
          { a with estado := "completada", comentarios := orNull req2.comentarios,
                   fecha_completado := some req2.now }
        else x) := by
  obtain ⟨h1, h2, -⟩ := postTareasCompletar_exito o1 w req1 a hev1 ha hid1
    (fun x hx h => hpk x hx (h.trans hid1.symm)) hT (fun k _ => ho1 k)
  rw [h1]
  have hmem : a.completada req1.comentarios req1.now ∈
      (dbCompletada w.db req1 a).tareas_asignaciones := by
    rw [dbCompletada_asignaciones]
    refine List.mem_map.mpr ⟨a, ha, ?_⟩
    rw [if_pos hid1]
  have hpk1 : ∀ x ∈ (dbCompletada w.db req1 a).tareas_asignaciones, x.id = req2.asignacionId →
      x = a.completada req1.comentarios req1.now := by
    intro x hx hxid
    rw [dbCompletada_asignaciones] at hx
    obtain ⟨y, hy, rfl⟩ := List.mem_map.mp hx
    by_cases hyid : y.id = req1.asignacionId
    · rw [if_pos hyid]
      rw [hpk y hy (hyid.trans hid1.symm)]
    · rw [if_neg hyid] at hxid
      exact absurd (hxid.trans (hid2.symm.trans hid1)) hyid
  obtain ⟨g1, g2, g3⟩ := postTareasCompletar_exito o2
    { db := dbCompletada w.db req1 a, fs := w.fs } req2 (a.completada req1.comentarios req1.now)
    hev2 hmem hid2 hpk1 (by rw [dbCompletada_hasTarea]; exact hT) (fun k _ => ho2 k)
  refine ⟨h2, g2, g3, ?_⟩
  rw [g1]
  simp only [dbCompletada_asignaciones, List.map_map]
  apply List.map_congr_left
  intro x hx
  by_cases hxa : x = a
  · subst hxa
    simp only [Function.comp, if_pos hid1, if_pos rfl]
    rw [if_pos (show (x.completada req1.comentarios req1.now).id = req2.asignacionId from hid2)]
    rfl
  · have hne : x.id ≠ req1.asignacionId := fun h => hxa (hpk x hx (h.trans hid1.symm))
    have hne2 : x.id ≠ req2.asignacionId := fun h => hxa (hpk x hx (h.trans hid2.symm))
    simp only [Function.comp, if_neg hne, if_neg hne2, if_neg hxa]

/-- Witness of C6: the pending assignment of `dbUnaTarea` is completed twice,
first with a file, then with a comment. -/
theorem postTareasCompletar_dos_veces_witness :
    (postTareasCompletar sinFallos { db := dbUnaTarea, fs := ["tarea-1735689600000-1.pdf"] }
      { asignacionId := 1, comentarios := none, files := [archivoPdf], now := 9 }).2.status = 200 ∧
    (postTareasCompletar sinFallos
      (postTareasCompletar sinFallos { db := dbUnaTarea, fs := ["tarea-1735689600000-1.pdf"] }
        { asignacionId := 1, comentarios := none, files := [archivoPdf], now := 9 }).1
      { asignacionId := 1, comentarios := some "corregido", files := [], now := 12 }).2.status = 200 ∧
    (postTareasCompletar sinFallos
      (postTareasCompletar sinFallos { db := dbUnaTarea, fs := ["tarea-1735689600000-1.pdf"] }
        { asignacionId := 1, comentarios := none, files := [archivoPdf], now := 9 }).1
      { asignacionId := 1, comentarios := some "corregido", files := [], now := 12 }).2.success =
      true ∧
    (postTareasCompletar sinFallos
      (postTareasCompletar sinFallos { db := dbUnaTarea, fs := ["tarea-1735689600000-1.pdf"] }
        { asignacionId := 1, comentarios := none, files := [archivoPdf], now := 9 }).1
      { asignacionId := 1, comentarios := some "corregido", files := [], now := 12
        }).1.db.tareas_asignaciones =
      dbUnaTarea.tareas_asignaciones.map (fun x =>
        if x = asignacionUno then
          { asignacionUno with estado := "completada", comentarios := orNull (some "corregido"),
                               fecha_completado := some 12 }
        else x) :=
  postTareasCompletar_dos_veces sinFallos sinFallos
    { db := dbUnaTarea, fs := ["tarea-1735689600000-1.pdf"] }
    { asignacionId := 1, comentarios := none, files := [archivoPdf], now := 9 }
    { asignacionId := 1, comentarios := some "corregido", files := [], now := 12 }
    asignacionUno (Or.inr (by decide)) (Or.inl (by decide)) (by decide) rfl rfl (by decide)
    (by decide) (fun _ => rfl) (fun _ => rfl)

/-- Counterexample to C7 as stated: a completion without evidence of an
assignment id that matches no row is answered 400, not 404. -/
theorem postTareasCompletar_404_counterexample :
    (∀ a ∈ dbVacia.tareas_asignaciones, a.id ≠ 99) ∧
    (postTareasCompletar sinFallos { db := dbVacia, fs := [] }
      { asignacionId := 99, comentarios := none, files := [], now := 5 }).2.status = 400 ∧
    (postTareasCompletar sinFallos { db := dbVacia, fs := [] }
      { asignacionId := 99, comentarios := none, files := [], now := 5 }).2.status ≠ 404 := by
  decide

/-- C7, amended: a completion that carries evidence and whose assignmentId
matches no row of tareas_asignaciones joined to an existing task, on a
datastore that accepts the two calls made and with the received files in
place, is answered 404; the datastore is unchanged and the received files are
removed.  Whether or not it carries evidence, a call whose id matches no such
row is answered with an error and leaves the datastore unchanged. -/
theorem postTareasCompletar_no_encontrada (o : Oracle) (w : World) (req : CompletarReq)
    (hno : ∀ a ∈ w.db.tareas_asignaciones, a.id = req.asignacionId →
      w.db.hasTarea a.tarea_id = false) :
    ((postTareasCompletar o w req).2.success = false ∧
      (postTareasCompletar o w req).1.db = w.db) ∧
    (conEvidencia req → o 0 = none → o 1 = none → subidos w.fs req.files →
      (postTareasCompletar o w req).2.status = 404 ∧
      (postTareasCompletar o w req).1 = { db := w.db, fs := sinArchivos w.fs req.files }) := by
  constructor
  · rcases postTareasCompletar_casos o w req with
      ⟨a1, titulo, rest, db, -, -, -, hsel, -⟩ | ⟨hs, -, hdb⟩
    · exfalso
      obtain ⟨hm1, hm2, hm3⟩ := selectConTitulo_mem w.db req.asignacionId _ hsel a1 titulo
        (List.mem_cons_self _ _)
      rw [hno a1 hm1 hm2] at hm3
      cases hm3
    · exact ⟨hs, hdb⟩
  · intro hev ho0 ho1 hsub
    have hev2 : (noTrim req.comentarios && req.files.isEmpty) = false := by
      rcases hev with h | h
      · rw [h]; rfl
      · cases hfl : req.files with
        | nil => exact absurd hfl h
        | cons f r => simp
    have hp0 : Tx.ping o { db := w.db, paso := 0 } = Except.ok { db := w.db, paso := 1 } :=
      (ping_ok_iff _ _ _).mpr ⟨ho0, rfl⟩
    have hsel : Tx.execute o { db := w.db, paso := 1 }
        (Db.selectAsignacionConTitulo req.asignacionId) =
        Except.ok ({ db := w.db, paso := 2 }, []) :=
      execute_none o _ _ _ _ ho1 ((selectConTitulo_nil_iff w.db req.asignacionId).mpr hno)
    unfold postTareasCompletar postTareasCompletarTry
    rw [hp0]
    simp only [hev2, hsel, rechazar, unlinkEach_subidos w.fs req.files hsub]
    exact ⟨rfl, rfl⟩

/-- Witness of C7 (amended): a completion with a comment of an id that matches
no row. -/
theorem postTareasCompletar_no_encontrada_witness :
    ((postTareasCompletar sinFallos { db := dbUnaTarea, fs := [] }
        { asignacionId := 99, comentarios := some "hecho", files := [], now := 5 }).2.success =
        false ∧
      (postTareasCompletar sinFallos { db := dbUnaTarea, fs := [] }
        { asignacionId := 99, comentarios := some "hecho", files := [], now := 5 }).1.db =
        dbUnaTarea) ∧
    (conEvidencia { asignacionId := 99, comentarios := some "hecho", files := [], now := 5 } →
      sinFallos 0 = none → sinFallos 1 = none → subidos [] [] →
      (postTareasCompletar sinFallos { db := dbUnaTarea, fs := [] }
        { asignacionId := 99, comentarios := some "hecho", files := [], now := 5 }).2.status = 404 ∧
      (postTareasCompletar sinFallos { db := dbUnaTarea, fs := [] }
        { asignacionId := 99, comentarios := some "hecho", files := [], now := 5 }).1 =
        { db := dbUnaTarea, fs := sinArchivos [] [] }) :=
  postTareasCompletar_no_encontrada sinFallos { db := dbUnaTarea, fs := [] }
    { asignacionId := 99, comentarios := some "hecho", files := [], now := 5 } (by decide)

theorem bindParam_ok_iff {α : Type} (x : Option α) (a : α) :
    bindParam x = Except.ok a ↔ x = some a := by
  cases x <;> simp [bindParam]

/-- The transaction of a state update runs to `commit` exactly when a state is
given, the datastore accepts its calls and the task of the assignment exists. -/
theorem estadoTx_ok_iff (o : Oracle) (tx1 : Tx) (req : EstadoReq) (a : Asignacion) (db : Db) :
    estadoTx o tx1 req a = Except.ok db ↔
      ∃ s, req.estado = some s ∧ tx1.db.hasTarea a.tarea_id = true ∧
        (∀ k, tx1.paso ≤ k → k < tx1.paso + 3 → o k = none) ∧
        db = dbEstado tx1.db req s a := by
  unfold estadoTx
  simp only [bind_ok_iff]
  constructor
  · rintro ⟨s, hs, ⟨tx2, u⟩, h2, ⟨tx3, u3⟩, h3, tx4, h4, hr⟩
    rw [bindParam_ok_iff] at hs
    rw [execute_ok_iff] at h2 h3
    rw [ping_ok_iff] at h4
    obtain ⟨ho2, db2, hs2, rfl⟩ := h2
    rw [updateAsignacion_eq] at hs2
    simp only [Except.ok.injEq, Prod.mk.injEq] at hs2
    obtain ⟨rfl, -⟩ := hs2
    obtain ⟨ho3, db3, hs3, rfl⟩ := h3
    obtain ⟨ho4, rfl⟩ := h4
    rw [insertHistorial_eq] at hs3
    simp only [hasTarea_conEstado] at hs3
    by_cases hT : tx1.db.hasTarea a.tarea_id = true
    · refine ⟨s, hs, hT, ?_, ?_⟩
      · intro k hk1 hk2
        simp only at ho2 ho3 ho4
        by_cases c1 : k = tx1.paso
        · rw [c1]; exact ho2
        by_cases c2 : k = tx1.paso + 1
        · rw [c2]; exact ho3
        have c3 : k = tx1.paso + 1 + 1 := by omega
        rw [c3]; exact ho4
      · rw [if_pos hT] at hs3
        simp only [Except.ok.injEq, Prod.mk.injEq] at hs3
        obtain ⟨rfl, -⟩ := hs3
        simp only [pure, Except.pure, Except.ok.injEq] at hr
        rw [← hr]
        rfl
    · rw [if_neg hT] at hs3
      cases hs3
  · rintro ⟨s, hs, hT, ho, rfl⟩
    have e2 : tx1.execute o (Db.updateAsignacion req.id s (orNull req.comentarios)
        (if s = "completada" then some req.now else none)) =
        Except.ok ({ db := tx1.db.conEstado req.id s (orNull req.comentarios)
                       (if s = "completada" then some req.now else none),
                     paso := tx1.paso + 1 }, ()) :=
      execute_none o tx1 _ _ _ (ho _ (le_refl _) (by omega)) (updateAsignacion_eq _ _ _ _ _)
    have e3 := execute_none o
      { db := tx1.db.conEstado req.id s (orNull req.comentarios)
          (if s = "completada" then some req.now else none),
        paso := tx1.paso + 1 }
      (Db.insertHistorial a.tarea_id (usuarioOUno req.usuario_id)
        (orDefault req.usuario_tipo "superadmin") "actualizacion"
        ("Estado de asignación actualizado a: " ++ s) req.now) _ _
      (ho _ (by simp) (by simp))
      (by rw [insertHistorial_eq]
          simp only [hasTarea_conEstado]
          rw [if_pos hT])
    exact ⟨s, (bindParam_ok_iff _ _).mpr hs, _, e2, _, e3, _,
      (ping_ok_iff _ _ _).mpr ⟨ho _ (by simp; omega) (by simp), rfl⟩, rfl⟩

/-- The query of a state update returns the assignment rows of the id. -/
theorem selectAsignacion_eq (id : Nat) (db : Db) :
    Db.selectAsignacion id db =
      Except.ok (db, db.tareas_asignaciones.filter (fun a => a.id == id)) := rfl

/-- Every outcome of `PUT /tareas/asignacion/:id`: either a row of the id was
found and the transaction ran to `commit` (answer 200), or the answer is an
error and the world is the one before the call. -/
theorem putTareasAsignacion_casos (o : Oracle) (w : World) (req : EstadoReq) :
    (∃ a rest db,
        o 0 = none ∧ o 1 = none ∧
        w.db.tareas_asignaciones.filter (fun x => x.id == req.id) = a :: rest ∧
        estadoTx o { db := w.db, paso := 2 } req a = Except.ok db ∧
        (putTareasAsignacion o w req).1 = { db := db, fs := w.fs } ∧
        (putTareasAsignacion o w req).2.status = 200 ∧
        (putTareasAsignacion o w req).2.success = true) ∨
      ((putTareasAsignacion o w req).2.success = false ∧
        ((putTareasAsignacion o w req).2.status = 404 ∨ (putTareasAsignacion o w req).2.status = 500) ∧
        (putTareasAsignacion o w req).1 = w) := by
  cases hp : Tx.ping o { db := w.db, paso := 0 } with
  | error m =>
    right
    have e : putTareasAsignacion o w req = (w, Response.fallo 500 "Error al actualizar estado") := by
      unfold putTareasAsignacion
      simp only [hp]
    rw [e]
    exact ⟨rfl, Or.inr rfl, rfl⟩
  | ok tx0 =>
    obtain ⟨ho0, rfl⟩ := (ping_ok_iff _ _ _).mp hp
    cases ho1 : o 1 with
    | some m =>
      right
      have e : putTareasAsignacion o w req = (w, Response.fallo 500 "Error al actualizar estado") := by
        unfold putTareasAsignacion
        simp only [hp, Tx.execute, ho1]
      rw [e]
      exact ⟨rfl, Or.inr rfl, rfl⟩
    | none =>
      have hsel : Tx.execute o { db := w.db, paso := 0 + 1 } (Db.selectAsignacion req.id) =
          Except.ok ({ db := w.db, paso := 0 + 1 + 1 },
            w.db.tareas_asignaciones.filter (fun x => x.id == req.id)) :=
        execute_none o _ _ _ _ ho1 (selectAsignacion_eq _ _)
      cases hrows : w.db.tareas_asignaciones.filter (fun x => x.id == req.id) with
      | nil =>
        right
        have e : putTareasAsignacion o w req = (w, Response.fallo 404 "Asignación no encontrada") := by
          unfold putTareasAsignacion
          simp only [hp, hsel, hrows]
        rw [e]
        exact ⟨rfl, Or.inl rfl, rfl⟩
      | cons a rest =>
        cases hx : estadoTx o { db := w.db, paso := 0 + 1 + 1 } req a with
        | error m =>
          right
          have e : putTareasAsignacion o w req =
              (w, Response.fallo 500 "Error al actualizar estado") := by
            unfold putTareasAsignacion
            simp only [hp, hsel, hrows, hx]
          rw [e]
          exact ⟨rfl, Or.inr rfl, rfl⟩
        | ok db =>
          left
          have e : putTareasAsignacion o w req = ({ db := db, fs := w.fs },
              { status := 200, success := true, error := none,
                message := some "Estado actualizado correctamente", data := [] }) := by
            unfold putTareasAsignacion
            simp only [hp, hsel, hrows, hx]
          rw [e]
          exact ⟨a, rest, db, ho0, rfl, rfl, hx, rfl, rfl, rfl⟩

theorem dbEstado_asignaciones (db : Db) (req : EstadoReq) (s : String) (a : Asignacion) :
    (dbEstado db req s a).tareas_asignaciones =
      db.tareas_asignaciones.map (fun x =>
        if x.id = req.id then
          { x with estado := s, comentarios := orNull req.comentarios,
                   fecha_completado := if s = "completada" then some req.now else none }
        else x) := rfl

/-- Counterexample to C8 as stated: a state update with the empty string as
comment stores NULL, not the comment. -/
theorem putTareasAsignacion_counterexample :
    (putTareasAsignacion sinFallos { db := dbUnaTarea, fs := [] }
      { id := 1, estado := some "en_progreso", comentarios := some "", usuario_id := some 7,
        usuario_tipo := some "personal", now := 9 }).2.status = 200 ∧
    ((putTareasAsignacion sinFallos { db := dbUnaTarea, fs := [] }
      { id := 1, estado := some "en_progreso", comentarios := some "", usuario_id := some 7,
        usuario_tipo := some "personal", now := 9 }).1.db.tareas_asignaciones.filter
        (fun a => a.id == 1)).map (fun a => a.comentarios) = [none] ∧
    ((putTareasAsignacion sinFallos { db := dbUnaTarea, fs := [] }
      { id := 1, estado := some "en_progreso", comentarios := some "", usuario_id := some 7,
        usuario_tipo := some "personal", now := 9 }).1.db.tareas_asignaciones.filter
        (fun a => a.id == 1)).map (fun a => a.comentarios) ≠ [some ""] := by
  decide

/-- C8, amended: a state update of an existing assignment `a` to state `s` with
optional comment `c`, on which no datastore step fails, answers 200; afterwards
the row of `a` has estado `s`, comentarios `c` when `c` is a non-empty string
and NULL when `c` is absent or empty, and fecha_completado non-null exactly when
`s` is completada; every other assignment row is as before, and exactly one
tareas_historial row, with accion actualizacion, is appended for the task of
`a`.  For an id that matches no assignment row the answer is 404 (the
datastore accepting the two calls made) and the world is unchanged. -/
theorem putTareasAsignacion_efecto (o : Oracle) (w : World) (req : EstadoReq) :
    (∀ (a : Asignacion) (s : String),
      a ∈ w.db.tareas_asignaciones → a.id = req.id →
      (∀ x ∈ w.db.tareas_asignaciones, x.id = req.id → x = a) →
      w.db.hasTarea a.tarea_id = true → req.estado = some s → (∀ k, o k = none) →
      (putTareasAsignacion o w req).2.status = 200 ∧
      (putTareasAsignacion o w req).1.db.tareas_asignaciones =
        w.db.tareas_asignaciones.map (fun x =>
          if x = a then
            { a with estado := s, comentarios := orNull req.comentarios,
                     fecha_completado := if s = "completada" then some req.now else none }
          else x) ∧
      (∀ c, req.comentarios = some c → c ≠ "" → orNull req.comentarios = some c) ∧
      (req.comentarios = none ∨ req.comentarios = some "" → orNull req.comentarios = none) ∧
      ((if s = "completada" then some req.now else none) ≠ none ↔ s = "completada") ∧
      ∃ h : Historial,
        (putTareasAsignacion o w req).1.db.tareas_historial = w.db.tareas_historial ++ [h] ∧
        h.accion = "actualizacion" ∧ h.tarea_id = a.tarea_id) ∧
    ((∀ x ∈ w.db.tareas_asignaciones, x.id ≠ req.id) → o 0 = none → o 1 = none →
      (putTareasAsignacion o w req).2.status = 404 ∧ (putTareasAsignacion o w req).1 = w) := by
  constructor
  · intro a s ha hid hpk hT hs ho
    have hfil : ∀ a1 rest, w.db.tareas_asignaciones.filter (fun x => x.id == req.id) = a1 :: rest →
        a1 = a := by
      intro a1 rest h
      have hm : a1 ∈ w.db.tareas_asignaciones.filter (fun x => x.id == req.id) := by
        rw [h]; exact List.mem_cons_self _ _
      simp only [List.mem_filter, beq_iff_eq] at hm
      exact hpk a1 hm.1 hm.2
    have hx : estadoTx o { db := w.db, paso := 2 } req a = Except.ok (dbEstado w.db req s a) :=
      (estadoTx_ok_iff _ _ _ _ _).mpr ⟨s, hs, hT, fun k _ _ => ho k, rfl⟩
    have key : (putTareasAsignacion o w req).1 = { db := dbEstado w.db req s a, fs := w.fs } ∧
        (putTareasAsignacion o w req).2.status = 200 := by
      rcases putTareasAsignacion_casos o w req with
        ⟨a1, rest, db, -, -, hrows, hx1, h1, h2, -⟩ | ⟨hsf, -, -⟩
      · have := hfil a1 rest hrows
        subst this
        rw [hx] at hx1
        injection hx1 with hx1
        subst hx1
        exact ⟨h1, h2⟩
      · exfalso
        have hp0 : Tx.ping o { db := w.db, paso := 0 } = Except.ok { db := w.db, paso := 1 } :=
          (ping_ok_iff _ _ _).mpr ⟨ho 0, rfl⟩
        have hsel : Tx.execute o { db := w.db, paso := 1 } (Db.selectAsignacion req.id) =
            Except.ok ({ db := w.db, paso := 2 },
              w.db.tareas_asignaciones.filter (fun x => x.id == req.id)) :=
          execute_none o _ _ _ _ (ho 1) (selectAsignacion_eq _ _)
        cases hrows : w.db.tareas_asignaciones.filter (fun x => x.id == req.id) with
        | nil =>
          have hm : a ∈ w.db.tareas_asignaciones.filter (fun x => x.id == req.id) := by
            simp only [List.mem_filter, beq_iff_eq]
            exact ⟨ha, hid⟩
          rw [hrows] at hm
          cases hm
        | cons a1 rest =>
          have := hfil a1 rest hrows
          subst this
          have e : (putTareasAsignacion o w req).2.success = true := by
            unfold putTareasAsignacion
            simp only [hp0, hsel, hrows, hx]
          rw [e] at hsf
          cases hsf
    obtain ⟨h1, h2⟩ := key
    refine ⟨h2, ?_, ?_, ?_, ?_, ?_⟩
    · rw [h1]
      simp only [dbEstado_asignaciones]
      apply List.map_congr_left
      intro x hx
      by_cases hxa : x = a
      · subst hxa
        rw [if_pos hid, if_pos rfl]
      · have : x.id ≠ req.id := fun h => hxa (hpk x hx h)
        rw [if_neg this, if_neg hxa]
    · intro c hc hc0
      rw [hc]
      exact orNull_some c hc0
    · exact orNull_none_of _
    · by_cases hsc : s = "completada"
      · simp [hsc]
      · simp [hsc]
    · rw [h1]
      exact ⟨_, rfl, rfl, rfl⟩
  · intro hno ho0 ho1
    have hp0 : Tx.ping o { db := w.db, paso := 0 } = Except.ok { db := w.db, paso := 1 } :=
      (ping_ok_iff _ _ _).mpr ⟨ho0, rfl⟩
    have hsel : Tx.execute o { db := w.db, paso := 1 } (Db.selectAsignacion req.id) =
        Except.ok ({ db := w.db, paso := 2 },
          w.db.tareas_asignaciones.filter (fun x => x.id == req.id)) :=
      execute_none o _ _ _ _ ho1 (selectAsignacion_eq _ _)
    have hrows : w.db.tareas_asignaciones.filter (fun x => x.id == req.id) = [] := by
      rw [List.filter_eq_nil_iff]
      intro x hx
      simp only [beq_iff_eq]
      exact hno x hx
    have e : putTareasAsignacion o w req = (w, Response.fallo 404 "Asignación no encontrada") := by
      unfold putTareasAsignacion
      simp only [hp0, hsel, hrows]
    rw [e]
    exact ⟨rfl, rfl⟩

/-- Witness of C8 (amended): the pending assignment of `dbUnaTarea` is moved
to en_progreso, and an unknown id is answered 404. -/
theorem putTareasAsignacion_efecto_witness :
    ((putTareasAsignacion sinFallos { db := dbUnaTarea, fs := [] }
        { id := 1, estado := some "en_progreso", comentarios := some "voy", usuario_id := some 7,
          usuario_tipo := some "personal", now := 9 }).2.status = 200 ∧
      (putTareasAsignacion sinFallos { db := dbUnaTarea, fs := [] }
        { id := 1, estado := some "en_progreso", comentarios := some "voy", usuario_id := some 7,
          usuario_tipo := some "personal", now := 9 }).1.db.tareas_asignaciones =
        dbUnaTarea.tareas_asignaciones.map (fun x =>
          if x = asignacionUno then
            { asignacionUno with
              estado := "en_progreso", comentarios := orNull (some "voy"),
              fecha_completado := if "en_progreso" = "completada" then some 9 else none }
          else x) ∧
      (∀ c, some "voy" = some c → c ≠ "" → orNull (some "voy") = some c) ∧
      (some "voy" = none ∨ some "voy" = some "" → orNull (some "voy") = none) ∧
      ((if "en_progreso" = "completada" then some 9 else none) ≠ none ↔
        "en_progreso" = "completada") ∧
      ∃ h : Historial,
        (putTareasAsignacion sinFallos { db := dbUnaTarea, fs := [] }
          { id := 1, estado := some "en_progreso", comentarios := some "voy", usuario_id := some 7,
            usuario_tipo := some "personal", now := 9 }).1.db.tareas_historial =
          dbUnaTarea.tareas_historial ++ [h] ∧
        h.accion = "actualizacion" ∧ h.tarea_id = 1) ∧
    ((putTareasAsignacion sinFallos { db := dbUnaTarea, fs := [] }
        { id := 99, estado := some "en_progreso", comentarios := none, usuario_id := none,
          usuario_tipo := none, now := 9 }).2.status = 404 ∧
      (putTareasAsignacion sinFallos { db := dbUnaTarea, fs := [] }
        { id := 99, estado := some "en_progreso", comentarios := none, usuario_id := none,
          usuario_tipo := none, now := 9 }).1 = { db := dbUnaTarea, fs := [] }) :=
  ⟨(putTareasAsignacion_efecto sinFallos { db := dbUnaTarea, fs := [] }
      { id := 1, estado := some "en_progreso", comentarios := some "voy", usuario_id := some 7,
        usuario_tipo := some "personal", now := 9 }).1 asignacionUno "en_progreso"
      (by decide) rfl (by decide) (by decide) rfl (fun _ => rfl),
   (putTareasAsignacion_efecto sinFallos { db := dbUnaTarea, fs := [] }
      { id := 99, estado := some "en_progreso", comentarios := none, usuario_id := none,
        usuario_tipo := none, now := 9 }).2 (by decide) rfl rfl⟩

theorem updateTarea_eq (id : Nat) (titulo : String) (descripcion : Option String) (fecha : Nat)
    (db : Db) :
    Db.updateTarea id titulo descripcion fecha db =
      Except.ok (db.conTareaEditada id titulo descripcion fecha, ()) := rfl

theorem deleteAsignacionesDe_eq (tid : Nat) (db : Db) :
    Db.deleteAsignacionesDe tid db = Except.ok (db.sinAsignacionesDe tid, ()) := rfl

/-- Step 2 of an edit: skipped when no list is supplied; otherwise it succeeds
exactly when the payload parses to an iterable value, the datastore accepts the
delete and the insert loop succeeds. -/
theorem reemplazarAsignaciones_ok_iff (parse : String → Option Parsed) (o : Oracle) (tx tx1 : Tx)
    (req : EditarReq) :
    reemplazarAsignaciones parse o tx req = Except.ok tx1 ↔
      (listaEditada parse req = none ∧
        (req.asignaciones = none ∨ req.asignaciones = some "") ∧ tx1 = tx) ∨
      (∃ items, listaEditada parse req = some items ∧ o tx.paso = none ∧
        insertAsignaciones o req.id { db := tx.db.sinAsignacionesDe req.id, paso := tx.paso + 1 }
          items = Except.ok tx1) := by
  unfold reemplazarAsignaciones listaEditada
  cases ha : req.asignaciones with
  | none => simp [eq_comm]
  | some asig =>
    by_cases h0 : asig = ""
    · simp [h0, eq_comm]
    · simp only [h0, if_false]
      cases hp : parse asig with
      | none => simp [h0]
      | some v =>
        simp only [Option.bind]
        cases ho : o tx.paso with
        | some m => simp [Tx.execute, ho, h0]
        | none =>
          have he : tx.execute o (Db.deleteAsignacionesDe req.id) =
              Except.ok ({ db := tx.db.sinAsignacionesDe req.id, paso := tx.paso + 1 }, ()) :=
            execute_none o tx _ _ _ ho (deleteAsignacionesDe_eq _ _)
          simp only [he]
          cases hi : v.iter with
          | none => simp [h0]
          | some items => simp [h0]

/-- When the transaction of an edit runs to `commit`, title and due date were
given, every supplied entry carries both properties, and the datastore reached
is the edited one. -/
theorem editarTx_ok (parse : String → Option Parsed) (o : Oracle) (tx0 : Tx) (req : EditarReq)
    (db : Db) (h : editarTx parse o tx0 req = Except.ok db) :
    ∃ titulo fecha, req.titulo = some titulo ∧ req.fecha_entrega = some fecha ∧
      (∀ items, listaEditada parse req = some items → ∀ e ∈ items, entradaValida e = true) ∧
      db = dbEditada tx0.db req titulo fecha (listaEditada parse req) := by
  unfold editarTx at h
  simp only [bind_ok_iff] at h
  obtain ⟨titulo, ht, fecha, hf, ⟨tx1, u⟩, h1, tx2, h2, tx3, h3, tx4, h4, hr⟩ := h
  rw [bindParam_ok_iff] at ht hf
  rw [execute_ok_iff] at h1
  rw [reemplazarAsignaciones_ok_iff] at h2
  rw [insertArchivos_ok_iff] at h3
  rw [ping_ok_iff] at h4
  obtain ⟨-, db1, hs1, rfl⟩ := h1
  rw [updateTarea_eq] at hs1
  simp only [Except.ok.injEq, Prod.mk.injEq] at hs1
  obtain ⟨rfl, -⟩ := hs1
  obtain ⟨-, -, rfl⟩ := h3
  obtain ⟨-, rfl⟩ := h4
  simp only [pure, Except.pure, Except.ok.injEq] at hr
  refine ⟨titulo, fecha, ht, hf, ?_, ?_⟩
  · intro items hl e he
    rcases h2 with ⟨hn, -, -⟩ | ⟨items1, hl1, -, hins⟩
    · rw [hn] at hl
      cases hl
    · rw [hl1] at hl
      injection hl with hl
      subst hl
      exact ((insertAsignaciones_ok_iff _ _ _ _ _).mp hins).1 e he
  · rw [← hr]
    rcases h2 with ⟨hn, -, rfl⟩ | ⟨items1, hl1, -, hins⟩
    · rw [hn]
      rfl
    · obtain ⟨-, -, -, rfl⟩ := (insertAsignaciones_ok_iff _ _ _ _ _).mp hins
      rw [hl1]
      rfl

/-- Every outcome of `PUT /tareas/:id`: either the transaction ran to `commit`
(answer 200) and the datastore is the edited one, or the answer is 500 and
the world is the one before the call. -/
theorem putTareas_casos (parse : String → Option Parsed) (o : Oracle) (w : World) (req : EditarReq) :
    (∃ titulo fecha, req.titulo = some titulo ∧ req.fecha_entrega = some fecha ∧
        (∀ items, listaEditada parse req = some items → ∀ e ∈ items, entradaValida e = true) ∧
        (putTareas parse o w req).1 =
          { db := dbEditada w.db req titulo fecha (listaEditada parse req), fs := w.fs } ∧
        (putTareas parse o w req).2.status = 200 ∧
        (putTareas parse o w req).2.success = true) ∨
      ((putTareas parse o w req).2.success = false ∧ (putTareas parse o w req).2.status = 500 ∧
        (putTareas parse o w req).1 = w) := by
  cases hp : Tx.ping o { db := w.db, paso := 0 } with
  | error m =>
    right
    have e : putTareas parse o w req = (w, Response.fallo 500 "Error al editar la tarea") := by
      unfold putTareas
      simp only [hp]
    rw [e]
    exact ⟨rfl, rfl, rfl⟩
  | ok tx0 =>
    obtain ⟨-, rfl⟩ := (ping_ok_iff _ _ _).mp hp
    cases hx : editarTx parse o { db := w.db, paso := 0 + 1 } req with
    | error m =>
      right
      have e : putTareas parse o w req = (w, Response.fallo 500 "Error al editar la tarea") := by
        unfold putTareas
        simp only [hp, hx]
      rw [e]
      exact ⟨rfl, rfl, rfl⟩
    | ok db =>
      left
      have e : putTareas parse o w req = ({ db := db, fs := w.fs },
          { status := 200, success := true, error := none,
            message := some "Tarea actualizada exitosamente", data := [] }) := by
        unfold putTareas
        simp only [hp, hx]
      obtain ⟨titulo, fecha, ht, hf, hv, rfl⟩ := editarTx_ok parse o _ req db hx
      rw [e]
      exact ⟨titulo, fecha, ht, hf, hv, rfl, rfl, rfl⟩

theorem dbEditada_historial (db : Db) (req : EditarReq) (titulo : String) (fecha : Nat)
    (lista : Option (List (Option AsigEntry))) :
    (dbEditada db req titulo fecha lista).tareas_historial = db.tareas_historial := by
  cases lista <;> rfl

theorem dbEditada_asignaciones_some (db : Db) (req : EditarReq) (titulo : String) (fecha : Nat)
    (items : List (Option AsigEntry)) :
    (dbEditada db req titulo fecha (some items)).tareas_asignaciones =
      db.tareas_asignaciones.filter (fun a => a.tarea_id != req.id) ++
        filasDe req.id db.nextAsignacion items := rfl

theorem dbEditada_asignaciones_none (db : Db) (req : EditarReq) (titulo : String) (fecha : Nat) :
    (dbEditada db req titulo fecha none).tareas_asignaciones = db.tareas_asignaciones := rfl

theorem dbUnaTarea_integra : dbUnaTarea.Integra :=
  { asig_nodup := by decide
    asig_lt := by decide
    fk_asig := by decide
    fk_arch := by decide
    fk_hist := by decide }

theorem terminal_of_map (l : List Asignacion) (f : Asignacion → Asignacion)
    (hnd : (l.map (fun a => a.id)).Nodup) (hf : ∀ z, (f z).id = z.id) (x y : Asignacion)
    (hx : x ∈ l) (hfx : (f x).estado = "completada") (hy : y ∈ l.map f) (hid : y.id = x.id) :
    y.estado = "completada" := by
  obtain ⟨z, hz, rfl⟩ := List.mem_map.mp hy
  have : z = x := List.inj_on_of_nodup_map hnd hz hx (by rw [← hf z]; exact hid)
  subst this
  exact hfx

/-- Counterexample to C9 as stated: a state update moves the completed
assignment of `dbUnaTarea` back to pendiente. -/
theorem completada_terminal_counterexample :
    (dbUnaTarea.tareas_asignaciones.filter (fun a => a.id == 2)).map (fun a => a.estado) =
      ["completada"] ∧
    (putTareasAsignacion sinFallos { db := dbUnaTarea, fs := [] }
      { id := 2, estado := some "pendiente", comentarios := none, usuario_id := some 1,
        usuario_tipo := some "superadmin", now := 9 }).2.status = 200 ∧
    ((putTareasAsignacion sinFallos { db := dbUnaTarea, fs := [] }
      { id := 2, estado := some "pendiente", comentarios := none, usuario_id := some 1,
        usuario_tipo := some "superadmin", now := 9 }).1.db.tareas_asignaciones.filter
        (fun a => a.id == 2)).map (fun a => a.estado) = ["pendiente"] := by
  decide

/-- C9, amended: on a datastore that keeps its integrity, an assignment that
is completada before a completion or an edit of a task, and that still exists
after it, is completada after it; a state update keeps it completada when the
new state is completada or when it addresses another assignment, and otherwise
moves it to the state it is given. -/
theorem completada_terminal (w : World) (hI : w.db.Integra) (x y : Asignacion)
    (hx : x ∈ w.db.tareas_asignaciones) (hc : x.estado = "completada") (hid : y.id = x.id) :
    (∀ (o : Oracle) (req : CompletarReq),
      y ∈ (postTareasCompletar o w req).1.db.tareas_asignaciones → y.estado = "completada") ∧
    (∀ (parse : String → Option Parsed) (o : Oracle) (req : EditarReq),
      y ∈ (putTareas parse o w req).1.db.tareas_asignaciones → y.estado = "completada") ∧
    (∀ (o : Oracle) (req : EstadoReq), req.estado = some "completada" ∨ req.id ≠ x.id →
      y ∈ (putTareasAsignacion o w req).1.db.tareas_asignaciones → y.estado = "completada") ∧
    (∀ (o : Oracle) (req : EstadoReq) (s : String), req.estado = some s → req.id = x.id →
      (putTareasAsignacion o w req).2.status = 200 →
      y ∈ (putTareasAsignacion o w req).1.db.tareas_asignaciones → y.estado = s) := by
  have hsame : y ∈ w.db.tareas_asignaciones → y.estado = "completada" := by
    intro hy
    have := terminal_of_map w.db.tareas_asignaciones id hI.asig_nodup (fun _ => rfl) x y hx hc
      (by rw [List.map_id]; exact hy) hid
    exact this
  refine ⟨?_, ?_, ?_, ?_⟩
  · intro o req hy
    rcases postTareasCompletar_casos o w req with
      ⟨a, titulo, rest, db, -, -, -, -, hx1, h1, -, -⟩ | ⟨-, -, hdb⟩
    · obtain ⟨-, -, rfl⟩ := (completarTx_ok_iff _ _ _ _ _).mp hx1
      rw [h1] at hy
      simp only [dbCompletada_asignaciones] at hy
      refine terminal_of_map w.db.tareas_asignaciones _ hI.asig_nodup ?_ x y hx ?_ hy hid
      · intro z
        by_cases hz : z.id = req.asignacionId
        · rw [if_pos hz]; rfl
        · rw [if_neg hz]
      · by_cases hz : x.id = req.asignacionId
        · rw [if_pos hz]; rfl
        · rw [if_neg hz]; exact hc
    · rw [hdb] at hy
      exact hsame hy
  · intro parse o req hy
    rcases putTareas_casos parse o w req with ⟨titulo, fecha, -, -, -, h1, -, -⟩ | ⟨-, -, hw⟩
    · rw [h1] at hy
      cases hl : listaEditada parse req with
      | none =>
        rw [hl, dbEditada_asignaciones_none] at hy
        exact hsame hy
      | some items =>
        rw [hl, dbEditada_asignaciones_some] at hy
        rcases List.mem_append.mp hy with hy | hy
        · exact hsame (List.mem_filter.mp hy).1
        · exfalso
          have h1 := (filasDe_mem _ _ _ _ hy).2.2.2.2
          have h2 := hI.asig_lt x hx
          omega
    · rw [hw] at hy
      exact hsame hy
  · intro o req hs hy
    rcases putTareasAsignacion_casos o w req with
      ⟨a, rest, db, -, -, -, hx1, h1, -, -⟩ | ⟨-, -, hw⟩
    · obtain ⟨s, hs1, -, -, rfl⟩ := (estadoTx_ok_iff _ _ _ _ _).mp hx1
      rw [h1] at hy
      simp only [dbEstado_asignaciones] at hy
      refine terminal_of_map w.db.tareas_asignaciones _ hI.asig_nodup ?_ x y hx ?_ hy hid
      · intro z
        by_cases hz : z.id = req.id
        · rw [if_pos hz]
        · rw [if_neg hz]
      · by_cases hz : x.id = req.id
        · rw [if_pos hz]
          rcases hs with hs | hs
          · rw [hs] at hs1
            injection hs1 with hs1
            exact hs1.symm
          · exact absurd hz.symm hs
        · rw [if_neg hz]; exact hc
    · rw [hw] at hy
      exact hsame hy
  · intro o req s hs hreq hok hy
    rcases putTareasAsignacion_casos o w req with
      ⟨a, rest, db, -, -, -, hx1, h1, -, -⟩ | ⟨-, hst, -⟩
    · obtain ⟨s1, hs1, -, -, rfl⟩ := (estadoTx_ok_iff _ _ _ _ _).mp hx1
      rw [hs] at hs1
      injection hs1 with hs1
      subst hs1
      rw [h1] at hy
      simp only [dbEstado_asignaciones] at hy
      obtain ⟨z, hz, rfl⟩ := List.mem_map.mp hy
      by_cases hzid : z.id = req.id
      · rw [if_pos hzid]
      · rw [if_neg hzid] at hid
        exact absurd (hid.trans hreq.symm) hzid
    · rw [hok] at hst
      rcases hst with hst | hst <;> cases hst

/-- Witness of C9 (amended): the completed assignment of `dbUnaTarea`. -/
theorem completada_terminal_witness :
    (∀ (o : Oracle) (req : CompletarReq),
      asignacionDos ∈
        (postTareasCompletar o { db := dbUnaTarea, fs := [] } req).1.db.tareas_asignaciones →
      asignacionDos.estado = "completada") ∧
    (∀ (parse : String → Option Parsed) (o : Oracle) (req : EditarReq),
      asignacionDos ∈ (putTareas parse o { db := dbUnaTarea, fs := [] } req).1.db.tareas_asignaciones →
      asignacionDos.estado = "completada") ∧
    (∀ (o : Oracle) (req : EstadoReq), req.estado = some "completada" ∨ req.id ≠ asignacionDos.id →
      asignacionDos ∈
        (putTareasAsignacion o { db := dbUnaTarea, fs := [] } req).1.db.tareas_asignaciones →
      asignacionDos.estado = "completada") ∧
    (∀ (o : Oracle) (req : EstadoReq) (s : String), req.estado = some s →
      req.id = asignacionDos.id →
      (putTareasAsignacion o { db := dbUnaTarea, fs := [] } req).2.status = 200 →
      asignacionDos ∈
        (putTareasAsignacion o { db := dbUnaTarea, fs := [] } req).1.db.tareas_asignaciones →
      asignacionDos.estado = s) :=
  completada_terminal { db := dbUnaTarea, fs := [] } dbUnaTarea_integra asignacionDos asignacionDos
    (by decide) rfl rfl

/-- C10: a successful `PUT /tareas/:id` whose asignaciones is the JSON text of
a list L leaves, as the assignment rows of that task, exactly one new row per
entry of L, each pendiente; on a datastore that keeps its integrity none of the
previous rows of the task remains; the assignment rows of every other task
and tareas_historial are unchanged. -/
theorem putTareas_reemplaza (parse : String → Option Parsed) (o : Oracle) (w : World)
    (req : EditarReq) (asig : String) (L : List (Option AsigEntry))
    (ha : req.asignaciones = some asig) (ha0 : asig ≠ "")
    (hp : parse asig = some (Parsed.arreglo L))
    (hok : (putTareas parse o w req).2.status = 200) :
    (putTareas parse o w req).1.db.tareas_asignaciones.filter (fun a => a.tarea_id == req.id) =
      filasDe req.id w.db.nextAsignacion L ∧
    (filasDe req.id w.db.nextAsignacion L).length = L.length ∧
    (∀ a ∈ filasDe req.id w.db.nextAsignacion L, a.tarea_id = req.id ∧ a.estado = "pendiente") ∧
    (w.db.Integra → ∀ a ∈ w.db.tareas_asignaciones, a.tarea_id = req.id →
      a ∉ (putTareas parse o w req).1.db.tareas_asignaciones) ∧
    (putTareas parse o w req).1.db.tareas_asignaciones.filter (fun a => a.tarea_id != req.id) =
      w.db.tareas_asignaciones.filter (fun a => a.tarea_id != req.id) ∧
    (putTareas parse o w req).1.db.tareas_historial = w.db.tareas_historial := by
  have hl : listaEditada parse req = some L := by
    unfold listaEditada
    rw [ha]
    simp only [ha0, if_false, hp]
    rfl
  rcases putTareas_casos parse o w req with ⟨titulo, fecha, -, -, hv, h1, -, -⟩ | ⟨-, hst, -⟩
  · have hval := hv L hl
    have hnew : ∀ a ∈ filasDe req.id w.db.nextAsignacion L,
        a.tarea_id = req.id ∧ a.estado = "pendiente" := fun a hm =>
      ⟨(filasDe_mem _ _ _ _ hm).1, (filasDe_mem _ _ _ _ hm).2.1⟩
    rw [h1, hl]
    simp only [dbEditada_asignaciones_some, dbEditada_historial, List.filter_append,
      List.filter_filter]
    refine ⟨?_, filasDe_length _ _ hval _, hnew, ?_, ?_, trivial⟩
    · have e1 : w.db.tareas_asignaciones.filter
          (fun a => (a.tarea_id == req.id && a.tarea_id != req.id)) = [] := by
        rw [List.filter_eq_nil_iff]
        intro a _
        by_cases h : a.tarea_id = req.id <;> simp [h]
      have e2 : (filasDe req.id w.db.nextAsignacion L).filter (fun a => a.tarea_id == req.id) =
          filasDe req.id w.db.nextAsignacion L := by
        rw [List.filter_eq_self]
        intro a hm
        simp [(hnew a hm).1]
      rw [e1, e2]
      rfl
    · intro hI a hmem htid hin
      rcases List.mem_append.mp hin with hin | hin
      · have := (List.mem_filter.mp hin).2
        simp [htid] at this
      · have h3 := (filasDe_mem _ _ _ _ hin).2.2.2.2
        have h4 := hI.asig_lt a hmem
        omega
    · have e1 : w.db.tareas_asignaciones.filter
          (fun a => (a.tarea_id != req.id && a.tarea_id != req.id)) =
          w.db.tareas_asignaciones.filter (fun a => a.tarea_id != req.id) := by
        congr 1
        funext a
        simp
      have e2 : (filasDe req.id w.db.nextAsignacion L).filter (fun a => a.tarea_id != req.id) =
          [] := by
        rw [List.filter_eq_nil_iff]
        intro a hm
        simp [(hnew a hm).1]
      rw [e1, e2, List.append_nil]
  · rw [hok] at hst
    cases hst

/-- Witness of C10: the task of `dbUnaTarea` is edited with the payload of two
assignees. -/
theorem putTareas_reemplaza_witness :
    (putTareas parseEjemplo sinFallos { db := dbUnaTarea, fs := [] }
      editarQ1).1.db.tareas_asignaciones.filter (fun a => a.tarea_id == editarQ1.id) =
      filasDe editarQ1.id dbUnaTarea.nextAsignacion
        [some { usuario_id := some 7, usuario_tipo := some "personal" },
         some { usuario_id := some 9, usuario_tipo := some "directivo" }] ∧
    (filasDe editarQ1.id dbUnaTarea.nextAsignacion
        [some { usuario_id := some 7, usuario_tipo := some "personal" },
         some { usuario_id := some 9, usuario_tipo := some "directivo" }]).length = 2 ∧
    (∀ a ∈ filasDe editarQ1.id dbUnaTarea.nextAsignacion
        [some { usuario_id := some 7, usuario_tipo := some "personal" },
         some { usuario_id := some 9, usuario_tipo := some "directivo" }],
      a.tarea_id = editarQ1.id ∧ a.estado = "pendiente") ∧
    (dbUnaTarea.Integra → ∀ a ∈ dbUnaTarea.tareas_asignaciones, a.tarea_id = editarQ1.id →
      a ∉ (putTareas parseEjemplo sinFallos { db := dbUnaTarea, fs := [] }
        editarQ1).1.db.tareas_asignaciones) ∧
    (putTareas parseEjemplo sinFallos { db := dbUnaTarea, fs := [] }
      editarQ1).1.db.tareas_asignaciones.filter (fun a => a.tarea_id != editarQ1.id) =
      dbUnaTarea.tareas_asignaciones.filter (fun a => a.tarea_id != editarQ1.id) ∧
    (putTareas parseEjemplo sinFallos { db := dbUnaTarea, fs := [] } editarQ1).1.db.tareas_historial =
      dbUnaTarea.tareas_historial :=
  putTareas_reemplaza parseEjemplo sinFallos { db := dbUnaTarea, fs := [] } editarQ1 cargaDos
    [some { usuario_id := some 7, usuario_tipo := some "personal" },
     some { usuario_id := some 9, usuario_tipo := some "directivo" }]
    rfl (by decide) (by decide) (by decide)

theorem deleteTarea_eq (id : Nat) (db : Db) :
    Db.deleteTarea id db =
      Except.ok (db.sinTarea id, (db.tareas.filter (fun t => t.id == id)).length) := rfl

theorem selectArchivos_eq (id : Nat) (db : Db) :
    Db.selectArchivos id db =
      Except.ok (db, db.tareas_archivos.filter (fun a => a.tarea_id == id)) := rfl

theorem sinNombres_nil (fs : List String) : sinNombres fs [] = fs := by
  simp [sinNombres]

theorem sinNombres_cons (fs : List String) (n : String) (rest : List String) :
    sinNombres (fs.filter (fun x => x != n)) rest = sinNombres fs (n :: rest) := by
  simp only [sinNombres, List.filter_filter]
  congr 1
  funext x
  by_cases h : x = n
  · simp [h]
  · simp [h, List.contains_cons]

/-- The removal loop of a deletion leaves none of the files named by the rows,
and every other file. -/
theorem borrarArchivos_eq (fs : List String) (archivos : List Archivo) :
    borrarArchivos fs archivos = sinNombres fs (archivos.map (fun a => a.ruta_archivo)) := by
  induction archivos generalizing fs with
  | nil => simp [borrarArchivos, sinNombres_nil]
  | cons a rest ih =>
    simp only [borrarArchivos, unlinkSync, List.map_cons]
    by_cases hf : a.ruta_archivo ∈ fs
    · simp only [if_pos hf]
      rw [ih, sinNombres_cons]
    · simp only [if_neg hf]
      rw [ih, ← sinNombres_cons]
      congr 1
      rw [eq_comm, List.filter_eq_self]
      intro n hn
      have : n ≠ a.ruta_archivo := fun heq => hf (heq ▸ hn)
      simp [this]

theorem affected_zero_iff (db : Db) (id : Nat) :
    (db.tareas.filter (fun t => t.id == id)).length = 0 ↔ db.hasTarea id = false := by
  rw [List.length_eq_zero, List.filter_eq_nil_iff]
  simp only [Db.hasTarea, List.any_eq_false]

/-- Every outcome of `DELETE /tareas/:id`. -/
theorem deleteTareas_casos (o : Oracle) (w : World) (id : Nat) :
    (o 0 = none ∧ o 1 = none ∧ o 2 = none ∧ o 3 = none ∧ w.db.hasTarea id = true ∧
        (deleteTareas o w id).1 =
          { db := w.db.sinTarea id, fs := sinNombres w.fs (w.db.rutasDe id) } ∧
        (deleteTareas o w id).2.status = 200 ∧ (deleteTareas o w id).2.success = true) ∨
      (o 0 = none ∧ o 1 = none ∧ o 2 = none ∧ w.db.hasTarea id = false ∧
        (deleteTareas o w id).1 = { db := w.db, fs := sinNombres w.fs (w.db.rutasDe id) } ∧
        (deleteTareas o w id).2.status = 404 ∧ (deleteTareas o w id).2.success = false) ∨
      ((o 0 ≠ none ∨ o 1 ≠ none ∨ o 2 ≠ none ∨ o 3 ≠ none) ∧
        (deleteTareas o w id).1.db = w.db ∧
        ((deleteTareas o w id).1.fs = w.fs ∨
          (deleteTareas o w id).1.fs = sinNombres w.fs (w.db.rutasDe id)) ∧
        (deleteTareas o w id).2.status = 500 ∧ (deleteTareas o w id).2.success = false) := by
  cases ho0 : o 0 with
  | some m =>
    right; right
    have e : deleteTareas o w id = (w, Response.fallo 500 "Error al eliminar tarea") := by
      unfold deleteTareas
      simp only [Tx.ping, ho0]
    rw [e]
    exact ⟨Or.inl (by simp), rfl, Or.inl rfl, rfl, rfl⟩
  | none =>
    have hp : Tx.ping o { db := w.db, paso := 0 } = Except.ok { db := w.db, paso := 1 } :=
      (ping_ok_iff _ _ _).mpr ⟨ho0, rfl⟩
    cases ho1 : o 1 with
    | some m =>
      right; right
      have e : deleteTareas o w id = (w, Response.fallo 500 "Error al eliminar tarea") := by
        unfold deleteTareas
        simp only [hp, Tx.execute, ho1]
      rw [e]
      exact ⟨Or.inr (Or.inl (by simp)), rfl, Or.inl rfl, rfl, rfl⟩
    | none =>
      have hsel : Tx.execute o { db := w.db, paso := 1 } (Db.selectArchivos id) =
          Except.ok ({ db := w.db, paso := 2 },
            w.db.tareas_archivos.filter (fun a => a.tarea_id == id)) :=
        execute_none o _ _ _ _ ho1 (selectArchivos_eq _ _)
      have hfs : borrarArchivos w.fs (w.db.tareas_archivos.filter (fun a => a.tarea_id == id)) =
          sinNombres w.fs (w.db.rutasDe id) := borrarArchivos_eq _ _
      cases ho2 : o 2 with
      | some m =>
        right; right
        have e : deleteTareas o w id = ({ db := w.db, fs := sinNombres w.fs (w.db.rutasDe id) },
            Response.fallo 500 "Error al eliminar tarea") := by
          unfold deleteTareas
          simp only [hp, hsel, hfs]
          simp only [Tx.execute, ho2]
        rw [e]
        exact ⟨Or.inr (Or.inr (Or.inl (by simp))), rfl, Or.inr rfl, rfl, rfl⟩
      | none =>
        have hdel : Tx.execute o { db := w.db, paso := 2 } (Db.deleteTarea id) =
            Except.ok ({ db := w.db.sinTarea id, paso := 3 },
              (w.db.tareas.filter (fun t => t.id == id)).length) :=
          execute_none o _ _ _ _ ho2 (deleteTarea_eq _ _)
        cases hT : w.db.hasTarea id with
        | false =>
          right; left
          have hz := (affected_zero_iff w.db id).mpr hT
          have e : deleteTareas o w id = ({ db := w.db, fs := sinNombres w.fs (w.db.rutasDe id) },
              Response.fallo 404 "Tarea no encontrada") := by
            unfold deleteTareas
            simp only [hp, hsel, hfs, hdel, hz, if_true]
          rw [e]
          exact ⟨rfl, rfl, rfl, rfl, rfl, rfl, rfl⟩
        | true =>
          have hz : ¬ (w.db.tareas.filter (fun t => t.id == id)).length = 0 := by
            rw [affected_zero_iff, hT]
            simp
          cases ho3 : o 3 with
          | some m =>
            right; right
            have e : deleteTareas o w id =
                ({ db := w.db, fs := sinNombres w.fs (w.db.rutasDe id) },
                  Response.fallo 500 "Error al eliminar tarea") := by
              unfold deleteTareas
              simp only [hp, hsel, hfs, hdel, if_neg hz]
              simp only [Tx.ping, ho3]
            rw [e]
            exact ⟨Or.inr (Or.inr (Or.inr (by simp))), rfl, Or.inr rfl, rfl, rfl⟩
          | none =>
            left
            have e : deleteTareas o w id =
                ({ db := w.db.sinTarea id, fs := sinNombres w.fs (w.db.rutasDe id) },
                  { status := 200, success := true, error := none,
                    message := some "Tarea eliminada exitosamente",
                    data := [("archivosEliminados",
                      Dato.num (w.db.tareas_archivos.filter (fun a => a.tarea_id == id)).length)] }) := by
              unfold deleteTareas
              simp only [hp, hsel, hfs, hdel, if_neg hz]
              simp only [Tx.ping, ho3]
            rw [e]
            exact ⟨rfl, rfl, rfl, rfl, rfl, rfl, rfl, rfl⟩

/-- C11, the failing input: on `dbUnaTarea`, where every task has an
assignment, `PUT /tareas/1` with the payload `[]` answers 200 and leaves task 1
without any assignment row. -/
theorem putTareas_deja_tarea_sin_asignaciones :
    (∀ t ∈ dbUnaTarea.tareas, ∃ a ∈ dbUnaTarea.tareas_asignaciones, a.tarea_id = t.id) ∧
    (putTareas parseEjemplo sinFallos { db := dbUnaTarea, fs := [] }
      { editarQ1 with asignaciones := some "[]" }).2.status = 200 ∧
    (∃ t ∈ (putTareas parseEjemplo sinFallos { db := dbUnaTarea, fs := [] }
        { editarQ1 with asignaciones := some "[]" }).1.db.tareas, t.id = 1) ∧
    (putTareas parseEjemplo sinFallos { db := dbUnaTarea, fs := [] }
      { editarQ1 with asignaciones := some "[]" }).1.db.tareas_asignaciones = [] := by
  decide

theorem dosTareas_integra : dbDosTareas.Integra :=
  { asig_nodup := by decide
    asig_lt := by decide
    fk_asig := by decide
    fk_arch := by decide
    fk_hist := by decide }

theorem rutasDe_nil_of_integra (db : Db) (hI : db.Integra) (id : Nat)
    (hno : db.hasTarea id = false) : db.rutasDe id = [] := by
  unfold Db.rutasDe
  rw [List.map_eq_nil_iff, List.filter_eq_nil_iff]
  intro a ha
  simp only [beq_iff_eq]
  intro h
  have := hI.fk_arch a ha
  rw [h, hno] at this
  cases this

/-- C12: a `DELETE /tareas/:id` whose id matches no row of tareas, on a
datastore that keeps its referential integrity, is answered with an error, 404
when the datastore accepts the three calls made; no file is deleted and the
datastore is unchanged. -/
theorem deleteTareas_no_encontrada (o : Oracle) (w : World) (id : Nat) (hI : w.db.Integra)
    (hno : w.db.hasTarea id = false) :
    (deleteTareas o w id).2.success = false ∧
    ((deleteTareas o w id).2.status = 404 ∨ (deleteTareas o w id).2.status = 500) ∧
    (o 0 = none → o 1 = none → o 2 = none → (deleteTareas o w id).2.status = 404) ∧
    (deleteTareas o w id).1.fs = w.fs ∧
    (deleteTareas o w id).1.db = w.db := by
  have hr := rutasDe_nil_of_integra w.db hI id hno
  rcases deleteTareas_casos o w id with
    ⟨-, -, -, -, hT, -⟩ | ⟨-, -, -, -, h1, h2, h3⟩ | ⟨hf, h1, h2, h3, h4⟩
  · rw [hno] at hT
    cases hT
  · rw [hr, sinNombres_nil] at h1
    rw [h1]
    exact ⟨h3, Or.inl h2, fun _ _ _ => h2, rfl, rfl⟩
  · rw [hr, sinNombres_nil] at h2
    refine ⟨h4, Or.inr h3, ?_, ?_, h1⟩
    · intro a0 a1 a2
      rcases hf with hf | hf | hf | hf
      · exact absurd a0 hf
      · exact absurd a1 hf
      · exact absurd a2 hf
      · rcases deleteTareas_casos o w id with
          ⟨-, -, -, -, hT, -⟩ | ⟨-, -, -, -, -, g2, -⟩ | ⟨-, -, -, g3, -⟩
        · rw [hno] at hT
          cases hT
        · exact g2
        · exfalso
          have hp : Tx.ping o { db := w.db, paso := 0 } = Except.ok { db := w.db, paso := 1 } :=
            (ping_ok_iff _ _ _).mpr ⟨a0, rfl⟩
          have hsel : Tx.execute o { db := w.db, paso := 1 } (Db.selectArchivos id) =
              Except.ok ({ db := w.db, paso := 2 },
                w.db.tareas_archivos.filter (fun a => a.tarea_id == id)) :=
            execute_none o _ _ _ _ a1 (selectArchivos_eq _ _)
          have hdel : Tx.execute o { db := w.db, paso := 2 } (Db.deleteTarea id) =
              Except.ok ({ db := w.db.sinTarea id, paso := 3 },
                (w.db.tareas.filter (fun t => t.id == id)).length) :=
            execute_none o _ _ _ _ a2 (deleteTarea_eq _ _)
          have hz := (affected_zero_iff w.db id).mpr hno
          have e : (deleteTareas o w id).2.status = 404 := by
            unfold deleteTareas
            simp only [hp, hsel, hdel, hz, if_true]
            rfl
          rw [e] at g3
          cases g3
    · rcases h2 with h2 | h2 <;> exact h2

/-- Witness of C12: task 9 does not exist in `dbDosTareas`. -/
theorem deleteTareas_no_encontrada_witness :
    (deleteTareas sinFallos mundoDosTareas 9).2.success = false ∧
    ((deleteTareas sinFallos mundoDosTareas 9).2.status = 404 ∨
      (deleteTareas sinFallos mundoDosTareas 9).2.status = 500) ∧
    (sinFallos 0 = none → sinFallos 1 = none → sinFallos 2 = none →
      (deleteTareas sinFallos mundoDosTareas 9).2.status = 404) ∧
    (deleteTareas sinFallos mundoDosTareas 9).1.fs = mundoDosTareas.fs ∧
    (deleteTareas sinFallos mundoDosTareas 9).1.db = mundoDosTareas.db :=
  deleteTareas_no_encontrada sinFallos mundoDosTareas 9 dosTareas_integra (by decide)

/-- C13: a `DELETE /tareas/:id` of an existing task, on which no datastore step
fails, answers 200; afterwards the four tables are the tables before without
the rows of that task (no row refers to it, the rows of every other task are
as before), none of the files named by its attachment rows is in the upload
directory, and every other file is still there. -/
theorem deleteTareas_efecto (o : Oracle) (w : World) (id : Nat)
    (hT : w.db.hasTarea id = true) (ho : ∀ k, o k = none) :
    (deleteTareas o w id).2.status = 200 ∧
    (deleteTareas o w id).1.db.tareas = w.db.tareas.filter (fun t => t.id != id) ∧
    (deleteTareas o w id).1.db.tareas_asignaciones =
      w.db.tareas_asignaciones.filter (fun a => a.tarea_id != id) ∧
    (deleteTareas o w id).1.db.tareas_archivos =
      w.db.tareas_archivos.filter (fun a => a.tarea_id != id) ∧
    (deleteTareas o w id).1.db.tareas_historial =
      w.db.tareas_historial.filter (fun h => h.tarea_id != id) ∧
    (∀ a ∈ w.db.tareas_archivos, a.tarea_id = id → a.ruta_archivo ∉ (deleteTareas o w id).1.fs) ∧
    (∀ n ∈ w.fs, (∀ a ∈ w.db.tareas_archivos, a.tarea_id = id → a.ruta_archivo ≠ n) →
      n ∈ (deleteTareas o w id).1.fs) ∧
    (∀ n ∈ (deleteTareas o w id).1.fs, n ∈ w.fs) := by
  rcases deleteTareas_casos o w id with
    ⟨-, -, -, -, -, h1, h2, -⟩ | ⟨-, -, -, hno, -⟩ | ⟨hf, -⟩
  · rw [h1]
    refine ⟨h2, rfl, rfl, rfl, rfl, ?_, ?_, ?_⟩
    · intro a ha hid hin
      simp only [sinNombres, List.mem_filter, Bool.not_eq_true', List.contains_eq_any_beq,
        List.any_eq_false, beq_iff_eq] at hin
      refine hin.2 a.ruta_archivo ?_ rfl
      simp only [Db.rutasDe, List.mem_map, List.mem_filter, beq_iff_eq]
      exact ⟨a, ⟨ha, hid⟩, rfl⟩
    · intro n hn hne
      simp only [sinNombres, List.mem_filter, Bool.not_eq_true', List.contains_eq_any_beq,
        List.any_eq_false, beq_iff_eq]
      refine ⟨hn, ?_⟩
      intro x hx hxn
      simp only [Db.rutasDe, List.mem_map, List.mem_filter, beq_iff_eq] at hx
      obtain ⟨a, ⟨ha, hid⟩, rfl⟩ := hx
      exact hne a ha hid hxn.symm
    · intro n hn
      exact (List.mem_filter.mp hn).1
  · rw [hT] at hno
    cases hno
  · exfalso
    rcases hf with hf | hf | hf | hf <;> exact hf (ho _)

/-- Witness of C13: task 1 of `dbDosTareas` is deleted. -/
theorem deleteTareas_efecto_witness :
    (deleteTareas sinFallos mundoDosTareas 1).2.status = 200 ∧
    (deleteTareas sinFallos mundoDosTareas 1).1.db.tareas =
      mundoDosTareas.db.tareas.filter (fun t => t.id != 1) ∧
    (deleteTareas sinFallos mundoDosTareas 1).1.db.tareas_asignaciones =
      mundoDosTareas.db.tareas_asignaciones.filter (fun a => a.tarea_id != 1) ∧
    (deleteTareas sinFallos mundoDosTareas 1).1.db.tareas_archivos =
      mundoDosTareas.db.tareas_archivos.filter (fun a => a.tarea_id != 1) ∧
    (deleteTareas sinFallos mundoDosTareas 1).1.db.tareas_historial =
      mundoDosTareas.db.tareas_historial.filter (fun h => h.tarea_id != 1) ∧
    (∀ a ∈ mundoDosTareas.db.tareas_archivos, a.tarea_id = 1 →
      a.ruta_archivo ∉ (deleteTareas sinFallos mundoDosTareas 1).1.fs) ∧
    (∀ n ∈ mundoDosTareas.fs,
      (∀ a ∈ mundoDosTareas.db.tareas_archivos, a.tarea_id = 1 → a.ruta_archivo ≠ n) →
      n ∈ (deleteTareas sinFallos mundoDosTareas 1).1.fs) ∧
    (∀ n ∈ (deleteTareas sinFallos mundoDosTareas 1).1.fs, n ∈ mundoDosTareas.fs) :=
  deleteTareas_efecto sinFallos mundoDosTareas 1 (by decide) (fun _ => rfl)

theorem unlinkEach_none (fs fs1 : List String) (files : List File)
    (h : unlinkEach fs files = (fs1, none)) : fs1 = sinArchivos fs files := by
  induction files generalizing fs with
  | nil =>
    simp only [unlinkEach, Prod.mk.injEq, and_true] at h
    rw [sinArchivos_nil, h]
  | cons f rest ih =>
    simp only [unlinkEach, unlinkSync] at h
    by_cases hf : f.filename ∈ fs
    · simp only [if_pos hf] at h
      rw [ih _ h, sinArchivos_cons]
    · simp only [if_neg hf] at h
      cases h

theorem not_mem_sinArchivos (fs : List String) (files : List File) (f : File) (hf : f ∈ files) :
    f.filename ∉ sinArchivos fs files := by
  intro h
  simp only [sinArchivos, List.mem_filter, Bool.not_eq_true', List.contains_eq_any_beq,
    List.any_eq_false, beq_iff_eq] at h
  exact h.2 f.filename (List.mem_map_of_mem _ hf) rfl

theorem rechazar_fs (w : World) (files : List File) (st : Nat) (msg : String) (r : World × Response)
    (h : rechazar w files st msg = Except.ok r) : r.1.fs = sinArchivos w.fs files := by
  unfold rechazar at h
  split at h
  · rename_i fs1 heq
    injection h with h
    subst h
    exact unlinkEach_none _ _ _ heq
  · cases h

theorem postTareasTry_ok (parse : String → Option Parsed) (o : Oracle) (w : World) (req : CrearReq)
    (r : World × Response) (h : postTareasTry parse o w req = Except.ok r) :
    r.2.status = 201 ∨ r.1.fs = sinArchivos w.fs req.files := by
  unfold postTareasTry at h
  repeat' split at h
  all_goals first
    | exact Or.inr (rechazar_fs _ _ _ _ _ h)
    | (cases h; done)
    | (injection h with h; subst h; exact Or.inl rfl)

theorem postTareasCompletarTry_ok (o : Oracle) (w : World) (req : CompletarReq)
    (r : World × Response) (h : postTareasCompletarTry o w req = Except.ok r) :
    r.2.status = 200 ∨ r.1.fs = sinArchivos w.fs req.files := by
  unfold postTareasCompletarTry at h
  repeat' split at h
  all_goals first
    | exact Or.inr (rechazar_fs _ _ _ _ _ h)
    | (cases h; done)
    | (injection h with h; subst h; exact Or.inl rfl)

/-- The part of C14 that holds: an error answer of `POST /tareas` or of
`POST /tareas/completar/:asignacionId` leaves none of the received files in
the upload directory. -/
theorem error_sin_archivos (parse : String → Option Parsed) (o : Oracle) (w : World) :
    (∀ req : CrearReq, (postTareas parse o w req).2.status ≠ 201 →
      ∀ f ∈ req.files, f.filename ∉ (postTareas parse o w req).1.fs) ∧
    (∀ req : CompletarReq, (postTareasCompletar o w req).2.status ≠ 200 →
      ∀ f ∈ req.files, f.filename ∉ (postTareasCompletar o w req).1.fs) := by
  constructor
  · intro req hst f hf
    unfold postTareas at hst ⊢
    cases hT : postTareasTry parse o w req with
    | ok r =>
      rw [hT] at hst
      rcases postTareasTry_ok parse o w req r hT with h | h
      · exact absurd h hst
      · simp only
        rw [h]
        exact not_mem_sinArchivos _ _ f hf
    | error e =>
      obtain ⟨fs1, m⟩ := e
      simp only
      rw [unlinkEachQuiet_eq]
      exact not_mem_sinArchivos _ _ f hf
  · intro req hst f hf
    unfold postTareasCompletar at hst ⊢
    cases hT : postTareasCompletarTry o w req with
    | ok r =>
      rw [hT] at hst
      rcases postTareasCompletarTry_ok o w req r hT with h | h
      · exact absurd h hst
      · simp only
        rw [h]
        exact not_mem_sinArchivos _ _ f hf
    | error e =>
      obtain ⟨fs1, m⟩ := e
      simp only
      rw [unlinkEachQuiet_eq]
      exact not_mem_sinArchivos _ _ f hf

/-- C14, the failing input: `PUT /tareas/1` with one received file and an
asignaciones payload that is not JSON answers 500, and the received file is
still in the upload directory. -/
theorem putTareas_deja_archivo :
    (putTareas parseEjemplo sinFallos { db := dbUnaTarea, fs := ["tarea-1735689600000-1.pdf"] }
      { editarQ1 with asignaciones := some "[7", files := [archivoPdf] }).2.status = 500 ∧
    archivoPdf.filename ∈
      (putTareas parseEjemplo sinFallos { db := dbUnaTarea, fs := ["tarea-1735689600000-1.pdf"] }
        { editarQ1 with asignaciones := some "[7", files := [archivoPdf] }).1.fs := by
  decide

/-- C15: the history is append-only.  After `POST /tareas`, `PUT /tareas/:id`,
`POST /tareas/completar/:asignacionId` and `PUT /tareas/asignacion/:id`,
whatever the input and whatever the datastore rejects, tareas_historial is the
table before the call followed by at most one new row, so every row present
before is present and unmodified; `DELETE /tareas/:id` leaves the table as it
was or removes exactly the rows of the deleted task. -/
theorem historial_solo_crece (parse : String → Option Parsed) (o : Oracle) (w : World) :
    (∀ req : CrearReq, ∃ extra, extra.length ≤ 1 ∧
      (postTareas parse o w req).1.db.tareas_historial = w.db.tareas_historial ++ extra) ∧
    (∀ req : EditarReq,
      (putTareas parse o w req).1.db.tareas_historial = w.db.tareas_historial) ∧
    (∀ req : CompletarReq, ∃ extra, extra.length ≤ 1 ∧
      (postTareasCompletar o w req).1.db.tareas_historial = w.db.tareas_historial ++ extra) ∧
    (∀ req : EstadoReq, ∃ extra, extra.length ≤ 1 ∧
      (putTareasAsignacion o w req).1.db.tareas_historial = w.db.tareas_historial ++ extra) ∧
    (∀ id : Nat,
      (deleteTareas o w id).1.db.tareas_historial = w.db.tareas_historial ∨
      (deleteTareas o w id).1.db.tareas_historial =
        w.db.tareas_historial.filter (fun h => h.tarea_id != id)) := by
  refine ⟨?_, ?_, ?_, ?_, ?_⟩
  · intro req
    rcases postTareas_casos parse o w req with
      ⟨titulo, fecha, cid, asig, items, db, tid, -, -, -, -, -, -, -, -, h9, h10, -, -⟩ |
      ⟨-, -, hdb⟩
    · obtain ⟨-, -, hr⟩ := (crearTx_ok_iff _ _ _ _ _ _ _ _ _ _ _).mp h9
      injection hr with hdb htid
      rw [h10, hdb]
      exact ⟨[_], le_refl _, rfl⟩
    · rw [hdb]
      exact ⟨[], by simp, by simp⟩
  · intro req
    rcases putTareas_casos parse o w req with ⟨titulo, fecha, -, -, -, h1, -, -⟩ | ⟨-, -, hw⟩
    · rw [h1]
      exact dbEditada_historial _ _ _ _ _
    · rw [hw]
  · intro req
    rcases postTareasCompletar_casos o w req with
      ⟨a, titulo, rest, db, -, -, -, -, hx1, h1, -, -⟩ | ⟨-, -, hdb⟩
    · obtain ⟨-, -, rfl⟩ := (completarTx_ok_iff _ _ _ _ _).mp hx1
      rw [h1]
      exact ⟨[_], le_refl _, rfl⟩
    · rw [hdb]
      exact ⟨[], by simp, by simp⟩
  · intro req
    rcases putTareasAsignacion_casos o w req with
      ⟨a, rest, db, -, -, -, hx1, h1, -, -⟩ | ⟨-, -, hw⟩
    · obtain ⟨s, -, -, -, rfl⟩ := (estadoTx_ok_iff _ _ _ _ _).mp hx1
      rw [h1]
      exact ⟨[_], le_refl _, rfl⟩
    · rw [hw]
      exact ⟨[], by simp, by simp⟩
  · intro id
    rcases deleteTareas_casos o w id with
      ⟨-, -, -, -, -, h1, -, -⟩ | ⟨-, -, -, -, h1, -, -⟩ | ⟨-, h1, -⟩
    · rw [h1]
      exact Or.inr rfl
    · rw [h1]
      exact Or.inl rfl
    · rw [h1]
      exact Or.inl rfl

theorem completarFilas_ok (z : Zona) (o : Oracle) (c : Cuentas) (db : Db) (now : Nat)
    (ho : ∀ k, o k = none) (paso : Nat) (pares : List (Tarea × Asignacion)) :
    completarFilas z o c db now paso pares = Except.ok (pares.map (filaPersonal z c db now)) := by
  induction pares generalizing paso with
  | nil => rfl
  | cons p rest ih =>
    obtain ⟨t, a⟩ := p
    simp only [completarFilas, ho, ih, List.map_cons]
    rfl

theorem mem_joinPersonal (db : Db) (pid : Nat) (t : Tarea) (a : Asignacion) :
    (t, a) ∈ db.joinPersonal pid ↔
      t ∈ db.tareas ∧ a ∈ db.tareas_asignaciones ∧ a.tarea_id = t.id ∧ a.usuario_id = pid ∧
        a.usuario_tipo = "personal" := by
  simp only [Db.joinPersonal, List.mem_flatten, List.mem_map, List.mem_filter, Bool.and_eq_true,
    beq_iff_eq]
  constructor
  · rintro ⟨l, ⟨t1, ht1, rfl⟩, hm⟩
    simp only [List.mem_map, List.mem_filter, Bool.and_eq_true, beq_iff_eq, Prod.mk.injEq] at hm
    obtain ⟨a1, ⟨ha1, ⟨h1, h2⟩, h3⟩, rfl, rfl⟩ := hm
    exact ⟨ht1, ha1, h1, h2, h3⟩
  · rintro ⟨ht, ha, h1, h2, h3⟩
    refine ⟨_, ⟨t, ht, rfl⟩, ?_⟩
    exact List.mem_map.mpr ⟨a, List.mem_filter.mpr ⟨ha, by simp [h1, h2, h3]⟩, rfl⟩

theorem grupoEstado_eq_one_iff (e : String) : grupoEstado e = 1 ↔ enCurso e := by
  unfold grupoEstado enCurso
  by_cases h : e = "pendiente" ∨ e = "en_progreso"
  · simp [h]
  · simp [h]

theorem grupoEstado_cases (e : String) : grupoEstado e = 1 ∨ grupoEstado e = 2 := by
  unfold grupoEstado
  by_cases h : e = "pendiente" ∨ e = "en_progreso"
  · left; simp [h]
  · right; simp [h]

theorem completarFilas_mem (z : Zona) (o : Oracle) (c : Cuentas) (db : Db) (now : Nat)
    (pares : List (Tarea × Asignacion)) (paso : Nat) (filas : List TareaPersonal)
    (h : completarFilas z o c db now paso pares = Except.ok filas) (r : TareaPersonal)
    (hr : r ∈ filas) : ∃ p ∈ pares, r = filaPersonal z c db now p := by
  induction pares generalizing paso filas with
  | nil =>
    simp only [completarFilas, Except.ok.injEq] at h
    subst h
    cases hr
  | cons p rest ih =>
    obtain ⟨t, a⟩ := p
    simp only [completarFilas] at h
    cases ho : o paso with
    | some m =>
      rw [ho] at h
      cases h
    | none =>
      rw [ho] at h
      cases hrec : completarFilas z o c db now (paso + 1) rest with
      | error m =>
        rw [hrec] at h
        cases h
      | ok filas1 =>
        rw [hrec] at h
        simp only [Except.ok.injEq] at h
        subst h
        rcases List.mem_cons.mp hr with hr | hr
        · exact ⟨(t, a), List.mem_cons_self _ _, hr⟩
        · obtain ⟨p, hp, hpr⟩ := ih (paso + 1) filas1 hrec hr
          exact ⟨p, List.mem_cons_of_mem _ hp, hpr⟩

theorem getTareasPersonal_mem (z : Zona) (o : Oracle) (c : Cuentas) (db : Db) (pid now : Nat)
    (r : TareaPersonal) (hr : r ∈ (getTareasPersonal z o c db pid now).data) :
    ∃ p ∈ db.selectTareasPersonal pid, r = filaPersonal z c db now p := by
  unfold getTareasPersonal at hr
  cases ho : o 0 with
  | some m =>
    rw [ho] at hr
    cases hr
  | none =>
    rw [ho] at hr
    cases hf : completarFilas z o c db now 1 (db.selectTareasPersonal pid) with
    | error m =>
      rw [hf] at hr
      cases hr
    | ok filas =>
      rw [hf] at hr
      exact completarFilas_mem z o c db now _ 1 filas hf r hr

/-- C16: on a healthy datastore `GET /tareas/personal/:personalId` answers 200
with one entry per (task, assignment) pair whose assignment has usuario_id =
personalId and usuario_tipo personal, and no other entry; every entry whose
assignment is pendiente or en_progreso comes before every entry with another
estado, and among entries of the same group fecha_entrega never decreases. -/
theorem getTareasPersonal_orden (z : Zona) (o : Oracle) (c : Cuentas) (db : Db) (pid now : Nat)
    (ho : ∀ k, o k = none) :
    (getTareasPersonal z o c db pid now).status = 200 ∧
    ∃ pares : List (Tarea × Asignacion),
      (getTareasPersonal z o c db pid now).data = pares.map (filaPersonal z c db now) ∧
      pares.Perm (db.joinPersonal pid) ∧
      (∀ t a, (t, a) ∈ pares ↔
        t ∈ db.tareas ∧ a ∈ db.tareas_asignaciones ∧ a.tarea_id = t.id ∧ a.usuario_id = pid ∧
          a.usuario_tipo = "personal") ∧
      (getTareasPersonal z o c db pid now).data.Pairwise (fun r s =>
        (enCurso s.asignacion_estado → enCurso r.asignacion_estado) ∧
        ((enCurso r.asignacion_estado ↔ enCurso s.asignacion_estado) →
          r.tarea.fecha_entrega ≤ s.tarea.fecha_entrega)) := by
  have hdata : getTareasPersonal z o c db pid now =
      { status := 200, success := true, error := none,
        data := (db.selectTareasPersonal pid).map (filaPersonal z c db now) } := by
    unfold getTareasPersonal
    simp only [ho, completarFilas_ok z o c db now ho]
  have hperm : (db.selectTareasPersonal pid).Perm (db.joinPersonal pid) :=
    List.perm_insertionSort _ _
  have hsorted : (db.selectTareasPersonal pid).Pairwise ordenPersonal :=
    List.sorted_insertionSort _ _
  rw [hdata]
  refine ⟨rfl, db.selectTareasPersonal pid, rfl, hperm, ?_, ?_⟩
  · intro t a
    rw [hperm.mem_iff]
    exact mem_joinPersonal db pid t a
  · simp only [List.pairwise_map]
    refine hsorted.imp ?_
    intro p q hpq
    simp only [filaPersonal, ← grupoEstado_eq_one_iff]
    unfold ordenPersonal at hpq
    have hp := grupoEstado_cases p.2.estado
    have hq := grupoEstado_cases q.2.estado
    constructor
    · intro h
      omega
    · intro h
      have : grupoEstado p.2.estado = grupoEstado q.2.estado := by
        rcases hp with hp | hp <;> rcases hq with hq | hq
        · omega
        · exact absurd (h.mp hp) (by omega)
        · exact absurd (h.mpr hq) (by omega)
        · omega
      omega

/-- Witness of C16: the listing of person 7 on `dbListado`. -/
theorem getTareasPersonal_orden_witness :
    (getTareasPersonal (zonaFija 0) sinFallos cuentasUno dbListado 7 1738400000000).status = 200 ∧
    ∃ pares : List (Tarea × Asignacion),
      (getTareasPersonal (zonaFija 0) sinFallos cuentasUno dbListado 7 1738400000000).data =
        pares.map (filaPersonal (zonaFija 0) cuentasUno dbListado 1738400000000) ∧
      pares.Perm (dbListado.joinPersonal 7) ∧
      (∀ t a, (t, a) ∈ pares ↔
        t ∈ dbListado.tareas ∧ a ∈ dbListado.tareas_asignaciones ∧ a.tarea_id = t.id ∧
          a.usuario_id = 7 ∧ a.usuario_tipo = "personal") ∧
      (getTareasPersonal (zonaFija 0) sinFallos cuentasUno dbListado 7 1738400000000).data.Pairwise
        (fun r s =>
          (enCurso s.asignacion_estado → enCurso r.asignacion_estado) ∧
          ((enCurso r.asignacion_estado ↔ enCurso s.asignacion_estado) →
            r.tarea.fecha_entrega ≤ s.tarea.fecha_entrega)) :=
  getTareasPersonal_orden (zonaFija 0) sinFallos cuentasUno dbListado 7 1738400000000 (fun _ => rfl)

theorem msDia_pos : (0 : Int) < msDia := by decide

theorem medianoche_eq (z : Zona) (x : Int) :
    medianoche z x = diaLocal z x * msDia - desfaseMedianoche z x := rfl

theorem diasRestantes_eq (z : Zona) (fecha now : Nat) :
    diasRestantes z fecha now =
      -((-(diaLocal z fecha * 86400000 - desfaseMedianoche z fecha -
        (diaLocal z now * 86400000 - desfaseMedianoche z now))) / 86400000) := rfl

/-- Counterexample to C17 as stated, on a host in `zonaEste`.  Listed on
1 November 2025 at noon, task 1 of `dbOtono`, due two calendar days later on
3 November, has dias_restantes 3: the clock goes back on 2 November and the
two local midnights are 49 hours apart.  Listed on 10 March 2025 at noon,
task 2, due the day before on 9 March, has dias_restantes 0 and not a
negative number: the clock jumps on 9 March and the two local midnights are
23 hours apart. -/
theorem dias_restantes_counterexample :
    diaLocal zonaEste 1762189200000 = diaLocal zonaEste 1762012800000 + 2 ∧
    medianoche zonaEste 1762189200000 - medianoche zonaEste 1762012800000 = 49 * 3600000 ∧
    (getTareasPersonal zonaEste sinFallos cuentasUno dbOtono 7 1762012800000).data.map
        (fun r => (r.tarea.id, r.dias_restantes)) = [(2, -236), (1, 3)] ∧
    diaLocal zonaEste 1741536000000 = diaLocal zonaEste 1741622400000 - 1 ∧
    medianoche zonaEste 1741536000000 - medianoche zonaEste 1741622400000 = -(23 * 3600000) ∧
    (getTareasPersonal zonaEste sinFallos cuentasUno dbOtono 7 1741622400000).data.map
        (fun r => (r.tarea.id, r.dias_restantes)) = [(2, 0), (1, 239)] := by
  refine ⟨by decide, by decide, by decide, by decide, by decide, by decide⟩

/-- C17, amended: for every task returned by `GET /tareas/personal/:personalId`,
dias_restantes is the ceiling of (D - T) / 86400000, D and T being the due date
and the current instant cut to local midnight by setHours(0, 0, 0, 0) on the
host.  It is 0 when the due date falls on the current local day.  When the due
date falls k days after the current local day (k negative for an earlier
day), it is k if the offset from UTC at the midnight of the due day is the
one at the midnight of the current day or larger by less than a day, and
k + 1 if it is smaller by less than a day (the clock is set back between the
two midnights, or set forward between the midnight of a past due day and
today).  So on a host whose offset never changes it is k, negative for an
earlier day; on any host with offsets less than a day apart it is never
positive for an earlier day. -/
theorem dias_restantes_formula (z : Zona) (o : Oracle) (c : Cuentas) (db : Db) (pid now : Nat)
    (r : TareaPersonal) (hr : r ∈ (getTareasPersonal z o c db pid now).data) :
    r.dias_restantes =
      ceilDiv (medianoche z r.tarea.fecha_entrega - medianoche z now) (1000 * 60 * 60 * 24) ∧
    (86400000 * (r.dias_restantes - 1) < medianoche z r.tarea.fecha_entrega - medianoche z now ∧
      medianoche z r.tarea.fecha_entrega - medianoche z now ≤ 86400000 * r.dias_restantes) ∧
    (diaLocal z r.tarea.fecha_entrega = diaLocal z now → r.dias_restantes = 0) ∧
    (∀ k : Int, diaLocal z r.tarea.fecha_entrega = diaLocal z now + k →
      (desfaseMedianoche z now ≤ desfaseMedianoche z r.tarea.fecha_entrega →
        desfaseMedianoche z r.tarea.fecha_entrega < desfaseMedianoche z now + 86400000 →
        r.dias_restantes = k) ∧
      (desfaseMedianoche z r.tarea.fecha_entrega < desfaseMedianoche z now →
        desfaseMedianoche z now < desfaseMedianoche z r.tarea.fecha_entrega + 86400000 →
        r.dias_restantes = k + 1)) ∧
    ((∀ t u, z.desfaseLocal t = z.desfaseLocal u) →
      (∀ k : Int, diaLocal z r.tarea.fecha_entrega = diaLocal z now + k → r.dias_restantes = k) ∧
      (diaLocal z r.tarea.fecha_entrega < diaLocal z now → r.dias_restantes < 0)) ∧
    (diaLocal z r.tarea.fecha_entrega < diaLocal z now →
      desfaseMedianoche z now < desfaseMedianoche z r.tarea.fecha_entrega + 86400000 →
      r.dias_restantes ≤ 0) := by
  obtain ⟨p, -, rfl⟩ := getTareasPersonal_mem z o c db pid now r hr
  have h := diasRestantes_eq z p.1.fecha_entrega now
  have hm1 : medianoche z p.1.fecha_entrega =
      diaLocal z p.1.fecha_entrega * 86400000 - desfaseMedianoche z p.1.fecha_entrega := rfl
  have hm2 : medianoche z now = diaLocal z now * 86400000 - desfaseMedianoche z now := rfl
  simp only [filaPersonal]
  refine ⟨rfl, ?_, ?_, ?_, ?_, ?_⟩
  · rw [h, hm1, hm2]
    constructor <;> omega
  · intro hd
    have he : desfaseMedianoche z p.1.fecha_entrega = desfaseMedianoche z now := by
      unfold desfaseMedianoche
      rw [hd]
    rw [h, hd, he]
    omega
  · intro k hd
    rw [h, hd]
    constructor
    · intro h1 h2
      omega
    · intro h1 h2
      omega
  · intro hfijo
    have he : desfaseMedianoche z p.1.fecha_entrega = desfaseMedianoche z now :=
      hfijo _ _
    rw [h, he]
    constructor
    · intro k hd
      rw [hd]
      omega
    · intro hd
      omega
  · intro hd h1
    rw [h]
    omega

/-- Witness of C17: on a host in `zonaEste`, task 1 of `dbOtono`, due on
3 November 2025 and listed on 1 November at noon, has 2 + 1 days left. -/
theorem dias_restantes_formula_witness :
    (filaPersonal zonaEste cuentasUno dbOtono 1762012800000
      ({ id := 1, titulo := "Cierre", descripcion := none, fecha_entrega := 1762189200000,
         creado_por_id := 1, creado_por_tipo := "superadmin", fecha_creacion := 1735689600000 },
       { id := 1, tarea_id := 1, usuario_id := 7, usuario_tipo := "personal",
         estado := "pendiente", comentarios := none, fecha_completado := none })).dias_restantes =
      2 + 1 :=
  ((dias_restantes_formula zonaEste sinFallos cuentasUno dbOtono 7 1762012800000
    (filaPersonal zonaEste cuentasUno dbOtono 1762012800000
      ({ id := 1, titulo := "Cierre", descripcion := none, fecha_entrega := 1762189200000,
         creado_por_id := 1, creado_por_tipo := "superadmin", fecha_creacion := 1735689600000 },
       { id := 1, tarea_id := 1, usuario_id := 7, usuario_tipo := "personal",
         estado := "pendiente", comentarios := none, fecha_completado := none }))
    (by decide)).2.2.2.1 2 (by decide)).2 (by decide) (by decide)

theorem probarSuperUser_some (compare : String → String → Bool) (c : Cuentas)
    (email password : String) (u : Usuario)
    (h : probarSuperUser compare c email password = some u) :
    u.tipo = "superadmin" ∧ u.userType = some "superadmin" ∧
      ∃ r rest, c.super_users.filter (fun x => x.email == email) = r :: rest ∧ r.id = u.id ∧
        compare password r.password = true := by
  unfold probarSuperUser at h
  split at h
  · cases h
  · rename_i r rest heq
    split at h
    · rename_i hc
      injection h with h
      subst h
      exact ⟨rfl, rfl, r, rest, heq, rfl, hc⟩
    · cases h

theorem probarDirectivo_some (compare : String → String → Bool) (c : Cuentas)
    (email password : String) (u : Usuario)
    (h : probarDirectivo compare c email password = some u) :
    u.tipo = "directivo" ∧ u.userType = some "directivo" ∧
      ∃ r rest, c.directivos.filter (fun x => x.email == email) = r :: rest ∧ r.id = u.id ∧
        compare password r.password = true := by
  unfold probarDirectivo at h
  split at h
  · cases h
  · rename_i r rest heq
    split at h
    · rename_i hc
      injection h with h
      subst h
      exact ⟨rfl, rfl, r, rest, heq, rfl, hc⟩
    · cases h

theorem probarPersonal_some (compare : String → String → Bool) (c : Cuentas)
    (email password : String) (u : Usuario)
    (h : probarPersonal compare c email password = some u) :
    u.tipo = "personal" ∧ u.userType = some "personal" ∧
      ∃ r rest, c.personal.filter (fun x => x.email == email) = r :: rest ∧ r.id = u.id ∧
        compare password r.password = true := by
  unfold probarPersonal at h
  split at h
  · cases h
  · rename_i r rest heq
    split at h
    · rename_i hc
      injection h with h
      subst h
      exact ⟨rfl, rfl, r, rest, heq, rfl, hc⟩
    · cases h

theorem probarSuperUser_none_iff (compare : String → String → Bool) (c : Cuentas)
    (email password : String) :
    probarSuperUser compare c email password = none ↔
      ∀ r rest, c.super_users.filter (fun x => x.email == email) = r :: rest →
        compare password r.password = false := by
  unfold probarSuperUser
  cases hf : c.super_users.filter (fun x => x.email == email) with
  | nil => simp
  | cons r rest =>
    cases hc : compare password r.password <;> simp [hc]

theorem probarDirectivo_none_iff (compare : String → String → Bool) (c : Cuentas)
    (email password : String) :
    probarDirectivo compare c email password = none ↔
      ∀ r rest, c.directivos.filter (fun x => x.email == email) = r :: rest →
        compare password r.password = false := by
  unfold probarDirectivo
  cases hf : c.directivos.filter (fun x => x.email == email) with
  | nil => simp
  | cons r rest =>
    cases hc : compare password r.password <;> simp [hc]

theorem probarPersonal_none_iff (compare : String → String → Bool) (c : Cuentas)
    (email password : String) :
    probarPersonal compare c email password = none ↔
      ∀ r rest, c.personal.filter (fun x => x.email == email) = r :: rest →
        compare password r.password = false := by
  unfold probarPersonal
  cases hf : c.personal.filter (fun x => x.email == email) with
  | nil => simp
  | cons r rest =>
    cases hc : compare password r.password <;> simp [hc]

theorem resolver_none_iff (compare : String → String → Bool) (c : Cuentas)
    (email password : String) :
    resolver compare c email password = none ↔
      probarSuperUser compare c email password = none ∧
      probarDirectivo compare c email password = none ∧
      probarPersonal compare c email password = none := by
  unfold resolver
  cases h1 : probarSuperUser compare c email password with
  | some u => simp
  | none =>
    cases h2 : probarDirectivo compare c email password with
    | some u => simp
    | none => simp

theorem loginGeneral_eq (compare : String → String → Bool) (c : Cuentas)
    (e p : String) (he : e ≠ "") (hp : p ≠ "") :
    loginGeneral compare c (some e) (some p) =
      match resolver compare c e p with
      | none => LoginResp.fallo 401 "Credenciales inválidas"
      | some u =>
        { status := 200, success := true, error := none, message := some "Login exitoso",
          user := some u, userType := u.userType } := by
  unfold loginGeneral
  have hcond : (!truthy (some e) || !truthy (some p)) = false := by
    simp [truthy, he, hp]
  rw [hcond]
  rfl

theorem loginGeneral_400 (compare : String → String → Bool) (c : Cuentas)
    (email password : Option String)
    (h : email = none ∨ email = some "" ∨ password = none ∨ password = some "") :
    (loginGeneral compare c email password).status = 400 := by
  unfold loginGeneral
  have hcond : (!truthy email || !truthy password) = true := by
    rcases h with h | h | h | h <;> subst h <;> simp [truthy]
  rw [hcond]
  rfl

/-- Counterexample to C19 as stated: the email matches a super_users row, the
password fails against that row, and the password of the directivos row with
the same email is accepted, with role directivo. -/
theorem loginGeneral_counterexample :
    (cuentasCompartidas.super_users.filter (fun x => x.email == "ana@ut.mx")).map
      (fun x => compareEjemplo "clave" x.password) = [false] ∧
    (loginGeneral compareEjemplo cuentasCompartidas (some "ana@ut.mx") (some "clave")).status =
      200 ∧
    (loginGeneral compareEjemplo cuentasCompartidas (some "ana@ut.mx") (some "clave")).userType =
      some "directivo" := by
  decide

/-- C19, amended: for a non-empty email and password, `POST /login-general`
answers Unauthorized (401) exactly when, in each of super_users, directivos and
personal, the first row with that email (if there is one) fails to verify the
password.  So when the email matches a row of one table and the password fails
against it, the answer is 401 only if the password also fails against the
first matching row of each other table. -/
theorem loginGeneral_no_autorizado (compare : String → String → Bool) (c : Cuentas)
    (email password : String) (he : email ≠ "") (hp : password ≠ "") :
    (loginGeneral compare c (some email) (some password)).status = 401 ↔
      (∀ r rest, c.super_users.filter (fun x => x.email == email) = r :: rest →
        compare password r.password = false) ∧
      (∀ r rest, c.directivos.filter (fun x => x.email == email) = r :: rest →
        compare password r.password = false) ∧
      (∀ r rest, c.personal.filter (fun x => x.email == email) = r :: rest →
        compare password r.password = false) := by
  rw [← probarSuperUser_none_iff, ← probarDirectivo_none_iff, ← probarPersonal_none_iff,
    ← resolver_none_iff, loginGeneral_eq compare c email password he hp]
  cases hr : resolver compare c email password with
  | none => simp [LoginResp.fallo]
  | some u => simp

/-- Witness of C19 (amended): a password that fails against both rows of the
shared email is refused. -/
theorem loginGeneral_no_autorizado_witness :
    (loginGeneral compareEjemplo cuentasCompartidas (some "ana@ut.mx") (some "otra")).status = 401 ↔
      (∀ r rest, cuentasCompartidas.super_users.filter (fun x => x.email == "ana@ut.mx") =
          r :: rest → compareEjemplo "otra" r.password = false) ∧
      (∀ r rest, cuentasCompartidas.directivos.filter (fun x => x.email == "ana@ut.mx") =
          r :: rest → compareEjemplo "otra" r.password = false) ∧
      (∀ r rest, cuentasCompartidas.personal.filter (fun x => x.email == "ana@ut.mx") =
          r :: rest → compareEjemplo "otra" r.password = false) :=
  loginGeneral_no_autorizado compareEjemplo cuentasCompartidas "ana@ut.mx" "otra" (by decide)
    (by decide)

/-- C20: soundness of the identity resolver.  When `POST /login-general`
answers 200 with role R and user id i, the first row of the table of R with
the supplied email has id i and its stored digest verifies the supplied
password. -/
theorem loginGeneral_sound (compare : String → String → Bool) (c : Cuentas)
    (email password : Option String)
    (h : (loginGeneral compare c email password).status = 200) :
    ∃ e p u, email = some e ∧ password = some p ∧
      (loginGeneral compare c email password).user = some u ∧
      (loginGeneral compare c email password).userType = some u.tipo ∧
      ((u.tipo = "superadmin" ∧
          ∃ r rest, c.super_users.filter (fun x => x.email == e) = r :: rest ∧ r.id = u.id ∧
            compare p r.password = true) ∨
        (u.tipo = "directivo" ∧
          ∃ r rest, c.directivos.filter (fun x => x.email == e) = r :: rest ∧ r.id = u.id ∧
            compare p r.password = true) ∨
        (u.tipo = "personal" ∧
          ∃ r rest, c.personal.filter (fun x => x.email == e) = r :: rest ∧ r.id = u.id ∧
            compare p r.password = true)) := by
  cases email with
  | none => rw [loginGeneral_400 compare c _ _ (Or.inl rfl)] at h; cases h
  | some e =>
    cases password with
    | none => rw [loginGeneral_400 compare c _ _ (Or.inr (Or.inr (Or.inl rfl)))] at h; cases h
    | some p =>
      by_cases he : e = ""
      · rw [loginGeneral_400 compare c _ _ (Or.inr (Or.inl (by rw [he])))] at h; cases h
      by_cases hp : p = ""
      · rw [loginGeneral_400 compare c _ _ (Or.inr (Or.inr (Or.inr (by rw [hp]))))] at h; cases h
      rw [loginGeneral_eq compare c e p he hp] at h ⊢
      cases hr : resolver compare c e p with
      | none =>
        rw [hr] at h
        cases h
      | some u =>
        simp only
        have key : u.userType = some u.tipo ∧
            ((u.tipo = "superadmin" ∧
                ∃ r rest, c.super_users.filter (fun x => x.email == e) = r :: rest ∧ r.id = u.id ∧
                  compare p r.password = true) ∨
              (u.tipo = "directivo" ∧
                ∃ r rest, c.directivos.filter (fun x => x.email == e) = r :: rest ∧ r.id = u.id ∧
                  compare p r.password = true) ∨
              (u.tipo = "personal" ∧
                ∃ r rest, c.personal.filter (fun x => x.email == e) = r :: rest ∧ r.id = u.id ∧
                  compare p r.password = true)) := by
          unfold resolver at hr
          cases h1 : probarSuperUser compare c e p with
          | some u1 =>
            rw [h1] at hr
            injection hr with hr
            subst hr
            obtain ⟨a, b, d⟩ := probarSuperUser_some compare c e p _ h1
            exact ⟨by rw [a, b], Or.inl ⟨a, d⟩⟩
          | none =>
            rw [h1] at hr
            cases h2 : probarDirectivo compare c e p with
            | some u2 =>
              rw [h2] at hr
              injection hr with hr
              subst hr
              obtain ⟨a, b, d⟩ := probarDirectivo_some compare c e p _ h2
              exact ⟨by rw [a, b], Or.inr (Or.inl ⟨a, d⟩)⟩
            | none =>
              rw [h2] at hr
              obtain ⟨a, b, d⟩ := probarPersonal_some compare c e p _ hr
              exact ⟨by rw [a, b], Or.inr (Or.inr ⟨a, d⟩)⟩
        exact ⟨e, p, u, rfl, rfl, rfl, key.1, key.2⟩

/-- Witness of C20: the super user of `cuentasUno` logs in. -/
theorem loginGeneral_sound_witness :
    ∃ e p u, some "admin@ut.mx" = some e ∧ some "secreto" = some p ∧
      (loginGeneral compareEjemplo cuentasUno (some "admin@ut.mx") (some "secreto")).user = some u ∧
      (loginGeneral compareEjemplo cuentasUno (some "admin@ut.mx") (some "secreto")).userType =
        some u.tipo ∧
      ((u.tipo = "superadmin" ∧
          ∃ r rest, cuentasUno.super_users.filter (fun x => x.email == e) = r :: rest ∧
            r.id = u.id ∧ compareEjemplo p r.password = true) ∨
        (u.tipo = "directivo" ∧
          ∃ r rest, cuentasUno.directivos.filter (fun x => x.email == e) = r :: rest ∧
            r.id = u.id ∧ compareEjemplo p r.password = true) ∨
        (u.tipo = "personal" ∧
          ∃ r rest, cuentasUno.personal.filter (fun x => x.email == e) = r :: rest ∧
            r.id = u.id ∧ compareEjemplo p r.password = true)) :=
  loginGeneral_sound compareEjemplo cuentasUno (some "admin@ut.mx") (some "secreto") (by decide)

theorem mantisa_bounds (n d k : Nat) (hd : 0 < d) :
    2 * (mantisa n d k * d) ≤ 2 * (n * 2 ^ k) + d ∧
      2 * (n * 2 ^ k) ≤ 2 * (mantisa n d k * d) + d := by
  have hdiv := Nat.div_add_mod (n * 2 ^ k) d
  have hmod := Nat.mod_lt (n * 2 ^ k) hd
  unfold mantisa
  simp only
  generalize n * 2 ^ k = N at hdiv hmod ⊢
  generalize hq : N / d = q at hdiv ⊢
  generalize hr : N % d = r at hdiv hmod ⊢
  have e1 : q * d = d * q := Nat.mul_comm _ _
  have e2 : (q + 1) * d = d * q + d := by ring
  split
  · rw [e1]; omega
  · split
    · rw [e2]; omega
    · split
      · rw [e1]; omega
      · rw [e2]; omega

theorem escala_spec (n d : Nat) (fuel k0 : Nat) (h : 2 ^ 52 * d ≤ n * 2 ^ (k0 + fuel)) :
    2 ^ 52 * d ≤ n * 2 ^ escala n d fuel k0 := by
  induction fuel generalizing k0 with
  | zero => simpa [escala] using h
  | succ fuel ih =>
    unfold escala
    split
    · assumption
    · apply ih
      have : k0 + 1 + fuel = k0 + (fuel + 1) := by omega
      rw [this]
      exact h

theorem escala_redondear (n d : Nat) (hn : 0 < n) :
    2 ^ 52 * d ≤ n * 2 ^ escala n d (d + 53) 0 := by
  apply escala_spec
  have h1 : d < 2 ^ d := Nat.lt_two_pow d
  have h2 : (2 : Nat) ^ (0 + (d + 53)) = 2 ^ 53 * 2 ^ d := by
    rw [Nat.zero_add, Nat.pow_add, Nat.mul_comm]
  rw [h2]
  calc 2 ^ 52 * d ≤ 2 ^ 53 * 2 ^ d := by
        apply Nat.mul_le_mul
        · norm_num
        · exact Nat.le_of_lt h1
    _ = 1 * (2 ^ 53 * 2 ^ d) := by ring
    _ ≤ n * (2 ^ 53 * 2 ^ d) := Nat.mul_le_mul_right _ hn

/-- The double nearest to `n / d`: its scale keeps 53 significant bits and its
mantissa is within one half of the scaled quotient. -/
theorem redondear_spec (n d : Nat) (hn : 0 < n) (hd : 0 < d) :
    2 ^ 52 * d ≤ n * 2 ^ (redondear n d).k ∧
    2 * ((redondear n d).m * d) ≤ 2 * (n * 2 ^ (redondear n d).k) + d ∧
    2 * (n * 2 ^ (redondear n d).k) ≤ 2 * ((redondear n d).m * d) + d := by
  unfold redondear
  rw [if_neg (Nat.pos_iff_ne_zero.mp hn)]
  exact ⟨escala_redondear n d hn, mantisa_bounds n d _ hd⟩

/-- Two roundings in a row: from the bounds of the quotient `m1 / A` of
`c / t` and of the product `m2 / B` of `100 * m1 / A`, the bounds of
`m2 / B` against `100 * c / t`. -/
theorem dos_redondeos (c t m1 A m2 B : Nat) (hA : 0 < A)
    (E1 : 4503599627370496 * t ≤ c * A)
    (M1a : 2 * (m1 * t) ≤ 2 * (c * A) + t) (M1b : 2 * (c * A) ≤ 2 * (m1 * t) + t)
    (E2 : 4503599627370496 * A ≤ m1 * 100 * B)
    (M2a : 2 * (m2 * A) ≤ 2 * (m1 * 100 * B) + A)
    (M2b : 2 * (m1 * 100 * B) ≤ 2 * (m2 * A) + A) :
    81129638414606681695789005144064 * (m2 * t) ≤
        8112963841460669971018751462604900 * (c * B) ∧
      8112963841460666368139049566208100 * (c * B) ≤
        81129638414606681695789005144064 * (m2 * t) := by
  have I1 : 9007199254740992 * (m1 * t) ≤ 9007199254740993 * (c * A) := by omega
  have I1b : 9007199254740991 * (c * A) ≤ 9007199254740992 * (m1 * t) := by omega
  have I2 : 9007199254740992 * (m2 * A) ≤ 9007199254740993 * (m1 * 100 * B) := by omega
  have I2b : 9007199254740991 * (m1 * 100 * B) ≤ 9007199254740992 * (m2 * A) := by omega
  constructor
  · have h1 := Nat.mul_le_mul_right (9007199254740992 * t) I2
    have h2 := Nat.mul_le_mul_left (9007199254740993 * 100 * B) I1
    have h3 : A * (81129638414606681695789005144064 * (m2 * t)) ≤
        A * (8112963841460669971018751462604900 * (c * B)) := by
      calc A * (81129638414606681695789005144064 * (m2 * t))
          = 9007199254740992 * (m2 * A) * (9007199254740992 * t) := by ring
        _ ≤ 9007199254740993 * (m1 * 100 * B) * (9007199254740992 * t) := h1
        _ = 9007199254740993 * 100 * B * (9007199254740992 * (m1 * t)) := by ring
        _ ≤ 9007199254740993 * 100 * B * (9007199254740993 * (c * A)) := h2
        _ = A * (8112963841460669971018751462604900 * (c * B)) := by ring
    exact Nat.le_of_mul_le_mul_left h3 hA
  · have h1 := Nat.mul_le_mul_right (9007199254740991 * t) I2b
    have h2 := Nat.mul_le_mul_left (9007199254740992 * 100 * B) I1b
    have h3 : A * (8112963841460666368139049566208100 * (c * B)) ≤
        A * (81129638414606681695789005144064 * (m2 * t)) := by
      calc A * (8112963841460666368139049566208100 * (c * B))
          = 9007199254740991 * 100 * B * (9007199254740991 * (c * A)) := by ring
        _ ≤ 9007199254740991 * 100 * B * (9007199254740992 * (m1 * t)) := by
            have := Nat.mul_le_mul_left (9007199254740991 * 100 * B) I1b
            exact this
        _ = 9007199254740991 * (m1 * 100 * B) * (9007199254740992 * t) := by ring
        _ ≤ 9007199254740992 * (m2 * A) * (9007199254740992 * t) :=
            Nat.mul_le_mul_right (9007199254740992 * t) I2b
        _ = A * (81129638414606681695789005144064 * (m2 * t)) := by ring
    exact Nat.le_of_mul_le_mul_left h3 hA

/-- The rounding of `Math.round`: from the bounds of `m2 / B` against
`100 * c / t`, the integer `(2 * m2 + B) / (2 * B)` is within one half of
`100 * c / t`, for counts below `2 ^ 44`. -/
theorem redondeo_final (c t m2 B : Nat) (ht : 0 < t) (hB : 0 < B) (hc : c < 17592186044416)
    (U : 81129638414606681695789005144064 * (m2 * t) ≤
      8112963841460669971018751462604900 * (c * B))
    (L : 8112963841460666368139049566208100 * (c * B) ≤
      81129638414606681695789005144064 * (m2 * t)) :
    200 * c ≤ 2 * t * ((2 * m2 + B) / (2 * B)) + t ∧
      2 * t * ((2 * m2 + B) / (2 * B)) ≤ 200 * c + t := by
  have h2B : 0 < 2 * B := by omega
  have hdiv := Nat.div_add_mod (2 * m2 + B) (2 * B)
  have hmod := Nat.mod_lt (2 * m2 + B) h2B
  generalize (2 * m2 + B) / (2 * B) = p at hdiv ⊢
  generalize (2 * m2 + B) % (2 * B) = r at hdiv hmod
  -- 2 * B * p + r = 2 * m2 + B with r < 2 * B
  have hup : B * (162259276829213363391578010288128 * (p * t)) ≤
      B * (16225927682921339942037502925209800 * c + 81129638414606681695789005144064 * t) := by
    have e1 : 2 * B * p * (81129638414606681695789005144064 * t) ≤
        (2 * m2 + B) * (81129638414606681695789005144064 * t) :=
      Nat.mul_le_mul_right _ (by omega)
    calc B * (162259276829213363391578010288128 * (p * t))
        = 2 * B * p * (81129638414606681695789005144064 * t) := by ring
      _ ≤ (2 * m2 + B) * (81129638414606681695789005144064 * t) := e1
      _ = 2 * (81129638414606681695789005144064 * (m2 * t)) +
            B * (81129638414606681695789005144064 * t) := by ring
      _ ≤ 2 * (8112963841460669971018751462604900 * (c * B)) +
            B * (81129638414606681695789005144064 * t) := by omega
      _ = B * (16225927682921339942037502925209800 * c +
            81129638414606681695789005144064 * t) := by ring
  have hup2 := Nat.le_of_mul_le_mul_left hup hB
  have hlo : B * (16225927682921332736278099132416200 * c + 81129638414606681695789005144064 * t) <
      B * (162259276829213363391578010288128 * (p * t + t)) := by
    have hpos : 0 < 81129638414606681695789005144064 * t := by omega
    have e1 : (2 * m2 + B) * (81129638414606681695789005144064 * t) <
        (2 * B * p + 2 * B) * (81129638414606681695789005144064 * t) :=
      Nat.mul_lt_mul_of_pos_right (by omega) hpos
    calc B * (16225927682921332736278099132416200 * c + 81129638414606681695789005144064 * t)
        = 2 * (8112963841460666368139049566208100 * (c * B)) +
            B * (81129638414606681695789005144064 * t) := by ring
      _ ≤ 2 * (81129638414606681695789005144064 * (m2 * t)) +
            B * (81129638414606681695789005144064 * t) := by omega
      _ = (2 * m2 + B) * (81129638414606681695789005144064 * t) := by ring
      _ < (2 * B * p + 2 * B) * (81129638414606681695789005144064 * t) := e1
      _ = B * (162259276829213363391578010288128 * (p * t + t)) := by ring
  have hlo2 := Nat.lt_of_mul_lt_mul_left hlo
  have e : 2 * t * p = 2 * (p * t) := by ring
  rw [e]
  constructor <;> omega

theorem progreso_cero (t : Nat) : progreso 0 t = 0 := by
  unfold progreso
  split
  · simp [mathRound, porCien, dividir, redondear]
  · rfl

/-- For counts `0 < c < 2 ^ 44` and `0 < t`, the computed progress is within
one half of `100 * c / t`. -/
theorem progreso_medio (c t : Nat) (hc0 : 0 < c) (ht : 0 < t) (hc : c < 17592186044416) :
    200 * c ≤ 2 * t * progreso c t + t ∧ 2 * t * progreso c t ≤ 200 * c + t := by
  obtain ⟨E1, M1a, M1b⟩ := redondear_spec c t hc0 ht
  have hA : 0 < 2 ^ (redondear c t).k := Nat.two_pow_pos _
  have hm1 : 0 < (redondear c t).m := by
    by_contra h
    have h0 : (redondear c t).m = 0 := by omega
    rw [h0] at M1b
    norm_num at E1 M1b
    omega
  have hn2 : 0 < (redondear c t).m * 100 := by omega
  obtain ⟨E2, M2a, M2b⟩ := redondear_spec ((redondear c t).m * 100) (2 ^ (redondear c t).k) hn2 hA
  have hB : 0 < 2 ^ (redondear ((redondear c t).m * 100) (2 ^ (redondear c t).k)).k :=
    Nat.two_pow_pos _
  norm_num at E1 E2
  obtain ⟨U, L⟩ := dos_redondeos c t (redondear c t).m (2 ^ (redondear c t).k)
    (redondear ((redondear c t).m * 100) (2 ^ (redondear c t).k)).m
    (2 ^ (redondear ((redondear c t).m * 100) (2 ^ (redondear c t).k)).k) hA E1 M1a M1b E2 M2a M2b
  have key := redondeo_final c t
    (redondear ((redondear c t).m * 100) (2 ^ (redondear c t).k)).m
    (2 ^ (redondear ((redondear c t).m * 100) (2 ^ (redondear c t).k)).k) ht hB hc U L
  have hp : progreso c t =
      (2 * (redondear ((redondear c t).m * 100) (2 ^ (redondear c t).k)).m +
        2 ^ (redondear ((redondear c t).m * 100) (2 ^ (redondear c t).k)).k) /
      (2 * 2 ^ (redondear ((redondear c t).m * 100) (2 ^ (redondear c t).k)).k) := by
    unfold progreso
    rw [if_pos ht]
    unfold mathRound porCien dividir
    rw [Nat.pow_succ, Nat.mul_comm (2 ^ _) 2]
  rw [hp]
  exact key

/-- Counterexample to C18 as stated: with 199 of 200 assignments completed the
progress is 100 although c differs from t, and with 23 of 40 completed it is
57 although the integer nearest to 57.5, ties rounded up, is 58. -/
theorem progreso_counterexample :
    progreso 199 200 = 100 ∧ 199 ≠ 200 ∧ progreso 23 40 = 57 ∧ masCercanoArriba 23 40 = 58 := by
  decide

/-- C18, amended: for a task with total assignment count t and completed count
c, 0 ≤ c ≤ t < 2 ^ 44, progreso is 0 when t = 0; otherwise it is an integer at
distance at most one half from 100 * c / t (a nearest integer; at an exact
tie the double-precision product decides the side), hence an integer in
[0, 100]; it is 100 when c = t and 0 when c = 0, as for a freshly created
task. -/
theorem progreso_cercano (c t : Nat) (hct : c ≤ t) (ht : t < 2 ^ 44) :
    (t = 0 → progreso c t = 0) ∧
    (0 < t → 200 * c ≤ 2 * t * progreso c t + t ∧ 2 * t * progreso c t ≤ 200 * c + t) ∧
    progreso c t ≤ 100 ∧
    (0 < t → c = t → progreso c t = 100) ∧
    (c = 0 → progreso c t = 0) := by
  norm_num at ht
  have h0 : t = 0 → progreso c t = 0 := by
    intro h
    unfold progreso
    rw [if_neg (by omega)]
  have hmid : 0 < t → 200 * c ≤ 2 * t * progreso c t + t ∧ 2 * t * progreso c t ≤ 200 * c + t := by
    intro htp
    by_cases hc0 : c = 0
    · subst hc0
      rw [progreso_cero]
      omega
    · exact progreso_medio c t (by omega) htp (by omega)
  refine ⟨h0, hmid, ?_, ?_, ?_⟩
  · by_cases htp : 0 < t
    · obtain ⟨-, hU⟩ := hmid htp
      by_contra hgt
      have h101 : 101 ≤ progreso c t := by omega
      have : 2 * t * 101 ≤ 2 * t * progreso c t := Nat.mul_le_mul_left _ h101
      omega
    · rw [h0 (by omega)]
      omega
  · intro htp hceq
    obtain ⟨hL, hU⟩ := hmid htp
    subst hceq
    have h1 : progreso c c ≤ 100 := by
      by_contra hgt
      have h101 : 101 ≤ progreso c c := by omega
      have : 2 * c * 101 ≤ 2 * c * progreso c c := Nat.mul_le_mul_left _ h101
      omega
    have h2 : 100 ≤ progreso c c := by
      by_contra hlt
      have h99 : progreso c c ≤ 99 := by omega
      have : 2 * c * progreso c c ≤ 2 * c * 99 := Nat.mul_le_mul_left _ h99
      omega
    omega
  · intro hc0
    subst hc0
    exact progreso_cero t

/-- Witness of C18 (amended): three of eight assignments completed. -/
theorem progreso_cercano_witness :
    (8 = 0 → progreso 3 8 = 0) ∧
    (0 < 8 → 200 * 3 ≤ 2 * 8 * progreso 3 8 + 8 ∧ 2 * 8 * progreso 3 8 ≤ 200 * 3 + 8) ∧
    progreso 3 8 ≤ 100 ∧
    (0 < 8 → 3 = 8 → progreso 3 8 = 100) ∧
    (3 = 0 → progreso 3 8 = 0) :=
  progreso_cercano 3 8 (by decide) (by norm_num)


/-- Every element of the answer of `GET /tareas` carries the progress computed
from its own counts. -/
theorem getTareas_progreso (cu : Cuentas) (db : Db) (r : TareaResumen)
    (hr : r ∈ (getTareas cu db).data) :
    r.progreso = progreso r.completadas r.total_asignaciones := by
  unfold getTareas at hr
  obtain ⟨t, -, rfl⟩ := List.mem_map.mp hr
  rfl

theorem login_eq (compare : String → String → Bool) (c : Cuentas)
    (e p : String) (he : e ≠ "") (hp : p ≠ "") :
    login compare c (some e) (some p) =
      match c.super_users.filter (fun u => u.email == e) with
      | [] => LoginResp.fallo 401 "Credenciales inválidas"
      | user :: _ =>
        if compare p user.password then
          { status := 200, success := true, error := none, message := some "Login exitoso",
            user := some { id := user.id, nombre := none, username := user.username,
                           email := user.email, cargo := none, puesto := none,
                           direccion_id := none, direccion_nombre := none, tipo := "superadmin",
                           userType := none, created_at := some user.created_at },
            userType := none }
        else LoginResp.fallo 401 "Credenciales inválidas" := by
  unfold login
  have hcond : (!truthy (some e) || !truthy (some p)) = false := by
    simp [truthy, he, hp]
  rw [hcond]
  rfl

theorem primero_de_filtro {α : Type} (q : α → Bool) (l : List α) (r : α) (rest : List α)
    (h : l.filter q = r :: rest) : r ∈ l ∧ q r = true := by
  have : r ∈ l.filter q := by rw [h]; exact List.mem_cons_self _ _
  exact List.mem_filter.mp this

/-- C21: uniform login failure.  For a non-empty email and password, the
answer of POST /login-general and of POST /login on account tables where no
table has a row with the email is the same answer (status 401, body
success false and error Credenciales inválidas) as on account tables where
the rows with the email fail the verification of the password. -/
theorem login_fallo_uniforme (compare : String → String → Bool) (c1 c2 : Cuentas)
    (e p : String) (he : e ≠ "") (hp : p ≠ "")
    (h1 : (∀ r ∈ c1.super_users, r.email ≠ e) ∧ (∀ r ∈ c1.directivos, r.email ≠ e) ∧
      (∀ r ∈ c1.personal, r.email ≠ e))
    (h2 : (∀ r ∈ c2.super_users, r.email = e → compare p r.password = false) ∧
      (∀ r ∈ c2.directivos, r.email = e → compare p r.password = false) ∧
      (∀ r ∈ c2.personal, r.email = e → compare p r.password = false)) :
    loginGeneral compare c1 (some e) (some p) = LoginResp.fallo 401 "Credenciales inválidas" ∧
    loginGeneral compare c2 (some e) (some p) = loginGeneral compare c1 (some e) (some p) ∧
    login compare c1 (some e) (some p) = LoginResp.fallo 401 "Credenciales inválidas" ∧
    login compare c2 (some e) (some p) = login compare c1 (some e) (some p) := by
  have g : ∀ c : Cuentas,
      ((∀ r ∈ c.super_users, r.email = e → compare p r.password = false) ∧
        (∀ r ∈ c.directivos, r.email = e → compare p r.password = false) ∧
        (∀ r ∈ c.personal, r.email = e → compare p r.password = false)) →
      loginGeneral compare c (some e) (some p) = LoginResp.fallo 401 "Credenciales inválidas" ∧
      login compare c (some e) (some p) = LoginResp.fallo 401 "Credenciales inválidas" := by
    intro c ⟨hs, hd, hq⟩
    have hS : ∀ r rest, c.super_users.filter (fun x => x.email == e) = r :: rest →
        compare p r.password = false := by
      intro r rest hf
      obtain ⟨hm, hq⟩ := primero_de_filtro _ _ _ _ hf
      exact hs r hm (by simpa using hq)
    constructor
    · have hr : resolver compare c e p = none := by
        rw [resolver_none_iff, probarSuperUser_none_iff, probarDirectivo_none_iff,
          probarPersonal_none_iff]
        refine ⟨hS, ?_, ?_⟩
        · intro r rest hf
          obtain ⟨hm, hq⟩ := primero_de_filtro _ _ _ _ hf
          exact hd r hm (by simpa using hq)
        · intro r rest hf
          obtain ⟨hm, hq1⟩ := primero_de_filtro _ _ _ _ hf
          exact hq r hm (by simpa using hq1)
      rw [loginGeneral_eq compare c e p he hp, hr]
    · rw [login_eq compare c e p he hp]
      cases hf : c.super_users.filter (fun u => u.email == e) with
      | nil => rfl
      | cons r rest =>
        have := hS r rest hf
        simp only [this]
        rfl
  have g1 := g c1 ⟨fun r hr h => absurd h (h1.1 r hr), fun r hr h => absurd h (h1.2.1 r hr),
    fun r hr h => absurd h (h1.2.2 r hr)⟩
  have g2 := g c2 h2
  exact ⟨g1.1, by rw [g1.1, g2.1], g1.2, by rw [g1.2, g2.2]⟩

/-- Witness of C21: an unknown email on empty tables, and the email of the
super user of `cuentasUno` with a wrong password. -/
theorem login_fallo_uniforme_witness :
    loginGeneral compareEjemplo sinCuentas (some "admin@ut.mx") (some "otra") =
      LoginResp.fallo 401 "Credenciales inválidas" ∧
    loginGeneral compareEjemplo cuentasUno (some "admin@ut.mx") (some "otra") =
      loginGeneral compareEjemplo sinCuentas (some "admin@ut.mx") (some "otra") ∧
    login compareEjemplo sinCuentas (some "admin@ut.mx") (some "otra") =
      LoginResp.fallo 401 "Credenciales inválidas" ∧
    login compareEjemplo cuentasUno (some "admin@ut.mx") (some "otra") =
      login compareEjemplo sinCuentas (some "admin@ut.mx") (some "otra") :=
  login_fallo_uniforme compareEjemplo sinCuentas cuentasUno "admin@ut.mx" "otra" (by decide)
    (by decide) (by decide) (by decide)

theorem filtro_unico {α : Type} (email : α → String) (l : List α) (hu : emailUnico email l)
    (e : String) (r : α) (hr : r ∈ l) (he : email r = e) :
    ∃ rest, l.filter (fun x => email x == e) = r :: rest := by
  have hmem : r ∈ l.filter (fun x => email x == e) :=
    List.mem_filter.mpr ⟨hr, by simp [he]⟩
  cases hf : l.filter (fun x => email x == e) with
  | nil => rw [hf] at hmem; cases hmem
  | cons r1 rest =>
    obtain ⟨hm, hq⟩ := primero_de_filtro _ _ _ _ hf
    have h1 : email r1 = e := by simpa using hq
    have : r1 = r := List.inj_on_of_nodup_map hu hm hr (by rw [h1, he])
    subst this
    exact ⟨rest, rfl⟩

/-- C27: probe order of POST /login-general, for a non-empty email and
password and super_users holding each email once.  If super_users has a row
with the email whose digest verifies the password, the answer is 200 with
role superadmin and the id of that row, whatever directivos and personal
contain.  With directivos holding each email once as well: if no
super_users row with the email verifies and directivos has one that does,
the answer is 200 with role directivo and the id of that row, whatever
personal contains; and the role personal is answered only when no row with
the email verifies in super_users nor in directivos. -/
theorem loginGeneral_orden (compare : String → String → Bool) (c : Cuentas)
    (e p : String) (he : e ≠ "") (hp : p ≠ "")
    (hS : emailUnico (fun r : SuperUser => r.email) c.super_users) :
    (∀ r ∈ c.super_users, r.email = e → compare p r.password = true →
      (loginGeneral compare c (some e) (some p)).status = 200 ∧
      (loginGeneral compare c (some e) (some p)).userType = some "superadmin" ∧
      ∃ u, (loginGeneral compare c (some e) (some p)).user = some u ∧ u.id = r.id ∧
        u.tipo = "superadmin") ∧
    (emailUnico (fun r : Directivo => r.email) c.directivos →
      ((∀ r ∈ c.super_users, r.email = e → compare p r.password = false) →
        ∀ d ∈ c.directivos, d.email = e → compare p d.password = true →
          (loginGeneral compare c (some e) (some p)).status = 200 ∧
          (loginGeneral compare c (some e) (some p)).userType = some "directivo" ∧
          ∃ u, (loginGeneral compare c (some e) (some p)).user = some u ∧ u.id = d.id ∧
            u.tipo = "directivo") ∧
      ((loginGeneral compare c (some e) (some p)).userType = some "personal" →
        (∀ r ∈ c.super_users, r.email = e → compare p r.password = false) ∧
        (∀ d ∈ c.directivos, d.email = e → compare p d.password = false))) := by
  rw [loginGeneral_eq compare c e p he hp]
  refine ⟨?_, fun hD => ⟨?_, ?_⟩⟩
  · intro r hr hre hc
    obtain ⟨rest, hf⟩ := filtro_unico (fun r : SuperUser => r.email) _ hS e r hr hre
    have h1 : resolver compare c e p = some
        { id := r.id, nombre := some r.username, username := r.username,
          email := r.email, cargo := none, puesto := none, direccion_id := none,
          direccion_nombre := none, tipo := "superadmin", userType := some "superadmin",
          created_at := none } := by
      unfold resolver probarSuperUser
      simp only [hf, hc, if_true]
    rw [h1]
    exact ⟨rfl, rfl, _, rfl, rfl, rfl⟩
  · intro hs d hd hde hc
    obtain ⟨rest, hf⟩ := filtro_unico (fun r : Directivo => r.email) _ hD e d hd hde
    have h0 : probarSuperUser compare c e p = none := by
      rw [probarSuperUser_none_iff]
      intro r rest hf
      obtain ⟨hm, hq⟩ := primero_de_filtro _ _ _ _ hf
      exact hs r hm (by simpa using hq)
    have h1 : resolver compare c e p = some
        { id := d.id, nombre := some d.nombre_completo, username := d.nombre_completo,
          email := d.email, cargo := some d.cargo, puesto := none,
          direccion_id := some d.direccion_id,
          direccion_nombre := some (c.direccionNombre d.direccion_id),
          tipo := "directivo", userType := some "directivo", created_at := none } := by
      unfold resolver
      rw [h0]
      unfold probarDirectivo
      simp only [hf, hc, if_true]
    rw [h1]
    exact ⟨rfl, rfl, _, rfl, rfl, rfl⟩
  · intro h
    have hne : ("superadmin" : String) ≠ "personal" := by decide
    have hne2 : ("directivo" : String) ≠ "personal" := by decide
    cases h1 : probarSuperUser compare c e p with
    | some u =>
      exfalso
      have hr : resolver compare c e p = some u := by unfold resolver; rw [h1]
      rw [hr] at h
      obtain ⟨-, hu, -⟩ := probarSuperUser_some compare c e p u h1
      simp only [hu] at h
      exact hne (Option.some.inj h)
    | none =>
      cases h2 : probarDirectivo compare c e p with
      | some u =>
        exfalso
        have hr : resolver compare c e p = some u := by unfold resolver; rw [h1, h2]
        rw [hr] at h
        obtain ⟨-, hu, -⟩ := probarDirectivo_some compare c e p u h2
        simp only [hu] at h
        exact hne2 (Option.some.inj h)
      | none =>
        rw [probarSuperUser_none_iff] at h1
        rw [probarDirectivo_none_iff] at h2
        constructor
        · intro r hr hre
          obtain ⟨rest, hf⟩ := filtro_unico (fun r : SuperUser => r.email) _ hS e r hr hre
          exact h1 r rest hf
        · intro d hd hde
          obtain ⟨rest, hf⟩ := filtro_unico (fun r : Directivo => r.email) _ hD e d hd hde
          exact h2 d rest hf

/-- Witness of C27: the tables of `cuentasCompartidas`, where a super user
and a directivo have the same email, and the password of the super user. -/
theorem loginGeneral_orden_witness :
    (∀ r ∈ cuentasCompartidas.super_users, r.email = "ana@ut.mx" →
      compareEjemplo "admin" r.password = true →
      (loginGeneral compareEjemplo cuentasCompartidas (some "ana@ut.mx") (some "admin")).status =
        200 ∧
      (loginGeneral compareEjemplo cuentasCompartidas (some "ana@ut.mx") (some "admin")).userType =
        some "superadmin" ∧
      ∃ u, (loginGeneral compareEjemplo cuentasCompartidas (some "ana@ut.mx") (some "admin")).user =
          some u ∧ u.id = r.id ∧ u.tipo = "superadmin") ∧
    (emailUnico (fun r : Directivo => r.email) cuentasCompartidas.directivos →
      ((∀ r ∈ cuentasCompartidas.super_users, r.email = "ana@ut.mx" →
          compareEjemplo "admin" r.password = false) →
        ∀ d ∈ cuentasCompartidas.directivos, d.email = "ana@ut.mx" →
          compareEjemplo "admin" d.password = true →
          (loginGeneral compareEjemplo cuentasCompartidas (some "ana@ut.mx")
            (some "admin")).status = 200 ∧
          (loginGeneral compareEjemplo cuentasCompartidas (some "ana@ut.mx")
            (some "admin")).userType = some "directivo" ∧
          ∃ u, (loginGeneral compareEjemplo cuentasCompartidas (some "ana@ut.mx")
              (some "admin")).user = some u ∧ u.id = d.id ∧ u.tipo = "directivo") ∧
      ((loginGeneral compareEjemplo cuentasCompartidas (some "ana@ut.mx")
          (some "admin")).userType = some "personal" →
        (∀ r ∈ cuentasCompartidas.super_users, r.email = "ana@ut.mx" →
          compareEjemplo "admin" r.password = false) ∧
        (∀ d ∈ cuentasCompartidas.directivos, d.email = "ana@ut.mx" →
          compareEjemplo "admin" d.password = false))) :=
  loginGeneral_orden compareEjemplo cuentasCompartidas "ana@ut.mx" "admin" (by decide) (by decide)
    (by simp [emailUnico, cuentasCompartidas])

theorem probarSuperUser_conDigestos (compare : String → String → Bool) (c : Cuentas)
    (gS : SuperUser → String) (gD : Directivo → String) (gP : Personal → String) (e p : String)
    (hS : ∀ r ∈ c.super_users, compare p (gS r) = compare p r.password) :
    probarSuperUser compare (c.conDigestos gS gD gP) e p = probarSuperUser compare c e p := by
  unfold probarSuperUser Cuentas.conDigestos
  simp only [List.filter_map]
  have hq : ((fun u : SuperUser => u.email == e) ∘ fun r : SuperUser => { r with password := gS r }) =
      fun u : SuperUser => u.email == e := rfl
  rw [hq]
  cases hf : c.super_users.filter (fun u => u.email == e) with
  | nil => rfl
  | cons r rest =>
    obtain ⟨hm, -⟩ := primero_de_filtro _ _ _ _ hf
    simp only [List.map_cons, hS r hm]

theorem probarDirectivo_conDigestos (compare : String → String → Bool) (c : Cuentas)
    (gS : SuperUser → String) (gD : Directivo → String) (gP : Personal → String) (e p : String)
    (hD : ∀ r ∈ c.directivos, compare p (gD r) = compare p r.password) :
    probarDirectivo compare (c.conDigestos gS gD gP) e p = probarDirectivo compare c e p := by
  unfold probarDirectivo Cuentas.conDigestos
  simp only [List.filter_map]
  have hq : ((fun u : Directivo => u.email == e) ∘ fun r : Directivo => { r with password := gD r }) =
      fun u : Directivo => u.email == e := rfl
  rw [hq]
  cases hf : c.directivos.filter (fun u => u.email == e) with
  | nil => rfl
  | cons r rest =>
    obtain ⟨hm, -⟩ := primero_de_filtro _ _ _ _ hf
    simp only [List.map_cons, hD r hm]
    rfl

theorem probarPersonal_conDigestos (compare : String → String → Bool) (c : Cuentas)
    (gS : SuperUser → String) (gD : Directivo → String) (gP : Personal → String) (e p : String)
    (hP : ∀ r ∈ c.personal, compare p (gP r) = compare p r.password) :
    probarPersonal compare (c.conDigestos gS gD gP) e p = probarPersonal compare c e p := by
  unfold probarPersonal Cuentas.conDigestos
  simp only [List.filter_map]
  have hq : ((fun u : Personal => u.email == e) ∘ fun r : Personal => { r with password := gP r }) =
      fun u : Personal => u.email == e := rfl
  rw [hq]
  cases hf : c.personal.filter (fun u => u.email == e) with
  | nil => rfl
  | cons r rest =>
    obtain ⟨hm, -⟩ := primero_de_filtro _ _ _ _ hf
    simp only [List.map_cons, hP r hm]
    rfl

/-- C29: the answers of POST /login-general and POST /login do not depend on
the stored digests beyond the outcome of their verification.  Two states of
the account tables that differ only in the column password, such that every
row verifies the supplied password in one state exactly when it does in the
other, yield identical answers (status, body and user object); in particular
when the digest of the authenticated row differs and verifies in both. -/
theorem login_sin_digesto (compare : String → String → Bool) (c : Cuentas)
    (gS : SuperUser → String) (gD : Directivo → String) (gP : Personal → String)
    (email password : Option String)
    (hS : ∀ r ∈ c.super_users,
      compare (password.getD "") (gS r) = compare (password.getD "") r.password)
    (hD : ∀ r ∈ c.directivos,
      compare (password.getD "") (gD r) = compare (password.getD "") r.password)
    (hP : ∀ r ∈ c.personal,
      compare (password.getD "") (gP r) = compare (password.getD "") r.password) :
    loginGeneral compare (c.conDigestos gS gD gP) email password =
      loginGeneral compare c email password ∧
    login compare (c.conDigestos gS gD gP) email password = login compare c email password := by
  constructor
  · unfold loginGeneral resolver
    rw [probarSuperUser_conDigestos compare c gS gD gP _ _ hS,
      probarDirectivo_conDigestos compare c gS gD gP _ _ hD,
      probarPersonal_conDigestos compare c gS gD gP _ _ hP]
  · unfold login Cuentas.conDigestos
    simp only [List.filter_map]
    have hq : ((fun u : SuperUser => u.email == email.getD "") ∘
        fun r : SuperUser => { r with password := gS r }) =
        fun u : SuperUser => u.email == email.getD "" := rfl
    rw [hq]
    cases hf : c.super_users.filter (fun u => u.email == email.getD "") with
    | nil => rfl
    | cons r rest =>
      obtain ⟨hm, -⟩ := primero_de_filtro _ _ _ _ hf
      simp only [List.map_cons, hS r hm]

/-- Witness of C29: the digest of the super user of `cuentasUno` is replaced
by another digest of the same password. -/
theorem login_sin_digesto_witness :
    (loginGeneral compareDos cuentasUno (some "admin@ut.mx") (some "secreto")).status = 200 ∧
    (login compareDos cuentasUno (some "admin@ut.mx") (some "secreto")).status = 200 ∧
    loginGeneral compareDos
        (cuentasUno.conDigestos (fun _ => "sal:secreto") (fun r => r.password)
          (fun r => r.password)) (some "admin@ut.mx") (some "secreto") =
      loginGeneral compareDos cuentasUno (some "admin@ut.mx") (some "secreto") ∧
    login compareDos
        (cuentasUno.conDigestos (fun _ => "sal:secreto") (fun r => r.password)
          (fun r => r.password)) (some "admin@ut.mx") (some "secreto") =
      login compareDos cuentasUno (some "admin@ut.mx") (some "secreto") :=
  ⟨by decide, by decide,
    login_sin_digesto compareDos cuentasUno (fun _ => "sal:secreto") (fun r => r.password)
      (fun r => r.password) (some "admin@ut.mx") (some "secreto") (by decide) (by decide)
      (by decide)⟩

theorem truthy_iff (x : Option String) : truthy x = true ↔ ∃ c, x = some c ∧ c ≠ "" := by
  cases x with
  | none => simp [truthy]
  | some s => simp [truthy]

theorem sufijo_no_vacio (t : String) : " y " ++ t ≠ "" := by
  intro h
  have := congrArg String.length h
  rw [String.length_append] at this
  have h3 : " y ".length = 3 := by decide
  rw [h3] at this
  have h0 : "".length = 0 := by decide
  rw [h0] at this
  omega

/-- C28: when a CompleteAssignment call with comment c and N files is accepted
(status 200), the history table is the one before with one row appended, its
accion is completada, and its description is Tarea completada, followed by
a part that is the text con comentarios (after a blank) exactly when c is a
non-empty string and is empty otherwise, followed by a part that is the text
y N archivo(s) (after a blank) exactly when N > 0 and is empty otherwise. -/
theorem postTareasCompletar_descripcion (o : Oracle) (w : World) (req : CompletarReq)
    (h : (postTareasCompletar o w req).2.status = 200) :
    ∃ (fila : Historial) (s1 s2 : String),
      (postTareasCompletar o w req).1.db.tareas_historial = w.db.tareas_historial ++ [fila] ∧
      fila.accion = "completada" ∧
      fila.descripcion = "Tarea completada" ++ s1 ++ s2 ∧
      ((∃ c, req.comentarios = some c ∧ c ≠ "") → s1 = " con comentarios") ∧
      ((¬ ∃ c, req.comentarios = some c ∧ c ≠ "") → s1 = "") ∧
      (0 < req.files.length → s2 = " y " ++ toString req.files.length ++ " archivo(s)") ∧
      (req.files.length = 0 → s2 = "") ∧
      (s1 ≠ "" ↔ ∃ c, req.comentarios = some c ∧ c ≠ "") ∧
      (s2 ≠ "" ↔ 0 < req.files.length) := by
  rcases postTareasCompletar_casos o w req with
    ⟨a, titulo, rest, db, -, -, -, -, hx, h1, -, -⟩ | ⟨-, hs, -⟩
  · obtain ⟨-, -, hdb⟩ := (completarTx_ok_iff _ _ _ _ _).mp hx
    subst hdb
    rw [h1]
    refine ⟨_, if truthy req.comentarios then " con comentarios" else "",
      if req.files.length > 0 then " y " ++ toString req.files.length ++ " archivo(s)" else "",
      rfl, rfl, rfl, ?_, ?_, ?_, ?_, ?_, ?_⟩
    · intro hc
      rw [if_pos ((truthy_iff _).mpr hc)]
    · intro hc
      rw [if_neg (fun ht => hc ((truthy_iff _).mp ht))]
    · intro hn
      rw [if_pos hn]
    · intro hn
      rw [if_neg (by omega)]
    · rw [← truthy_iff]
      by_cases ht : truthy req.comentarios = true
      · simp only [ht, if_true, iff_true]
        decide
      · simp only [ht, if_false]
        simp
    · by_cases hn : req.files.length > 0
      · simp only [hn, if_true, iff_true, String.append_assoc]
        exact sufijo_no_vacio _
      · simp only [hn, if_false]
        simp
  · rw [h] at hs
    rcases hs with hs | hs | hs <;> cases hs

/-- Witness of C28: the pending assignment of `dbUnaTarea` is completed with a
comment and one file. -/
theorem postTareasCompletar_descripcion_witness :
    ∃ (fila : Historial) (s1 s2 : String),
      (postTareasCompletar sinFallos { db := dbUnaTarea, fs := ["tarea-1735689600000-1.pdf"] }
        { asignacionId := 1, comentarios := some "hecho", files := [archivoPdf], now := 9
          }).1.db.tareas_historial = dbUnaTarea.tareas_historial ++ [fila] ∧
      fila.accion = "completada" ∧
      fila.descripcion = "Tarea completada" ++ s1 ++ s2 ∧
      ((∃ c, some "hecho" = some c ∧ c ≠ "") → s1 = " con comentarios") ∧
      ((¬ ∃ c, some "hecho" = some c ∧ c ≠ "") → s1 = "") ∧
      (0 < [archivoPdf].length → s2 = " y " ++ toString [archivoPdf].length ++ " archivo(s)") ∧
      ([archivoPdf].length = 0 → s2 = "") ∧
      (s1 ≠ "" ↔ ∃ c, some "hecho" = some c ∧ c ≠ "") ∧
      (s2 ≠ "" ↔ 0 < [archivoPdf].length) :=
  postTareasCompletar_descripcion sinFallos
    { db := dbUnaTarea, fs := ["tarea-1735689600000-1.pdf"] }
    { asignacionId := 1, comentarios := some "hecho", files := [archivoPdf], now := 9 }
    (by decide)

theorem insertImagenes_actividades (o : Oracle) (aid : Nat) (files : List File) (k : Nat)
    (w : MundoActividades) :
    (insertImagenes o aid k w files).1.actividades = w.actividades := by
  induction files generalizing k w with
  | nil => rfl
  | cons f rest ih =>
    unfold insertImagenes
    cases o k with
    | some m => rfl
    | none => simp only; rw [ih]

/-- C23: for a request of POST /actividades with all required fields present
whose end date is supplied and earlier than its start date, the answer is the
validation error 400 and neither actividades nor actividad_imagenes gets a
row.  And whatever the request and the datastore do, the rows that the call
appends to actividades have fecha_fin NULL or fecha_fin >= fecha_inicio. -/
theorem postActividades_fechas (o : Oracle) (w : MundoActividades) (req : ActividadReq) :
    (∀ inicio fin, camposPresentes req → req.fecha_inicio = some inicio →
      req.fecha_fin = some fin → fin < inicio →
      (postActividades o w req).2 =
        Response.fallo 400 "La fecha de fin no puede ser anterior a la fecha de inicio" ∧
      (postActividades o w req).1.actividades = w.actividades ∧
      (postActividades o w req).1.actividad_imagenes = w.actividad_imagenes) ∧
    ∃ nuevas, (postActividades o w req).1.actividades = w.actividades ++ nuevas ∧
      ∀ a ∈ nuevas, a.fecha_fin = none ∨ ∃ fin, a.fecha_fin = some fin ∧ a.fecha_inicio ≤ fin := by
  constructor
  · rintro inicio fin ⟨h1, h2, -, h4, h5, h6⟩ hi hf hlt
    obtain ⟨titulo, ht, ht0⟩ := (truthy_iff _).mp h1
    obtain ⟨tipo, htp, htp0⟩ := (truthy_iff _).mp h2
    obtain ⟨ctipo, hc, hc0⟩ := (truthy_iff _).mp h6
    obtain ⟨dir, hd⟩ := Option.ne_none_iff_exists'.mp h4
    obtain ⟨cid, hcid⟩ := Option.ne_none_iff_exists'.mp h5
    have e : postActividades o w req =
        ({ w with fs := unlinkEachQuiet w.fs req.files },
          Response.fallo 400 "La fecha de fin no puede ser anterior a la fecha de inicio") := by
      unfold postActividades
      simp only [ht, htp, hi, hd, hcid, hc, hf, ht0, htp0, hc0, false_or, if_false, hlt,
        decide_True, if_true]
    rw [e]
    exact ⟨rfl, rfl, rfl⟩
  · have hnil : ∀ (fs1 : List String) (r : Response),
        ∃ nuevas, (({ w with fs := fs1 }, r) : MundoActividades × Response).1.actividades =
          w.actividades ++ nuevas ∧
          ∀ a ∈ nuevas, a.fecha_fin = none ∨
            ∃ fin, a.fecha_fin = some fin ∧ a.fecha_inicio ≤ fin :=
      fun fs1 r => ⟨[], by simp, by simp⟩
    unfold postActividades
    split
    · rename_i titulo tipo inicio direccion cid ctipo ht htp hi hd hcid hc
      split
      · exact hnil _ _
      · split
        · exact hnil _ _
        · rename_i hfin
          have hord : ∀ fin, req.fecha_fin = some fin → inicio ≤ fin := by
            intro fin hf
            rw [hf] at hfin
            simpa using hfin
          have hfila : ∀ a : Actividad, a.fecha_inicio = inicio → a.fecha_fin = req.fecha_fin →
              (a.fecha_fin = none ∨ ∃ fin, a.fecha_fin = some fin ∧ a.fecha_inicio ≤ fin) := by
            intro a h1 h2
            cases hf : req.fecha_fin with
            | none => exact Or.inl (by rw [h2, hf])
            | some fin => exact Or.inr ⟨fin, by rw [h2, hf], by rw [h1]; exact hord fin hf⟩
          split
          · exact hnil _ _
          · dsimp only
            split
            · rename_i w2 m hins
              have := congrArg (fun r => r.1.actividades) hins
              simp only [insertImagenes_actividades] at this
              refine ⟨_, this.symm, fun a ha => ?_⟩
              rw [List.mem_singleton] at ha
              subst ha
              exact hfila _ rfl rfl
            · rename_i w2 hins
              have := congrArg (fun r => r.1.actividades) hins
              simp only [insertImagenes_actividades] at this
              refine ⟨_, this.symm, fun a ha => ?_⟩
              rw [List.mem_singleton] at ha
              subst ha
              exact hfila _ rfl rfl
    · exact hnil _ _

/-- Witness of C23: the request `actividadInvertida`, whose end date is
earlier than its start date. -/
theorem postActividades_fechas_witness :
    ((postActividades sinFallos sinActividades actividadInvertida).2 =
        Response.fallo 400 "La fecha de fin no puede ser anterior a la fecha de inicio" ∧
      (postActividades sinFallos sinActividades actividadInvertida).1.actividades =
        sinActividades.actividades ∧
      (postActividades sinFallos sinActividades actividadInvertida).1.actividad_imagenes =
        sinActividades.actividad_imagenes) ∧
    ∃ nuevas, (postActividades sinFallos sinActividades
        { actividadInvertida with fecha_fin := some 1740787200001 }).1.actividades =
        sinActividades.actividades ++ nuevas ∧
      ∀ a ∈ nuevas, a.fecha_fin = none ∨ ∃ fin, a.fecha_fin = some fin ∧ a.fecha_inicio ≤ fin :=
  ⟨(postActividades_fechas sinFallos sinActividades actividadInvertida).1 1740787200000
      1738368000000 (by simp [camposPresentes, actividadInvertida, truthy]) rfl rfl (by decide),
    (postActividades_fechas sinFallos sinActividades
      { actividadInvertida with fecha_fin := some 1740787200001 }).2⟩

theorem limiteRecientes_rango (p : Option String) :
    1 ≤ limiteRecientes p ∧ limiteRecientes p ≤ 100 := by
  unfold limiteRecientes
  cases p with
  | none => decide
  | some s =>
    simp only
    split
    · decide
    · cases parseInt s true with
      | none => decide
      | some n =>
        simp only
        split
        · constructor
          · exact le_min (by omega) (by decide)
          · exact min_le_right _ _
        · decide

/-- C22 fails on GET /comunicados-recientes-alt.  The limit of GET
/comunicados-recientes is in [1, 100] for every value of the parameter, 5 when
it is absent and min(n, 100) when it parses to a positive n.  The limit of the
alt route for the parameter -3 is -3: the query is sent with LIMIT -3, the
datastore rejects it and the answer is 500, where the first route answers 200
with limit 5. -/
theorem limiteAlt_negativo :
    (∀ p, 1 ≤ limiteRecientes p ∧ limiteRecientes p ≤ 100) ∧
    limiteRecientes none = 5 ∧
    (∀ s n, parseInt s true = some n → 0 < n → limiteRecientes (some s) = min n 100) ∧
    limiteAlt none = 5 ∧
    limiteAlt (some "-3") = -3 ∧
    (getComunicadosRecientesAlt sinFallos cuentasUno [] (some "-3")).status = 500 ∧
    limiteRecientes (some "-3") = 5 ∧
    (getComunicadosRecientes false sinFallos cuentasUno [] (some "-3")).status = 200 := by
  refine ⟨limiteRecientes_rango, rfl, ?_, by decide, by decide, by decide, by decide, by decide⟩
  intro s n hs hn
  have h0 : s ≠ "" := by
    intro h
    subst h
    have hv : parseInt "" true = none := by decide
    rw [hv] at hs
    cases hs
  unfold limiteRecientes
  simp only [h0, if_false, hs, hn, if_true]

/-- C24 fails on GET /tareas/archivo/:filename.  For a name that is not in the
upload directory the answer is 404 with the body of the single property
error (Archivo no encontrado): the body has no property success. -/
theorem getTareasArchivo_sin_success :
    getTareasArchivo (enTareas ["tarea-1-1.pdf"]) "otro.pdf" =
      RespArchivo.json 404 none (some "Archivo no encontrado") := by
  decide

/-- C26 fails on POST /tareas.  The handler does not read the mode: when the
datastore rejects the insert of the task, the property error of the answer
500 is the message of the datastore, so two runs that differ only in that
message answer differently; the answers of GET /comunicados-recientes to the
same two failures outside development mode are equal. -/
theorem postTareas_expone_mensaje :
    (postTareas parseEjemplo (fallaEn 1 "connect ECONNREFUSED 10.0.0.5:3306")
      { db := dbVacia, fs := [] } crearQ1).2 =
      Response.fallo 500 "connect ECONNREFUSED 10.0.0.5:3306" ∧
    (postTareas parseEjemplo (fallaEn 1 "Lock wait timeout exceeded; try restarting transaction")
      { db := dbVacia, fs := [] } crearQ1).2 =
      Response.fallo 500 "Lock wait timeout exceeded; try restarting transaction" ∧
    (postTareas parseEjemplo (fallaEn 1 "connect ECONNREFUSED 10.0.0.5:3306")
      { db := dbVacia, fs := [] } crearQ1).2 ≠
    (postTareas parseEjemplo (fallaEn 1 "Lock wait timeout exceeded; try restarting transaction")
      { db := dbVacia, fs := [] } crearQ1).2 ∧
    getComunicadosRecientes false (fallaEn 0 "connect ECONNREFUSED 10.0.0.5:3306") cuentasUno []
        none =
      getComunicadosRecientes false
        (fallaEn 0 "Lock wait timeout exceeded; try restarting transaction") cuentasUno [] none := by
  refine ⟨by decide, by decide, by decide, by decide⟩

theorem updateDirectivo_ok (id : Nat) (nombre cargo : String) (dir : Nat) (email : String)
    (hp : Option String) (tabla : List Directivo) (r : List Directivo × Nat)
    (h : updateDirectivo id nombre cargo dir email hp tabla = Except.ok r) :
    r.2 = (tabla.filter (fun x => x.id == id)).length ∧
    r.1 = tabla.map (fun x =>
      if x.id = id then
        { x with nombre_completo := nombre, cargo := cargo, direccion_id := some dir,
                 email := email, password := hp.getD x.password }
      else x) := by
  unfold updateDirectivo at h
  split at h
  · cases h
  · injection h with h
    subst h
    refine ⟨rfl, ?_⟩
    apply List.map_congr_left
    intro x _
    cases hp <;> rfl

theorem updatePersonal_ok (id : Nat) (nombre puesto : String) (dir : Nat) (email : String)
    (hp : Option String) (tabla r : List Personal)
    (h : updatePersonal id nombre puesto dir email hp tabla = Except.ok r) :
    r = tabla.map (fun x =>
      if x.id = id then
        { x with nombre_completo := nombre, puesto := puesto, direccion_id := some dir,
                 email := email, password := hp.getD x.password }
      else x) := by
  unfold updatePersonal at h
  split at h
  · cases h
  · injection h with h
    subst h
    apply List.map_congr_left
    intro x _
    cases hp <;> rfl

theorem putDirectivos_200 (hash : String → String) (o : Oracle) (c : Cuentas) (req : DirectivoReq)
    (h : (putDirectivos hash o c req).2.status = 200) :
    ∃ nombre cargo dir email,
      (c.directivos.filter (fun r => r.id == req.id)).length ≠ 0 ∧
      (putDirectivos hash o c req).1.directivos = c.directivos.map (fun r =>
        if r.id = req.id then
          { r with nombre_completo := nombre, cargo := cargo, direccion_id := some dir,
                   email := email,
                   password := (if claveNueva req.password then some (hash (req.password.getD ""))
                     else none).getD r.password }
        else r) := by
  revert h
  unfold putDirectivos
  split
  · rename_i nombre cargo dir email hn hc hd he
    split
    · intro h; cases h
    · dsimp only
      cases o 0 with
      | some m => intro h; cases h
      | none =>
        dsimp only
        generalize hu : updateDirectivo _ _ _ _ _ _ _ = x
        cases x with
        | error e => cases e <;> (intro h; cases h)
        | ok r =>
          obtain ⟨tabla, af⟩ := r
          obtain ⟨h1, h2⟩ := updateDirectivo_ok _ _ _ _ _ _ _ _ hu
          dsimp only at h1 h2 ⊢
          split
          · intro h; cases h
          · rename_i haf
            intro _
            exact ⟨nombre, cargo, dir, email, by rw [← h1]; exact haf, h2⟩
  · intro h; cases h

theorem putPersonal_200 (hash : String → String) (o : Oracle) (c : Cuentas) (req : PersonalReq)
    (h : (putPersonal hash o c req).2.status = 200) :
    ∃ nombre puesto dir email,
      (c.personal.filter (fun r => r.id == req.id)).length ≠ 0 ∧
      (putPersonal hash o c req).1.personal = c.personal.map (fun r =>
        if r.id = req.id then
          { r with nombre_completo := nombre, puesto := puesto, direccion_id := some dir,
                   email := email,
                   password := (if claveNueva req.password then some (hash (req.password.getD ""))
                     else none).getD r.password }
        else r) := by
  revert h
  unfold putPersonal
  split
  · rename_i nombre puesto dir email hn hc hd he
    split
    · intro h; cases h
    · dsimp only
      cases o 0 with
      | some m => intro h; cases h
      | none =>
        dsimp only
        cases hf : c.personal.filter (fun r => r.id == req.id) with
        | nil => intro h; cases h
        | cons r0 rest =>
          dsimp only
          cases o 1 with
          | some m => cases req.foto <;> (intro h; cases h)
          | none =>
            dsimp only
            generalize hu : updatePersonal _ _ _ _ _ _ _ = x
            cases x with
            | error e => cases e <;> cases req.foto <;> (intro h; cases h)
            | ok tabla =>
              have h2 := updatePersonal_ok _ _ _ _ _ _ _ _ hu
              cases req.foto with
              | falla m => intro h; cases h
              | sinArchivo =>
                intro _
                exact ⟨nombre, puesto, dir, email, by simp, h2⟩
              | hecho =>
                intro _
                exact ⟨nombre, puesto, dir, email, by simp, h2⟩
  · intro h; cases h

theorem claveNueva_false_iff (pw : Option String) :
    claveNueva pw = false ↔ pw = none ∨ ∃ s, pw = some s ∧ ∀ ch ∈ s.data, jsWhite ch = true := by
  cases pw with
  | none => simp [claveNueva, truthy]
  | some s =>
    simp only [claveNueva, truthy, noTrim, List.all_eq_true]
    constructor
    · intro h
      right
      refine ⟨s, rfl, ?_⟩
      by_cases hs : s = ""
      · subst hs
        intro ch hch
        simp at hch
      · simpa [hs] using h
    · rintro (h | ⟨t, ht, hall⟩)
      · cases h
      · injection ht with ht
        subst ht
        simp only [Bool.and_eq_false_imp]
        intro _
        simpa using hall

/-- C30: for a successful edit (status 200) of a directivo (PUT
/directivos/:id) or of a person (PUT /personal/:id), a row of that id exists.
When the password field is blank (absent, empty or made of white space only),
the password column of every row is as before.  When the password field is a
non-blank p, the password column of the rows of that id is hash(p), that of
every other row is as before, and, hash(p) being different from p, no row of
that id stores p itself. -/
theorem editar_clave (hash : String → String) (o : Oracle) (c : Cuentas) (dreq : DirectivoReq)
    (preq : PersonalReq) :
    ((putDirectivos hash o c dreq).2.status = 200 →
      (∃ r ∈ (putDirectivos hash o c dreq).1.directivos, r.id = dreq.id) ∧
      (claveNueva dreq.password = false →
        (putDirectivos hash o c dreq).1.directivos.map (fun r => (r.id, r.password)) =
          c.directivos.map (fun r => (r.id, r.password))) ∧
      (∀ p, dreq.password = some p → claveNueva (some p) = true →
        (putDirectivos hash o c dreq).1.directivos.map (fun r => (r.id, r.password)) =
          c.directivos.map (fun r => (r.id, if r.id = dreq.id then hash p else r.password)) ∧
        (hash p ≠ p →
          ∀ r ∈ (putDirectivos hash o c dreq).1.directivos, r.id = dreq.id → r.password ≠ p))) ∧
    ((putPersonal hash o c preq).2.status = 200 →
      (∃ r ∈ (putPersonal hash o c preq).1.personal, r.id = preq.id) ∧
      (claveNueva preq.password = false →
        (putPersonal hash o c preq).1.personal.map (fun r => (r.id, r.password)) =
          c.personal.map (fun r => (r.id, r.password))) ∧
      (∀ p, preq.password = some p → claveNueva (some p) = true →
        (putPersonal hash o c preq).1.personal.map (fun r => (r.id, r.password)) =
          c.personal.map (fun r => (r.id, if r.id = preq.id then hash p else r.password)) ∧
        (hash p ≠ p →
          ∀ r ∈ (putPersonal hash o c preq).1.personal, r.id = preq.id → r.password ≠ p))) ∧
    (∀ pw, claveNueva pw = false ↔
      pw = none ∨ ∃ s, pw = some s ∧ ∀ ch ∈ s.data, jsWhite ch = true) := by
  refine ⟨?_, ?_, claveNueva_false_iff⟩
  · intro h
    obtain ⟨nombre, cargo, dir, email, hlen, htab⟩ := putDirectivos_200 hash o c dreq h
    rw [htab]
    refine ⟨?_, ?_, ?_⟩
    · cases hf : c.directivos.filter (fun r => r.id == dreq.id) with
      | nil => rw [hf] at hlen; exact absurd rfl hlen
      | cons r0 rest =>
        obtain ⟨hm, hq⟩ := primero_de_filtro _ _ _ _ hf
        have hid : r0.id = dreq.id := by simpa using hq
        refine ⟨_, List.mem_map.mpr ⟨r0, hm, rfl⟩, ?_⟩
        simp only [hid, if_true]
    · intro hb
      rw [List.map_map]
      apply List.map_congr_left
      intro r _
      by_cases hid : r.id = dreq.id
      · simp [Function.comp, hid, hb]
      · simp [Function.comp, hid]
    · intro p hp hn
      rw [hp] at *
      constructor
      · rw [List.map_map]
        apply List.map_congr_left
        intro r _
        by_cases hid : r.id = dreq.id
        · simp [Function.comp, hid, hn]
        · simp [Function.comp, hid]
      · intro hne r hr hid
        obtain ⟨r1, -, rfl⟩ := List.mem_map.mp hr
        by_cases hid1 : r1.id = dreq.id
        · simpa only [hid1, if_true, hn, Option.getD_some] using hne
        · simp only [hid1, if_false] at hid
  · intro h
    obtain ⟨nombre, puesto, dir, email, hlen, htab⟩ := putPersonal_200 hash o c preq h
    rw [htab]
    refine ⟨?_, ?_, ?_⟩
    · cases hf : c.personal.filter (fun r => r.id == preq.id) with
      | nil => rw [hf] at hlen; exact absurd rfl hlen
      | cons r0 rest =>
        obtain ⟨hm, hq⟩ := primero_de_filtro _ _ _ _ hf
        have hid : r0.id = preq.id := by simpa using hq
        refine ⟨_, List.mem_map.mpr ⟨r0, hm, rfl⟩, ?_⟩
        simp only [hid, if_true]
    · intro hb
      rw [List.map_map]
      apply List.map_congr_left
      intro r _
      by_cases hid : r.id = preq.id
      · simp [Function.comp, hid, hb]
      · simp [Function.comp, hid]
    · intro p hp hn
      rw [hp] at *
      constructor
      · rw [List.map_map]
        apply List.map_congr_left
        intro r _
        by_cases hid : r.id = preq.id
        · simp [Function.comp, hid, hn]
        · simp [Function.comp, hid]
      · intro hne r hr hid
        obtain ⟨r1, -, rfl⟩ := List.mem_map.mp hr
        by_cases hid1 : r1.id = preq.id
        · simpa only [hid1, if_true, hn, Option.getD_some] using hne
        · simp only [hid1, if_false] at hid

/-- Witness of C30: the directivo and the person of `cuentasTres` are edited
with the new password "nueva". -/
theorem editar_clave_witness :
    ((∃ r ∈ (putDirectivos hashEjemplo sinFallos cuentasTres
          (editarAna (some "nueva"))).1.directivos, r.id = (editarAna (some "nueva")).id) ∧
      (claveNueva (editarAna (some "nueva")).password = false →
        (putDirectivos hashEjemplo sinFallos cuentasTres
            (editarAna (some "nueva"))).1.directivos.map (fun r => (r.id, r.password)) =
          cuentasTres.directivos.map (fun r => (r.id, r.password))) ∧
      (∀ p, (editarAna (some "nueva")).password = some p → claveNueva (some p) = true →
        (putDirectivos hashEjemplo sinFallos cuentasTres
            (editarAna (some "nueva"))).1.directivos.map (fun r => (r.id, r.password)) =
          cuentasTres.directivos.map (fun r =>
            (r.id, if r.id = (editarAna (some "nueva")).id then hashEjemplo p else r.password)) ∧
        (hashEjemplo p ≠ p →
          ∀ r ∈ (putDirectivos hashEjemplo sinFallos cuentasTres
              (editarAna (some "nueva"))).1.directivos,
            r.id = (editarAna (some "nueva")).id → r.password ≠ p))) ∧
    ((∃ r ∈ (putPersonal hashEjemplo sinFallos cuentasTres
          (editarLuis (some "nueva"))).1.personal, r.id = (editarLuis (some "nueva")).id) ∧
      (claveNueva (editarLuis (some "nueva")).password = false →
        (putPersonal hashEjemplo sinFallos cuentasTres
            (editarLuis (some "nueva"))).1.personal.map (fun r => (r.id, r.password)) =
          cuentasTres.personal.map (fun r => (r.id, r.password))) ∧
      (∀ p, (editarLuis (some "nueva")).password = some p → claveNueva (some p) = true →
        (putPersonal hashEjemplo sinFallos cuentasTres
            (editarLuis (some "nueva"))).1.personal.map (fun r => (r.id, r.password)) =
          cuentasTres.personal.map (fun r =>
            (r.id, if r.id = (editarLuis (some "nueva")).id then hashEjemplo p else r.password)) ∧
        (hashEjemplo p ≠ p →
          ∀ r ∈ (putPersonal hashEjemplo sinFallos cuentasTres
              (editarLuis (some "nueva"))).1.personal,
            r.id = (editarLuis (some "nueva")).id → r.password ≠ p))) :=
  ⟨(editar_clave hashEjemplo sinFallos cuentasTres (editarAna (some "nueva"))
      (editarLuis (some "nueva"))).1 (by decide),
    (editar_clave hashEjemplo sinFallos cuentasTres (editarAna (some "nueva"))
      (editarLuis (some "nueva"))).2.1 (by decide)⟩

theorem refsValidas_iff (c : Cuentas) (db : Db) :
    refsValidas c db = true ↔
      (∀ t ∈ db.tareas, c.existe t.creado_por_id t.creado_por_tipo = true) ∧
      (∀ a ∈ db.tareas_asignaciones, c.existe a.usuario_id a.usuario_tipo = true) ∧
      (∀ h ∈ db.tareas_historial, c.existe h.usuario_id h.usuario_tipo = true) := by
  simp only [refsValidas, Bool.and_eq_true, List.all_eq_true, and_assoc]

theorem dbEditada_tareas (db : Db) (req : EditarReq) (titulo : String) (fecha : Nat)
    (lista : Option (List (Option AsigEntry))) :
    (dbEditada db req titulo fecha lista).tareas =
      db.tareas.map (fun t =>
        if t.id = req.id then
          { t with titulo := titulo, descripcion := orNull req.descripcion, fecha_entrega := fecha }
        else t) := by
  cases lista <;> rfl

theorem filasDe_refs (tid : Nat) (items : List (Option AsigEntry)) (n : Nat) (a : Asignacion)
    (h : a ∈ filasDe tid n items) :
    some { usuario_id := some a.usuario_id, usuario_tipo := some a.usuario_tipo } ∈ items := by
  induction items generalizing n with
  | nil => simp [filasDe] at h
  | cons e rest ih =>
    match e with
    | some { usuario_id := some uid, usuario_tipo := some ut } =>
      simp only [filasDe, List.mem_cons] at h
      rcases h with h | h
      · subst h; exact List.mem_cons_self _ _
      · exact List.mem_cons_of_mem _ (ih (n + 1) h)
    | some { usuario_id := none, usuario_tipo := _ } =>
      simp only [filasDe] at h
      exact List.mem_cons_of_mem _ (ih n h)
    | some { usuario_id := some _, usuario_tipo := none } =>
      simp only [filasDe] at h
      exact List.mem_cons_of_mem _ (ih n h)
    | none =>
      simp only [filasDe] at h
      exact List.mem_cons_of_mem _ (ih n h)

/-- Counterexample to C25 as stated.  From the empty datastore, whose pairs
are all valid for the tables of `cuentasUno`, the creation of the task of
`crearQ1` is accepted (201) and stores the assignees (7, personal) and
(9, directivo), of which the tables have no row.  And from `dbDirectivo`,
valid for the tables of `cuentasTres`, the completion of the assignment of
directivo 5 is accepted (200) and stores the pair (5, personal) in the
history, of which `personal` has no row. -/
theorem refs_counterexample :
    refsValidas cuentasUno dbVacia = true ∧
    (postTareas parseEjemplo sinFallos { db := dbVacia, fs := [] } crearQ1).2.status = 201 ∧
    refsValidas cuentasUno
      (postTareas parseEjemplo sinFallos { db := dbVacia, fs := [] } crearQ1).1.db = false ∧
    refsValidas cuentasTres dbDirectivo = true ∧
    (postTareasCompletar sinFallos { db := dbDirectivo, fs := [] }
      { asignacionId := 1, comentarios := some "hecho", files := [], now := 9 }).2.status = 200 ∧
    refsValidas cuentasTres
      (postTareasCompletar sinFallos { db := dbDirectivo, fs := [] }
        { asignacionId := 1, comentarios := some "hecho", files := [], now := 9 }).1.db = false := by
  refine ⟨by decide, by decide, by decide, by decide, by decide, by decide⟩

/-- C25, amended: the handlers store the pairs they are given, and validity of
the tagged references is preserved by calls whose pairs are valid.  From a
state where every stored pair is valid: a CreateTask call whose creator (role
superadmin when none is sent) and assignees are valid, an EditTask call whose
assignees are valid, a CompleteAssignment call on an assignment of role
personal, and an UpdateAssignmentState call whose acting user ((1,
superadmin) when none is sent) is valid, each leave a state where every
stored pair is valid, whether the call is accepted or not. -/
theorem refs_preservadas (parse : String → Option Parsed) (o : Oracle) (c : Cuentas) (w : World)
    (creq : CrearReq) (ereq : EditarReq) (kreq : CompletarReq) (sreq : EstadoReq)
    (hv : refsValidas c w.db = true) :
    ((∀ cid, creq.creado_por_id = some cid →
        c.existe cid (orDefault creq.creado_por_tipo "superadmin") = true) →
      (∀ asig items, creq.asignaciones = some asig → arregloNoVacio (parse asig) = some items →
        entradasValidas c items) →
      refsValidas c (postTareas parse o w creq).1.db = true) ∧
    ((∀ items, listaEditada parse ereq = some items → entradasValidas c items) →
      refsValidas c (putTareas parse o w ereq).1.db = true) ∧
    ((∀ a ∈ w.db.tareas_asignaciones, a.id = kreq.asignacionId → a.usuario_tipo = "personal") →
      refsValidas c (postTareasCompletar o w kreq).1.db = true) ∧
    (c.existe (usuarioOUno sreq.usuario_id) (orDefault sreq.usuario_tipo "superadmin") = true →
      refsValidas c (putTareasAsignacion o w sreq).1.db = true) := by
  obtain ⟨hT, hA, hH⟩ := (refsValidas_iff c w.db).mp hv
  refine ⟨?_, ?_, ?_, ?_⟩
  · intro hcre hasg
    rcases postTareas_casos parse o w creq with
      ⟨titulo, fecha, cid, asig, items, db, tid, -, -, -, hcid, hasig, -, harr, -, hx, h1, -, -⟩ |
      ⟨-, -, hdb⟩
    · obtain ⟨-, -, hr⟩ := (crearTx_ok_iff _ _ _ _ _ _ _ _ _ _ _).mp hx
      injection hr with hr1 hr2
      subst hr1
      rw [h1, refsValidas_iff]
      have hc := hcre cid hcid
      have hi := hasg asig items hasig harr
      refine ⟨?_, ?_, ?_⟩
      · intro t ht
        simp only [dbCreada, Db.conHistorial, Db.conArchivos, Db.conAsignaciones, Db.conTarea,
          List.mem_append, List.mem_singleton] at ht
        rcases ht with ht | ht
        · exact hT t ht
        · subst ht; exact hc
      · intro a ha
        simp only [dbCreada, Db.conHistorial, Db.conArchivos, Db.conAsignaciones, Db.conTarea,
          List.mem_append] at ha
        rcases ha with ha | ha
        · exact hA a ha
        · exact hi _ _ (filasDe_refs _ _ _ _ ha)
      · intro h hh
        simp only [dbCreada, Db.conHistorial, Db.conArchivos, Db.conAsignaciones, Db.conTarea,
          List.mem_append, List.mem_singleton] at hh
        rcases hh with hh | hh
        · exact hH h hh
        · subst hh; exact hc
    · rw [hdb]; exact hv
  · intro hasg
    rcases putTareas_casos parse o w ereq with ⟨titulo, fecha, -, -, -, h1, -, -⟩ | ⟨-, -, hw⟩
    · rw [h1, refsValidas_iff]
      refine ⟨?_, ?_, ?_⟩
      · intro t ht
        rw [dbEditada_tareas] at ht
        obtain ⟨t0, ht0, rfl⟩ := List.mem_map.mp ht
        have := hT t0 ht0
        by_cases hid : t0.id = ereq.id
        · simpa only [hid, if_true] using this
        · simpa only [hid, if_false] using this
      · intro a ha
        cases hl : listaEditada parse ereq with
        | none =>
          rw [hl, dbEditada_asignaciones_none] at ha
          exact hA a ha
        | some items =>
          rw [hl, dbEditada_asignaciones_some, List.mem_append, List.mem_filter] at ha
          rcases ha with ha | ha
          · exact hA a ha.1
          · exact hasg items hl _ _ (filasDe_refs _ _ _ _ ha)
      · intro h hh
        rw [dbEditada_historial] at hh
        exact hH h hh
    · rw [hw]; exact hv
  · intro hper
    rcases postTareasCompletar_casos o w kreq with
      ⟨a, titulo, rest, db, -, -, -, hsel, hx, h1, -, -⟩ | ⟨-, -, hdb⟩
    · obtain ⟨-, -, hdb⟩ := (completarTx_ok_iff _ _ _ _ _).mp hx
      subst hdb
      obtain ⟨hm1, hm2, -⟩ := selectConTitulo_mem w.db kreq.asignacionId _ hsel a titulo
        (List.mem_cons_self _ _)
      rw [h1, refsValidas_iff]
      refine ⟨hT, ?_, ?_⟩
      · intro x hx
        rw [dbCompletada_asignaciones] at hx
        obtain ⟨x0, hx0, rfl⟩ := List.mem_map.mp hx
        have := hA x0 hx0
        by_cases hid : x0.id = kreq.asignacionId
        · simpa only [hid, if_true] using this
        · simpa only [hid, if_false] using this
      · intro h hh
        simp only [dbCompletada, Db.conHistorial, Db.conArchivos, Db.conEstado,
          List.mem_append, List.mem_singleton] at hh
        rcases hh with hh | hh
        · exact hH h hh
        · subst hh
          have := hA a hm1
          rw [hper a hm1 hm2] at this
          exact this
    · rw [hdb]; exact hv
  · intro hact
    rcases putTareasAsignacion_casos o w sreq with ⟨a, rest, db, -, -, -, hx, h1, -, -⟩ | ⟨-, -, hw⟩
    · obtain ⟨s, -, -, -, hdb⟩ := (estadoTx_ok_iff _ _ _ _ _).mp hx
      subst hdb
      rw [h1, refsValidas_iff]
      refine ⟨hT, ?_, ?_⟩
      · intro x hx
        simp only [dbEstado, Db.conHistorial, Db.conEstado] at hx
        obtain ⟨x0, hx0, rfl⟩ := List.mem_map.mp hx
        have := hA x0 hx0
        by_cases hid : x0.id = sreq.id
        · simpa only [hid, if_true] using this
        · simpa only [hid, if_false] using this
      · intro h hh
        simp only [dbEstado, Db.conHistorial, Db.conEstado, List.mem_append,
          List.mem_singleton] at hh
        rcases hh with hh | hh
        · exact hH h hh
        · subst hh; exact hact
    · rw [hw]; exact hv

/-- Witness of C25: on `dbUnaTarea` with the tables of `cuentasFlujo`, the
creation of `crearQ1`, the edit of `editarQ1`, the completion of assignment 1
and the move of assignment 1 to en_progreso by person 7. -/
theorem refs_preservadas_witness :
    refsValidas cuentasFlujo dbUnaTarea = true ∧
    refsValidas cuentasFlujo
      (postTareas parseEjemplo sinFallos { db := dbUnaTarea, fs := [] } crearQ1).1.db = true ∧
    refsValidas cuentasFlujo
      (putTareas parseEjemplo sinFallos { db := dbUnaTarea, fs := [] } editarQ1).1.db = true ∧
    refsValidas cuentasFlujo
      (postTareasCompletar sinFallos { db := dbUnaTarea, fs := [] }
        { asignacionId := 1, comentarios := some "hecho", files := [], now := 9 }).1.db = true ∧
    refsValidas cuentasFlujo
      (putTareasAsignacion sinFallos { db := dbUnaTarea, fs := [] }
        { id := 1, estado := some "en_progreso", comentarios := none, usuario_id := some 7,
          usuario_tipo := some "personal", now := 9 }).1.db = true := by
  have hitems : entradasValidas cuentasFlujo
      [some { usuario_id := some 7, usuario_tipo := some "personal" },
       some { usuario_id := some 9, usuario_tipo := some "directivo" }] := by
    intro uid ut hm
    simp only [List.mem_cons, Option.some.injEq, AsigEntry.mk.injEq, List.mem_nil_iff,
      or_false] at hm
    rcases hm with ⟨h1, h2⟩ | ⟨h1, h2⟩ <;> subst h1 <;> subst h2 <;> decide
  have t := refs_preservadas parseEjemplo sinFallos cuentasFlujo { db := dbUnaTarea, fs := [] }
    crearQ1 editarQ1 { asignacionId := 1, comentarios := some "hecho", files := [], now := 9 }
    { id := 1, estado := some "en_progreso", comentarios := none, usuario_id := some 7,
      usuario_tipo := some "personal", now := 9 } (by decide)
  refine ⟨by decide, t.1 ?_ ?_, t.2.1 ?_, t.2.2.1 (by decide), t.2.2.2 (by decide)⟩
  · intro cid h
    have h1 : cid = 1 := (Option.some.inj h).symm
    subst h1
    decide
  · intro asig items ha hi
    have h1 : asig = cargaDos := (Option.some.inj ha).symm
    subst h1
    have h2 : arregloNoVacio (parseEjemplo cargaDos) = some
        [some { usuario_id := some 7, usuario_tipo := some "personal" },
         some { usuario_id := some 9, usuario_tipo := some "directivo" }] := by decide
    rw [h2] at hi
    rw [← Option.some.inj hi]
    exact hitems
  · intro items hi
    have h2 : listaEditada parseEjemplo editarQ1 = some
        [some { usuario_id := some 7, usuario_tipo := some "personal" },
         some { usuario_id := some 9, usuario_tipo := some "directivo" }] := by decide
    rw [h2] at hi
    rw [← Option.some.inj hi]
    exact hitems

end Stride
